import Mathlib

/-!
# LoRaWAN node (RadioLib, `src/protocols/LoRaWAN/LoRaWAN.cpp`)

A shallow embedding of the LoRaWAN Class-A node implementation and the
properties proved about it.

Conventions of the embedding:

* machine integers are natural numbers; every place where the C++ code stores a
  value into an object of `w` bits is written `% 2 ^ w`;
* byte buffers are `List Nat`; a read at an index is `List.getD _ _ 0`;
* the AES-128 primitive, the CMAC primitive, the radio driver, the millisecond
  clock and the interrupt flags are external: they are fields of `Env`;
* functions that wait in a loop on the clock or on an interrupt flag take a
  `fuel` argument bounding the number of loop iterations and return `none`
  when it is exhausted.
-/

namespace LoRaWAN

/-! ## Constants of `LoRaWAN.h` and `TypeDefs.h` -/

/-- Modelled from the spec: size of an AES-128 block and key (`RADIOLIB_AES128_BLOCK_SIZE`,
`RADIOLIB_AES128_KEY_SIZE`); the header defining it is not among the sources. -/
def RADIOLIB_AES128_BLOCK_SIZE : Nat := 16

/-- Modelled from the spec: position of the magic byte in an encryption or MIC block. -/
def RADIOLIB_LORAWAN_BLOCK_MAGIC_POS : Nat := 0

/-- Modelled from the spec: position of the direction byte in an encryption or MIC block. -/
def RADIOLIB_LORAWAN_BLOCK_DIR_POS : Nat := 5

/-- Modelled from the spec: position of the 4-byte device address in a block. -/
def RADIOLIB_LORAWAN_BLOCK_DEV_ADDR_POS : Nat := 6

/-- Modelled from the spec: position of the 4-byte frame counter in a block. -/
def RADIOLIB_LORAWAN_BLOCK_FCNT_POS : Nat := 10

/-- Modelled from the spec: magic byte `0x01` of a payload encryption block. -/
def RADIOLIB_LORAWAN_ENC_BLOCK_MAGIC : Nat := 0x01

/-- Modelled from the spec: position of the counter id, the last of the four bytes that
follow the magic byte of an encryption block. -/
def RADIOLIB_LORAWAN_ENC_BLOCK_COUNTER_ID_POS : Nat := 4

/-- Modelled from the spec: position of the block counter byte, the last byte of an
encryption block. -/
def RADIOLIB_LORAWAN_ENC_BLOCK_COUNTER_POS : Nat := 15

/-- Modelled from the spec: magic byte `0x49` of a MIC block. -/
def RADIOLIB_LORAWAN_MIC_BLOCK_MAGIC : Nat := 0x49

/-- Modelled from the spec: position of the message length, the last byte of a MIC block. -/
def RADIOLIB_LORAWAN_MIC_BLOCK_LEN_POS : Nat := 15

/-- Modelled from the spec: position of the data rate in the second MIC block of revision
1.1 (the TxDr byte of the LoRaWAN 1.1 block B1). -/
def RADIOLIB_LORAWAN_MIC_DATA_RATE_POS : Nat := 3

/-- Modelled from the spec: position of the channel index in the second MIC block of
revision 1.1 (the TxCh byte of the LoRaWAN 1.1 block B1). -/
def RADIOLIB_LORAWAN_MIC_CH_INDEX_POS : Nat := 4

/-- Modelled from the spec: direction byte of an uplink (0 = up). -/
def RADIOLIB_LORAWAN_CHANNEL_DIR_UPLINK : Nat := 0x00

/-- Modelled from the spec: direction byte of a downlink (1 = down). -/
def RADIOLIB_LORAWAN_CHANNEL_DIR_DOWNLINK : Nat := 0x01

/-- Modelled from the spec: MHDR message type of a Join-Request (`0x00 << 5`). -/
def RADIOLIB_LORAWAN_MHDR_MTYPE_JOIN_REQUEST : Nat := 0x00

/-- Modelled from the spec: MHDR message type of a Join-Accept (`0x01 << 5`). -/
def RADIOLIB_LORAWAN_MHDR_MTYPE_JOIN_ACCEPT : Nat := 0x20

/-- Modelled from the spec: MHDR message type of an unconfirmed data uplink (`0x02 << 5`);
with the major version it gives the first byte `0x40` of an uplink frame. -/
def RADIOLIB_LORAWAN_MHDR_MTYPE_UNCONF_DATA_UP : Nat := 0x40

/-- Modelled from the spec: mask of the message type in the MHDR byte (`0x07 << 5`). -/
def RADIOLIB_LORAWAN_MHDR_MTYPE_MASK : Nat := 0xE0

/-- Modelled from the spec: major version bits of the MHDR byte (LoRaWAN R1). -/
def RADIOLIB_LORAWAN_MHDR_MAJOR_R1 : Nat := 0x00

/-- Modelled from the spec: mask of FOptsLen, the low 4 bits of FCtrl. -/
def RADIOLIB_LORAWAN_FHDR_FOPTS_LEN_MASK : Nat := 0x0F

/-- Modelled from the spec: the port reserved for MAC commands (FPort = 0). -/
def RADIOLIB_LORAWAN_FPORT_MAC_COMMAND : Nat := 0x00

/-- Modelled from the spec: length of a Join-Request (23 bytes). -/
def RADIOLIB_LORAWAN_JOIN_REQUEST_LEN : Nat := 23

/-- Modelled from the spec: position of JoinEUI in a Join-Request. -/
def RADIOLIB_LORAWAN_JOIN_REQUEST_JOIN_EUI_POS : Nat := 1

/-- Modelled from the spec: position of DevEUI in a Join-Request. -/
def RADIOLIB_LORAWAN_JOIN_REQUEST_DEV_EUI_POS : Nat := 9

/-- Modelled from the spec: position of DevNonce in a Join-Request. -/
def RADIOLIB_LORAWAN_JOIN_REQUEST_DEV_NONCE_POS : Nat := 17

/-- Modelled from the spec: request type byte `0xFF` that starts the MIC buffer of a
revision 1.1 Join-Accept. -/
def RADIOLIB_LORAWAN_JOIN_REQUEST_TYPE : Nat := 0xFF

/-- Modelled from the spec: maximum length of a Join-Accept (33 bytes, with CFList). -/
def RADIOLIB_LORAWAN_JOIN_ACCEPT_MAX_LEN : Nat := 33

/-- Modelled from the spec: length of the CFList (16 bytes). -/
def RADIOLIB_LORAWAN_JOIN_ACCEPT_CFLIST_LEN : Nat := 16

/-- Modelled from the spec: position of JoinNonce in a Join-Accept. -/
def RADIOLIB_LORAWAN_JOIN_ACCEPT_JOIN_NONCE_POS : Nat := 1

/-- Modelled from the spec: position of HomeNetID in a Join-Accept. -/
def RADIOLIB_LORAWAN_JOIN_ACCEPT_HOME_NET_ID_POS : Nat := 4

/-- Modelled from the spec: position of DevAddr in a Join-Accept. -/
def RADIOLIB_LORAWAN_JOIN_ACCEPT_DEV_ADDR_POS : Nat := 7

/-- Modelled from the spec: position of JoinEUI in the revision 1.1 key derivation block. -/
def RADIOLIB_LORAWAN_JOIN_ACCEPT_JOIN_EUI_POS : Nat := 4

/-- Modelled from the spec: position of DLSettings in a Join-Accept. -/
def RADIOLIB_LORAWAN_JOIN_ACCEPT_DL_SETTINGS_POS : Nat := 11

/-- Modelled from the spec: position of RxDelay in a Join-Accept. -/
def RADIOLIB_LORAWAN_JOIN_ACCEPT_RX_DELAY_POS : Nat := 12

/-- Modelled from the spec: position of DevNonce in the revision 1.1 key derivation block. -/
def RADIOLIB_LORAWAN_JOIN_ACCEPT_DEV_NONCE_POS : Nat := 12

/-- Modelled from the spec: position of the CFList in a Join-Accept. -/
def RADIOLIB_LORAWAN_JOIN_ACCEPT_CFLIST_POS : Nat := 13

/-- Modelled from the spec: bit 7 of DLSettings, which signals revision 1.1. -/
def RADIOLIB_LORAWAN_JOIN_ACCEPT_R_1_1 : Nat := 0x80

/-- Modelled from the spec: key derivation tag of FNwkSIntKey (NwkSKey in revision 1.0). -/
def RADIOLIB_LORAWAN_JOIN_ACCEPT_F_NWK_S_INT_KEY : Nat := 0x01

/-- Modelled from the spec: key derivation tag of AppSKey. -/
def RADIOLIB_LORAWAN_JOIN_ACCEPT_APP_S_KEY : Nat := 0x02

/-- Modelled from the spec: key derivation tag of SNwkSIntKey. -/
def RADIOLIB_LORAWAN_JOIN_ACCEPT_S_NWK_S_INT_KEY : Nat := 0x03

/-- Modelled from the spec: key derivation tag of NwkSEncKey. -/
def RADIOLIB_LORAWAN_JOIN_ACCEPT_NWK_S_ENC_KEY : Nat := 0x04

/-- Modelled from the spec: key derivation tag `0x06` of JSIntKey. -/
def RADIOLIB_LORAWAN_JOIN_ACCEPT_JS_INT_KEY : Nat := 0x06

/-- Modelled from the spec: the MIC blocks reserved in front of a frame buffer (16 bytes). -/
def RADIOLIB_LORAWAN_FHDR_LEN_START_OFFS : Nat := 16

/-- Modelled from the spec: position of DevAddr in a frame buffer (after the MHDR byte). -/
def RADIOLIB_LORAWAN_FHDR_DEV_ADDR_POS : Nat := RADIOLIB_LORAWAN_FHDR_LEN_START_OFFS + 1

/-- Modelled from the spec: position of FCtrl in a frame buffer. -/
def RADIOLIB_LORAWAN_FHDR_FCTRL_POS : Nat := RADIOLIB_LORAWAN_FHDR_LEN_START_OFFS + 5

/-- Modelled from the spec: position of FCnt in a frame buffer. -/
def RADIOLIB_LORAWAN_FHDR_FCNT_POS : Nat := RADIOLIB_LORAWAN_FHDR_LEN_START_OFFS + 6

/-- Modelled from the spec: position of FOpts in a frame buffer. -/
def RADIOLIB_LORAWAN_FHDR_FOPTS_POS : Nat := RADIOLIB_LORAWAN_FHDR_LEN_START_OFFS + 8

/-- Modelled from the spec: position of FPort in a frame buffer with `fopts` bytes of FOpts. -/
def RADIOLIB_LORAWAN_FHDR_FPORT_POS (fopts : Nat) : Nat :=
  RADIOLIB_LORAWAN_FHDR_LEN_START_OFFS + 8 + fopts

/-- Modelled from the spec: position of FRMPayload in a frame buffer. -/
def RADIOLIB_LORAWAN_FRAME_PAYLOAD_POS (fopts : Nat) : Nat :=
  RADIOLIB_LORAWAN_FHDR_LEN_START_OFFS + 9 + fopts

/-- Modelled from the spec: length of a frame buffer, the 16 reserved bytes and the 13 bytes
of MHDR, DevAddr, FCtrl, FCnt, FPort and MIC with the payload and the FOpts. -/
def RADIOLIB_LORAWAN_FRAME_LEN (payload fopts : Nat) : Nat := 16 + 13 + payload + fopts

/-- Modelled from the spec: default RX1 delay in milliseconds. -/
def RADIOLIB_LORAWAN_RECEIVE_DELAY_1_MS : Nat := 1000

/-- Modelled from the spec: second Join-Accept delay in milliseconds. -/
def RADIOLIB_LORAWAN_JOIN_ACCEPT_DELAY_2_MS : Nat := 6000

/-- Modelled from the spec: the magic sentinel word kept in the session store. -/
def RADIOLIB_LORAWAN_MAGIC : Nat := 0x12AD101B

/-- Modelled from the spec: CFList mode "5 explicit frequencies". -/
def RADIOLIB_LORAWAN_CFLIST_TYPE_FREQUENCIES : Nat := 0

/-- Modelled from the spec: the sentinel "unused" data rate. -/
def RADIOLIB_LORAWAN_DATA_RATE_UNUSED : Nat := 0xFF

/-- Modelled from the spec: the flag of a data-rate descriptor that marks FSK 50 kbps. -/
def RADIOLIB_LORAWAN_DATA_RATE_FSK_50_K : Nat := 0x80

/-- Modelled from the spec: bandwidth selector of 125 kHz in the low two bits. -/
def RADIOLIB_LORAWAN_DATA_RATE_BW_125_KHZ : Nat := 0x00

/-- Modelled from the spec: bandwidth selector of 250 kHz in the low two bits. -/
def RADIOLIB_LORAWAN_DATA_RATE_BW_250_KHZ : Nat := 0x01

/-- Modelled from the spec: bandwidth selector of 500 kHz in the low two bits. -/
def RADIOLIB_LORAWAN_DATA_RATE_BW_500_KHZ : Nat := 0x02

/-- Modelled from the spec: number of entries of the data-rate table of a channel span. -/
def RADIOLIB_LORAWAN_CHANNEL_NUM_DATARATES : Nat := 15

/-- Modelled from the spec: LoRa sync word of LoRaWAN. -/
def RADIOLIB_LORAWAN_LORA_SYNC_WORD : Nat := 0x34

/-- Modelled from the spec: LoRa preamble length in symbols. -/
def RADIOLIB_LORAWAN_LORA_PREAMBLE_LEN : Nat := 8

/-- Modelled from the spec: FSK sync word of LoRaWAN. -/
def RADIOLIB_LORAWAN_GFSK_SYNC_WORD : Nat := 0xC194C1

/-- Modelled from the spec: FSK preamble length in bytes. -/
def RADIOLIB_LORAWAN_GFSK_PREAMBLE_LEN : Nat := 5

/-- Modelled from the spec: the Gaussian 1.0 data shaping selector of the radio driver. -/
def RADIOLIB_SHAPING_1_0 : Nat := 0x04

/-- Modelled from the spec: the whitening encoding selector of the radio driver. -/
def RADIOLIB_ENCODING_WHITENING : Nat := 0x02

/-- Modelled from the spec: identifier of the RekeyInd MAC command. -/
def RADIOLIB_LORAWAN_MAC_CMD_REKEY_IND : Nat := 0x0B

/-- Modelled from the spec: the status codes of `TypeDefs.h`, each kind a distinct code.
`other c` is any further code `c` that a radio driver returns. -/
inductive Status
  | RADIOLIB_ERR_NONE
  | RADIOLIB_ERR_UNKNOWN
  | RADIOLIB_ERR_PACKET_TOO_LONG
  | RADIOLIB_ERR_RX_TIMEOUT
  | RADIOLIB_ERR_CRC_MISMATCH
  | RADIOLIB_ERR_LORA_HEADER_DAMAGED
  | RADIOLIB_ERR_UNSUPPORTED
  | RADIOLIB_PREAMBLE_DETECTED
  | RADIOLIB_LORA_DETECTED
  | RADIOLIB_ERR_NETWORK_NOT_JOINED
  | RADIOLIB_ERR_DOWNLINK_MALFORMED
  | RADIOLIB_ERR_INVALID_REVISION
  | RADIOLIB_ERR_INVALID_PORT
  | RADIOLIB_ERR_NO_RX_WINDOW
  | RADIOLIB_ERR_INVALID_CHANNEL
  | RADIOLIB_ERR_INVALID_CID
  | RADIOLIB_ERR_UPLINK_UNAVAILABLE
  | other (code : Int)
  deriving DecidableEq, Repr

open Status

/-! ## Buffers -/

/-- The store `memcpy(&buf[pos], bytes, bytes.length)`: the bytes of `buf` from `pos` on are
replaced by `bytes`. -/
def writeAt (buf : List Nat) (pos : Nat) (bytes : List Nat) : List Nat :=
  buf.take pos ++ bytes ++ buf.drop (pos + bytes.length)

/-! ## Byte order helpers -/

/-- The template `LoRaWANNode::hton<T>(buff, val, size)` with `sizeof(T) = tBytes`: the
bytes written to `buff`, least significant first. `size = 0` is the default argument. -/
def hton (tBytes : Nat) (val : Nat) (size : Nat) : List Nat :=
  let targetSize := if size ≠ 0 then size else tBytes
  (List.range targetSize).map (fun i => ((val % 2 ^ (8 * tBytes)) >>> (8 * i)) % 256)

/-- The template `LoRaWANNode::ntoh<T>(buff, size)` with `sizeof(T) = tBytes`. Each byte is
cast to `uint32_t` before it is shifted, so the shifted value is kept to 32 bits; the
accumulator `res` has type `T`. (A shift of a 32-bit value by 32 or more has no defined
result in C++; here the bits shifted beyond bit 31 are dropped.) -/
def ntoh (tBytes : Nat) (buff : List Nat) (size : Nat) : Nat :=
  let targetSize := if size ≠ 0 then size else tBytes
  (List.range targetSize).foldl
    (fun res i => (res ||| ((buff.getD i 0 <<< (8 * i)) % 2 ^ 32)) % 2 ^ (8 * tBytes)) 0

/-! ## Message integrity code -/

/-- The function `LoRaWANNode::generateMIC(msg, len, key)`. `msg = none` is the null
pointer; `cmac key m` is the external CMAC-AES128 of the byte string `m` under `key`,
read as an array of `uint8_t`. -/
def generateMIC (cmac : List Nat → List Nat → List Nat) (msg : Option (List Nat)) (len : Nat)
    (key : List Nat) : Nat :=
  match msg with
  | none => 0
  | some m =>
    if len = 0 then 0
    else
      let c := cmac key (m.take len)
      ((c.getD 0 0 % 256) ||| ((c.getD 1 0 % 256) <<< 8) % 2 ^ 32
        ||| ((c.getD 2 0 % 256) <<< 16) % 2 ^ 32 ||| ((c.getD 3 0 % 256) <<< 24) % 2 ^ 32)

/-- The function `LoRaWANNode::verifyMIC(msg, len, key)`. -/
def verifyMIC (cmac : List Nat → List Nat → List Nat) (msg : Option (List Nat)) (len : Nat)
    (key : List Nat) : Bool :=
  match msg with
  | none => false
  | some m =>
    if len < 4 then false
    else
      let micReceived := ntoh 4 (m.drop (len - 4)) 0
      let micCalculated := generateMIC cmac (some m) (len - 4) key
      if micCalculated ≠ micReceived then false else true

/-! ## Payload cipher -/

/-- The body of the block loop of `processAES`, for `n` remaining blocks starting at block
index `i`, with the current contents of `encBlock` and `remLen`; the result is the bytes
written to `out` from index `16 * i` on. -/
def processAESLoop (aes : List Nat → List Nat → List Nat) (key : List Nat) (counter : Bool)
    (inp : List Nat) : Nat → Nat → List Nat → Nat → List Nat
  | 0, _, _, _ => []
  | n + 1, i, encBlock, remLen =>
    let encBlock :=
      if counter then encBlock.set RADIOLIB_LORAWAN_ENC_BLOCK_COUNTER_POS ((i + 1) % 256)
      else encBlock
    let encBuffer := aes key encBlock
    let xorLen := if remLen > RADIOLIB_AES128_BLOCK_SIZE then RADIOLIB_AES128_BLOCK_SIZE else remLen
    (List.range xorLen).map
        (fun j => (inp.getD (i * RADIOLIB_AES128_BLOCK_SIZE + j) 0 ^^^ encBuffer.getD j 0) % 256)
      ++ processAESLoop aes key counter inp n (i + 1) encBlock (remLen - xorLen)

/-- The function `LoRaWANNode::processAES(in, len, key, out, fcnt, dir, ctrId, counter)` of a
node whose device address is `devAddr`: the `len` bytes written to `out`. `aes key b` is the
external AES-128 ECB encryption of the 16-byte block `b` under `key`. -/
def processAES (aes : List Nat → List Nat → List Nat) (devAddr : Nat) (inp : List Nat)
    (len : Nat) (key : List Nat) (fcnt dir ctrId : Nat) (counter : Bool) : List Nat :=
  let numBlocks := len / RADIOLIB_AES128_BLOCK_SIZE
  let numBlocks := if len % RADIOLIB_AES128_BLOCK_SIZE ≠ 0 then numBlocks + 1 else numBlocks
  let encBlock := List.replicate RADIOLIB_AES128_BLOCK_SIZE 0
  let encBlock := encBlock.set RADIOLIB_LORAWAN_BLOCK_MAGIC_POS RADIOLIB_LORAWAN_ENC_BLOCK_MAGIC
  let encBlock := encBlock.set RADIOLIB_LORAWAN_ENC_BLOCK_COUNTER_ID_POS (ctrId % 256)
  let encBlock := encBlock.set RADIOLIB_LORAWAN_BLOCK_DIR_POS (dir % 256)
  let encBlock := writeAt encBlock RADIOLIB_LORAWAN_BLOCK_DEV_ADDR_POS (hton 4 devAddr 0)
  let encBlock := writeAt encBlock RADIOLIB_LORAWAN_BLOCK_FCNT_POS (hton 4 fcnt 0)
  processAESLoop aes key counter inp numBlocks 0 encBlock len

/-! ## Band profile, node state and external collaborators -/

/-- The union `DataRate_t` of the radio driver: the LoRa member with its bandwidth (kHz) and
spreading factor, or the FSK member with its bit rate and frequency deviation. -/
inductive DataRate_t
  | lora (bandwidth spreadingFactor : Nat)
  | fsk (bitRate freqDev : Nat)
  deriving DecidableEq, Repr, Inhabited

/-- Modelled from the spec: the channel span `LoRaWANChannelSpan_t` of `LoRaWAN.h`, with the
fields the source reads. Frequencies are `float` in the source; here they are natural
numbers (a frequency in a fixed unit), so that `freqStart + freqStep * k` is exact. -/
structure LoRaWANChannelSpan_t where
  numChannels : Nat
  freqStart : Nat
  freqStep : Nat
  dataRates : List Nat
  joinRequestDataRate : Nat
  deriving DecidableEq, Repr, Inhabited

/-- Modelled from the spec: the band profile `LoRaWANBand_t` of `LoRaWAN.h`, with the fields
the source reads. -/
structure LoRaWANBand_t where
  payloadLenMax : List Nat
  powerMax : Int
  fskFreq : Nat
  cfListType : Nat
  numChannelSpans : Nat
  defaultChannels : List LoRaWANChannelSpan_t
  backupChannel : LoRaWANChannelSpan_t
  deriving DecidableEq, Repr, Inhabited

/-- Modelled from the spec: the queued MAC command `LoRaWANMacCommand_t` of `LoRaWAN.h`. -/
structure LoRaWANMacCommand_t where
  cid : Nat
  len : Nat
  payload : List Nat
  deriving DecidableEq, Repr, Inhabited

/-- The data members of `LoRaWANNode` that the source reads or writes. `rxDelays` holds
`rxDelays[0]` and `rxDelays[1]`; `command = none` is the null pointer. The entries of
`availableChannelsFreq` are the integer frequency values of the CFList (the division by
`10000.0` in floating point is not modelled). -/
structure LoRaWANNode where
  band : LoRaWANBand_t
  FSK : Bool
  devAddr : Nat
  appSKey : List Nat
  fNwkSIntKey : List Nat
  sNwkSIntKey : List Nat
  nwkSEncKey : List Nat
  jSIntKey : List Nat
  rev : Nat
  rxDelays : Nat × Nat
  rxDelayStart : Nat
  chIndex : Nat
  dataRate : Nat
  availableChannelsFreq : List Nat
  command : Option LoRaWANMacCommand_t
  deriving DecidableEq, Repr, Inhabited

/-- The element `rxDelays[i]` for `i` in `0..1`. -/
def LoRaWANNode.rxDelay (node : LoRaWANNode) (i : Nat) : Nat :=
  if i = 0 then node.rxDelays.1 else node.rxDelays.2

/-- The session held in memory by the node: device address, Rx delays and the four session
keys. -/
def LoRaWANNode.session (node : LoRaWANNode) :
    Nat × (Nat × Nat) × List Nat × List Nat × List Nat × List Nat :=
  (node.devAddr, node.rxDelays, node.appSKey, node.fNwkSIntKey, node.sNwkSIntKey,
    node.nwkSEncKey)

/-- A call of a method of the radio driver (`PhysicalLayer`), with its arguments. -/
inductive RadioCall
  | transmit (data : List Nat) (len : Nat)
  | startReceive
  | readData (len : Nat)
  | getPacketLength (update : Bool)
  | startChannelScan
  | getChannelScanResult
  | standby
  | setFrequency (freq : Nat)
  | setDataRate (dr : DataRate_t)
  | setOutputPower (power : Int)
  | setSyncWord (syncWord : List Nat) (len : Nat)
  | setPreambleLength (len : Nat)
  | invertIQ (enable : Bool)
  | setEncoding (encoding : Nat)
  | setDataShaping (shaping : Nat)
  | getTimeOnAir (len : Nat)
  | setPacketReceivedAction
  | clearPacketReceivedAction
  | setChannelScanAction
  | clearChannelScanAction
  deriving DecidableEq, Repr

/-- The external collaborators of the node. Every interaction with the radio driver, the
clock or an interrupt flag happens at a tick (the number of interactions made before it),
and the collaborator answers as a function of the tick:

* `encryptECB key b`: AES-128 ECB encryption of the bytes `b` under `key`;
* `generateCMAC key m`: CMAC-AES128 of the bytes `m` under `key`;
* `status t`: the status returned by the radio call made at tick `t`;
* `timeOnAir t`, `packetLength t`: the value returned by `getTimeOnAir`, `getPacketLength`;
* `packet t`: the bytes that `readData` delivers;
* `millis t`: the value of the millisecond clock;
* `downlinkReceived t`, `scanFlag t`: the value read from the flag set by the interrupt
  service routine. -/
structure Env where
  encryptECB : List Nat → List Nat → List Nat
  generateCMAC : List Nat → List Nat → List Nat
  status : Nat → Status
  timeOnAir : Nat → Nat
  packetLength : Nat → Nat
  packet : Nat → List Nat
  millis : Nat → Nat
  downlinkReceived : Nat → Bool
  scanFlag : Nat → Bool

/-- What the node has done to the radio driver and the host so far: the number of
interactions, the calls of the radio driver in order, and the delays requested from the
host in order. -/
structure Phy where
  tick : Nat
  calls : List RadioCall
  delays : List Nat
  deriving DecidableEq, Repr, Inhabited

/-- Record a call of the radio driver. -/
def Phy.call (p : Phy) (c : RadioCall) : Phy :=
  { p with tick := p.tick + 1, calls := p.calls ++ [c] }

/-- Record a read of the clock or of an interrupt flag. -/
def Phy.step (p : Phy) : Phy :=
  { p with tick := p.tick + 1 }

/-- Record a call `hal->delay(ms)`. -/
def Phy.delay (p : Phy) (ms : Nat) : Phy :=
  { p with tick := p.tick + 1, delays := p.delays ++ [ms] }

/-- The part of the device that the radio-only operations work on: the node and the radio. -/
structure Dev where
  node : LoRaWANNode
  phy : Phy
  deriving DecidableEq, Repr, Inhabited

/-- A call of the radio driver that returns a status. -/
def Dev.radio (env : Env) (d : Dev) (c : RadioCall) : Status × Dev :=
  (env.status d.phy.tick, { d with phy := d.phy.call c })

/-- The call `hal->millis()`, a `uint32_t`. -/
def Dev.millis (env : Env) (d : Dev) : Nat × Dev :=
  (env.millis d.phy.tick % 2 ^ 32, { d with phy := d.phy.step })

/-- The records of the persistent store. -/
structure Store where
  magic : Nat
  devAddr : Nat
  devNonce : Nat
  fCntUp : Nat
  appSKey : List Nat
  fNwkSIntKey : List Nat
  sNwkSIntKey : List Nat
  nwkSEncKey : List Nat
  deriving DecidableEq, Repr, Inhabited

/-- A write to the persistent store: `setPersistentParameter` for the integers and
`writePersistentStorage` for the key blobs, by the identifier of the record. -/
inductive StoreWrite
  | magic (v : Nat)
  | devAddr (v : Nat)
  | devNonce (v : Nat)
  | fCntUp (v : Nat)
  | appSKey (k : List Nat)
  | fNwkSIntKey (k : List Nat)
  | sNwkSIntKey (k : List Nat)
  | nwkSEncKey (k : List Nat)
  deriving DecidableEq, Repr

/-- The effect of a write on the records. -/
def Store.apply (s : Store) : StoreWrite → Store
  | .magic v => { s with magic := v }
  | .devAddr v => { s with devAddr := v }
  | .devNonce v => { s with devNonce := v }
  | .fCntUp v => { s with fCntUp := v }
  | .appSKey k => { s with appSKey := k }
  | .fNwkSIntKey k => { s with fNwkSIntKey := k }
  | .sNwkSIntKey k => { s with sNwkSIntKey := k }
  | .nwkSEncKey k => { s with nwkSEncKey := k }

/-- The persistent storage of the host: the records and the writes made so far, in order. -/
structure Hal where
  store : Store
  writes : List StoreWrite
  deriving DecidableEq, Repr, Inhabited

/-- A write to the persistent storage. -/
def Hal.write (h : Hal) (w : StoreWrite) : Hal :=
  { store := h.store.apply w, writes := h.writes ++ [w] }

/-! ## Channel configuration -/

/-- The function `LoRaWANNode::findDataRate(dr, datr, span)`: the value stored in `*datr`
and the node, whose `dataRate` member the function sets. -/
def findDataRate (node : LoRaWANNode) (dr : Nat) (span : LoRaWANChannelSpan_t) :
    DataRate_t × LoRaWANNode :=
  let dataRateBand := span.dataRates.getD dr 0
  let node := { node with dataRate := dr }
  let found :=
    if dr = RADIOLIB_LORAWAN_DATA_RATE_UNUSED then
      (List.range RADIOLIB_LORAWAN_CHANNEL_NUM_DATARATES).find?
        (fun i => span.dataRates.getD i 0 ≠ RADIOLIB_LORAWAN_DATA_RATE_UNUSED)
    else none
  let dataRateBand := match found with
    | some i => span.dataRates.getD i 0
    | none => dataRateBand
  let node := match found with
    | some i => { node with dataRate := i }
    | none => node
  let datr :=
    if dataRateBand &&& RADIOLIB_LORAWAN_DATA_RATE_FSK_50_K ≠ 0 then DataRate_t.fsk 50 25
    else
      let bw := dataRateBand &&& 0x03
      let bandwidth :=
        if bw = RADIOLIB_LORAWAN_DATA_RATE_BW_125_KHZ then 125
        else if bw = RADIOLIB_LORAWAN_DATA_RATE_BW_250_KHZ then 250
        else if bw = RADIOLIB_LORAWAN_DATA_RATE_BW_500_KHZ then 500
        else 125
      DataRate_t.lora bandwidth (((dataRateBand &&& 0x70) >>> 4) + 6)
  (datr, node)

/-- The inner loop of `configureChannel` over the channels of one span, from the current
`spanChannelId` and `chanCtr`; the first argument bounds the iterations (the loop runs at
most `numChannels` times). The result is `found`, `spanChannelId` and `chanCtr`. -/
def configureChannelInner (chan numChannels : Nat) : Nat → Nat → Nat → Bool × Nat × Nat
  | 0, spanChannelId, chanCtr => (false, spanChannelId, chanCtr)
  | n + 1, spanChannelId, chanCtr =>
    if spanChannelId < numChannels then
      if chanCtr ≥ chan then (true, spanChannelId, chanCtr)
      else configureChannelInner chan numChannels n (spanChannelId + 1) (chanCtr + 1)
    else (false, spanChannelId, chanCtr)

/-- The outer loop of `configureChannel` over the spans of the band; the first argument
bounds the iterations (the loop runs at most `numChannelSpans` times). The result is
`found`, `span` and `spanChannelId`. -/
def configureChannelOuter (band : LoRaWANBand_t) (chan : Nat) :
    Nat → Nat → Nat → Nat → Bool × Nat × Nat
  | 0, span, spanChannelId, _ => (false, span, spanChannelId)
  | n + 1, span, spanChannelId, chanCtr =>
    if span < band.numChannelSpans then
      let numChannels := (band.defaultChannels.getD span default).numChannels
      let r := configureChannelInner chan numChannels numChannels spanChannelId chanCtr
      if r.1 then (true, span, r.2.1)
      else configureChannelOuter band chan n (span + 1) r.2.1 r.2.2
    else (false, span, spanChannelId)

/-- The function `LoRaWANNode::configureChannel(chan, dr)`. -/
def configureChannel (env : Env) (d : Dev) (chan dr : Nat) : Status × Dev :=
  let band := d.node.band
  let r := configureChannelOuter band chan band.numChannelSpans 0 0 0
  let found := r.1
  let span := r.2.1
  let spanChannelId := r.2.2
  if !found then (RADIOLIB_ERR_INVALID_CHANNEL, d)
  else
    let d := { d with node := { d.node with chIndex := chan } }
    let ch := band.defaultChannels.getD span default
    let freq := ch.freqStart + ch.freqStep * spanChannelId
    let (state, d) := d.radio env (.setFrequency freq)
    if state ≠ RADIOLIB_ERR_NONE then (state, d)
    else
      let (datr, node) := findDataRate d.node dr ch
      let d := { d with node := node }
      d.radio env (.setDataRate datr)

/-- The function `LoRaWANNode::setPhyProperties()`. -/
def setPhyProperties (env : Env) (d : Dev) : Status × Dev :=
  let channelId := 0
  let (state, d) :=
    if d.node.FSK then
      let (state, d) := d.radio env (.setFrequency d.node.band.fskFreq)
      if state ≠ RADIOLIB_ERR_NONE then (state, d)
      else
        let (state, d) := d.radio env (.setDataRate (DataRate_t.fsk 50 25))
        if state ≠ RADIOLIB_ERR_NONE then (state, d)
        else
          let (state, d) := d.radio env (.setDataShaping RADIOLIB_SHAPING_1_0)
          if state ≠ RADIOLIB_ERR_NONE then (state, d)
          else d.radio env (.setEncoding RADIOLIB_ENCODING_WHITENING)
    else
      configureChannel env d channelId
        (d.node.band.defaultChannels.getD 0 default).joinRequestDataRate
  if state ≠ RADIOLIB_ERR_NONE then (state, d)
  else
    let (state, d) := d.radio env (.setOutputPower d.node.band.powerMax)
    if state ≠ RADIOLIB_ERR_NONE then (state, d)
    else
      let syncWord :=
        if d.node.FSK then
          [(RADIOLIB_LORAWAN_GFSK_SYNC_WORD >>> 16) % 256,
            (RADIOLIB_LORAWAN_GFSK_SYNC_WORD >>> 8) % 256, RADIOLIB_LORAWAN_GFSK_SYNC_WORD % 256]
        else [RADIOLIB_LORAWAN_LORA_SYNC_WORD, 0, 0]
      let syncWordLen := if d.node.FSK then 3 else 1
      let preLen :=
        if d.node.FSK then 8 * RADIOLIB_LORAWAN_GFSK_PREAMBLE_LEN
        else RADIOLIB_LORAWAN_LORA_PREAMBLE_LEN
      let (state, d) := d.radio env (.setSyncWord syncWord syncWordLen)
      if state ≠ RADIOLIB_ERR_NONE then (state, d)
      else d.radio env (.setPreambleLength preLen)

/-! ## Uplink -/

/-- The difference `a - b` of two `uint32_t` values. -/
def sub32 (a b : Nat) : Nat :=
  (a % 2 ^ 32 + 2 ^ 32 - b % 2 ^ 32) % 2 ^ 32

/-- The buffer `foptsBuff` that `uplink` fills from the queued MAC command: the command
identifier, then `payload[i]` at index `i` for `1 ≤ i < len`. -/
def foptsBuff (c : LoRaWANMacCommand_t) : List Nat :=
  (List.range' 1 (c.len - 1)).foldl (fun buf i => buf.set i (c.payload.getD i 0))
    ((List.replicate RADIOLIB_AES128_BLOCK_SIZE 0).set 0 (c.cid % 256))

/-- The first MIC block of a frame: magic byte, direction, device address, frame counter and
message length. -/
def micBlock0 (dir devAddr fcnt msgLen : Nat) : List Nat :=
  let block0 := List.replicate RADIOLIB_AES128_BLOCK_SIZE 0
  let block0 := block0.set RADIOLIB_LORAWAN_BLOCK_MAGIC_POS RADIOLIB_LORAWAN_MIC_BLOCK_MAGIC
  let block0 := block0.set RADIOLIB_LORAWAN_BLOCK_DIR_POS dir
  let block0 := writeAt block0 RADIOLIB_LORAWAN_BLOCK_DEV_ADDR_POS (hton 4 devAddr 0)
  let block0 := writeAt block0 RADIOLIB_LORAWAN_BLOCK_FCNT_POS (hton 4 fcnt 0)
  block0.set RADIOLIB_LORAWAN_MIC_BLOCK_LEN_POS (msgLen % 256)

/-- The function `LoRaWANNode::uplink(data, len, port)`. -/
def uplink (env : Env) (d : Dev) (hal : Hal) (data : List Nat) (len : Nat) (port : Nat) :
    Status × Dev × Hal :=
  -- check destination port
  if port > 0xDF then (RADIOLIB_ERR_INVALID_PORT, d, hal)
  else
    -- check if there is a MAC command to piggyback
    let foptsLen := match d.node.command with
      | some c => (1 + c.len) % 256
      | none => 0
    -- check maximum payload len as defined in phy
    if len > d.node.band.payloadLenMax.getD d.node.dataRate 0 then
      (RADIOLIB_ERR_PACKET_TOO_LONG, d, hal)
    else
      -- check if sufficient time has elapsed since the last uplink
      let (now, d) := d.millis env
      if sub32 now d.node.rxDelayStart < d.node.rxDelay 1 then
        (RADIOLIB_ERR_UPLINK_UNAVAILABLE, d, hal)
      else
        -- build the uplink message
        let uplinkMsgLen := RADIOLIB_LORAWAN_FRAME_LEN len foptsLen
        let uplinkMsg := List.replicate uplinkMsgLen 0
        let uplinkMsg := uplinkMsg.set RADIOLIB_LORAWAN_FHDR_LEN_START_OFFS
          (RADIOLIB_LORAWAN_MHDR_MTYPE_UNCONF_DATA_UP ||| RADIOLIB_LORAWAN_MHDR_MAJOR_R1)
        let uplinkMsg := writeAt uplinkMsg RADIOLIB_LORAWAN_FHDR_DEV_ADDR_POS
          (hton 4 d.node.devAddr 0)
        let uplinkMsg := uplinkMsg.set RADIOLIB_LORAWAN_FHDR_FCTRL_POS (0x00 ||| foptsLen)
        -- get frame counter from persistent storage
        let fcnt := (hal.store.fCntUp % 2 ^ 32 + 1) % 2 ^ 32
        let hal := hal.write (.fCntUp fcnt)
        let uplinkMsg := writeAt uplinkMsg RADIOLIB_LORAWAN_FHDR_FCNT_POS
          (hton 2 (fcnt % 2 ^ 16) 0)
        -- check if there is something in FOpts
        let uplinkMsg := match d.node.command with
          | some c =>
            writeAt uplinkMsg (RADIOLIB_LORAWAN_FRAME_PAYLOAD_POS 0)
              (processAES env.encryptECB d.node.devAddr (foptsBuff c) foptsLen d.node.nwkSEncKey
                fcnt RADIOLIB_LORAWAN_CHANNEL_DIR_UPLINK 0x00 false)
          | none => uplinkMsg
        -- set the port
        let uplinkMsg := uplinkMsg.set (RADIOLIB_LORAWAN_FHDR_FPORT_POS foptsLen) port
        -- select encryption key based on the target port
        let encKey :=
          if port = RADIOLIB_LORAWAN_FPORT_MAC_COMMAND then d.node.nwkSEncKey
          else d.node.appSKey
        -- encrypt the frame payload
        let uplinkMsg := writeAt uplinkMsg (RADIOLIB_LORAWAN_FRAME_PAYLOAD_POS foptsLen)
          (processAES env.encryptECB d.node.devAddr data len encKey fcnt
            RADIOLIB_LORAWAN_CHANNEL_DIR_UPLINK 0x00 true)
        -- create blocks for MIC calculation
        let block0 := micBlock0 RADIOLIB_LORAWAN_CHANNEL_DIR_UPLINK d.node.devAddr fcnt
          (uplinkMsgLen - RADIOLIB_AES128_BLOCK_SIZE - 4)
        let block1 := block0
        let block1 := block1.set RADIOLIB_LORAWAN_MIC_DATA_RATE_POS d.node.dataRate
        let block1 := block1.set RADIOLIB_LORAWAN_MIC_CH_INDEX_POS d.node.chIndex
        -- calculate authentication codes
        let uplinkMsg := writeAt uplinkMsg 0 block1
        let micS := generateMIC env.generateCMAC (some uplinkMsg) (uplinkMsgLen - 4)
          d.node.sNwkSIntKey
        let uplinkMsg := writeAt uplinkMsg 0 block0
        let micF := generateMIC env.generateCMAC (some uplinkMsg) (uplinkMsgLen - 4)
          d.node.fNwkSIntKey
        -- check LoRaWAN revision
        let uplinkMsg :=
          if d.node.rev = 1 then
            let mic := (((micF &&& 0x0000FF00) <<< 16) % 2 ^ 32)
              ||| (((micF &&& 0x0000000FF) <<< 16) % 2 ^ 32)
              ||| ((micS &&& 0x0000FF00) >>> 0) ||| ((micS &&& 0x0000000FF) >>> 0)
            writeAt uplinkMsg (uplinkMsgLen - 4) (hton 4 mic 0)
          else writeAt uplinkMsg (uplinkMsgLen - 4) (hton 4 micF 0)
        -- send it (without the MIC calculation blocks)
        let (txStart, d) := d.millis env
        let timeOnAir := (env.timeOnAir d.phy.tick % 2 ^ 32) / 1000
        let airLen := uplinkMsgLen - RADIOLIB_LORAWAN_FHDR_LEN_START_OFFS
        let d := { d with phy := d.phy.call (.getTimeOnAir airLen) }
        let (state, d) := d.radio env
          (.transmit (uplinkMsg.drop RADIOLIB_LORAWAN_FHDR_LEN_START_OFFS) airLen)
        if state ≠ RADIOLIB_ERR_NONE then (state, d, hal)
        else
          -- set the timestamp so that we can measure when to start receiving
          let node := { d.node with command := none }
          let node := { node with rxDelayStart := (txStart + timeOnAir) % 2 ^ 32 }
          let d := { d with node := node }
          (RADIOLIB_ERR_NONE, d, hal)

/-- The length of the FOpts field that `uplink` reserves for the queued MAC command. -/
def uplinkFoptsLen (node : LoRaWANNode) : Nat :=
  match node.command with
  | some c => (1 + c.len) % 256
  | none => 0

/-- The buffer `uplinkMsg` of `uplink` once the frame header, the FOpts, the port and the
encrypted payload have been written (lines 350-386), before the MIC blocks are filled in.
`fcnt` is the frame counter written back to the store. -/
def uplinkMsgBody (env : Env) (node : LoRaWANNode) (fcnt : Nat) (data : List Nat)
    (len port : Nat) : List Nat :=
  let foptsLen := uplinkFoptsLen node
  -- build the uplink message
  let uplinkMsgLen := RADIOLIB_LORAWAN_FRAME_LEN len foptsLen
  let uplinkMsg := List.replicate uplinkMsgLen 0
  let uplinkMsg := uplinkMsg.set RADIOLIB_LORAWAN_FHDR_LEN_START_OFFS
    (RADIOLIB_LORAWAN_MHDR_MTYPE_UNCONF_DATA_UP ||| RADIOLIB_LORAWAN_MHDR_MAJOR_R1)
  let uplinkMsg := writeAt uplinkMsg RADIOLIB_LORAWAN_FHDR_DEV_ADDR_POS (hton 4 node.devAddr 0)
  let uplinkMsg := uplinkMsg.set RADIOLIB_LORAWAN_FHDR_FCTRL_POS (0x00 ||| foptsLen)
  let uplinkMsg := writeAt uplinkMsg RADIOLIB_LORAWAN_FHDR_FCNT_POS (hton 2 (fcnt % 2 ^ 16) 0)
  -- check if there is something in FOpts
  let uplinkMsg := match node.command with
    | some c =>
      writeAt uplinkMsg (RADIOLIB_LORAWAN_FRAME_PAYLOAD_POS 0)
        (processAES env.encryptECB node.devAddr (foptsBuff c) foptsLen node.nwkSEncKey
          fcnt RADIOLIB_LORAWAN_CHANNEL_DIR_UPLINK 0x00 false)
    | none => uplinkMsg
  -- set the port
  let uplinkMsg := uplinkMsg.set (RADIOLIB_LORAWAN_FHDR_FPORT_POS foptsLen) port
  -- select encryption key based on the target port
  let encKey :=
    if port = RADIOLIB_LORAWAN_FPORT_MAC_COMMAND then node.nwkSEncKey
    else node.appSKey
  -- encrypt the frame payload
  writeAt uplinkMsg (RADIOLIB_LORAWAN_FRAME_PAYLOAD_POS foptsLen)
    (processAES env.encryptECB node.devAddr data len encKey fcnt
      RADIOLIB_LORAWAN_CHANNEL_DIR_UPLINK 0x00 true)

/-- The buffer `uplinkMsg` of `uplink` when it is handed to `transmit` (lines 350-424): the
two MIC blocks take turns in the first 16 bytes, the frame follows and the MIC is stored in
its last four bytes. -/
def buildUplinkMsg (env : Env) (node : LoRaWANNode) (fcnt : Nat) (data : List Nat)
    (len port : Nat) : List Nat :=
  let foptsLen := uplinkFoptsLen node
  let uplinkMsgLen := RADIOLIB_LORAWAN_FRAME_LEN len foptsLen
  let uplinkMsg := uplinkMsgBody env node fcnt data len port
  -- create blocks for MIC calculation
  let block0 := micBlock0 RADIOLIB_LORAWAN_CHANNEL_DIR_UPLINK node.devAddr fcnt
    (uplinkMsgLen - RADIOLIB_AES128_BLOCK_SIZE - 4)
  let block1 := block0
  let block1 := block1.set RADIOLIB_LORAWAN_MIC_DATA_RATE_POS node.dataRate
  let block1 := block1.set RADIOLIB_LORAWAN_MIC_CH_INDEX_POS node.chIndex
  -- calculate authentication codes
  let uplinkMsg := writeAt uplinkMsg 0 block1
  let micS := generateMIC env.generateCMAC (some uplinkMsg) (uplinkMsgLen - 4) node.sNwkSIntKey
  let uplinkMsg := writeAt uplinkMsg 0 block0
  let micF := generateMIC env.generateCMAC (some uplinkMsg) (uplinkMsgLen - 4) node.fNwkSIntKey
  -- check LoRaWAN revision
  if node.rev = 1 then
    let mic := (((micF &&& 0x0000FF00) <<< 16) % 2 ^ 32)
      ||| (((micF &&& 0x0000000FF) <<< 16) % 2 ^ 32)
      ||| ((micS &&& 0x0000FF00) >>> 0) ||| ((micS &&& 0x0000000FF) >>> 0)
    writeAt uplinkMsg (uplinkMsgLen - 4) (hton 4 mic 0)
  else writeAt uplinkMsg (uplinkMsgLen - 4) (hton 4 micF 0)

/-! ## Downlink -/

/-- The call `phyLayer->readData(buf, len)`: the status and the `len` bytes stored in `buf`. -/
def Dev.readData (env : Env) (d : Dev) (len : Nat) : Status × List Nat × Dev :=
  (env.status d.phy.tick,
    (List.range len).map (fun i => (env.packet d.phy.tick).getD i 0 % 256),
    { d with phy := d.phy.call (.readData len) })

/-- The loop `while(!downlinkReceived)` of `beginOTAA` and `downlink`, which leaves when the
flag is set (result `true`) or when `timeout` milliseconds have passed since `start` (result
`false`); the first argument bounds the iterations. -/
def waitDownlink (env : Env) (start timeout : Nat) : Nat → Dev → Option (Bool × Dev)
  | 0, _ => none
  | n + 1, d =>
    let flag := env.downlinkReceived d.phy.tick
    let d := { d with phy := d.phy.step }
    if flag then some (true, d)
    else
      let (now, d) := d.millis env
      if sub32 now start ≥ timeout then some (false, d)
      else waitDownlink env start timeout n d

/-- The loop `while(!scanFlag)` of `downlink`, which leaves when the flag is set or when
3000 ms have passed since `cadStart`; the first argument bounds the iterations. -/
def waitScanFlag (env : Env) (cadStart : Nat) : Nat → Dev → Option Dev
  | 0, _ => none
  | n + 1, d =>
    let flag := env.scanFlag d.phy.tick
    let d := { d with phy := d.phy.step }
    if flag then some d
    else
      let (now, d) := d.millis env
      if sub32 now cadStart ≥ 3000 then some d
      else waitScanFlag env cadStart n d

/-- How the scanning part of `downlink` ends: `ret state` when the function returns `state`
from inside the loops, `done packetDetected` when the loops are left. -/
inductive ScanOutcome
  | ret (state : Status) (d : Dev)
  | done (packetDetected : Bool) (d : Dev)
  deriving DecidableEq, Repr

/-- The state of the device at the end of the scanning part of `downlink`. -/
def ScanOutcome.dev : ScanOutcome → Dev
  | .ret _ d => d
  | .done _ d => d

/-- The channel scan loop of one Rx window of `downlink`; the first argument bounds the
iterations. -/
def scanLoop (env : Env) (scanStart scanTimeout scanGuard : Nat) : Nat → Dev → Option ScanOutcome
  | 0, _ => none
  | n + 1, d =>
    let (now, d) := d.millis env
    if sub32 now scanStart < (scanTimeout + scanGuard) % 2 ^ 32 then
      -- check channel detection timeout
      let (state, d) := d.radio env .startChannelScan
      if state ≠ RADIOLIB_ERR_NONE then some (.ret state d)
      else
        -- wait with some timeout, though it should not be hit
        let (cadStart, d) := d.millis env
        match waitScanFlag env cadStart n d with
        | none => none
        | some d =>
          -- check the scan result
          let (state, d) := d.radio env .getChannelScanResult
          if state = RADIOLIB_PREAMBLE_DETECTED ∨ state = RADIOLIB_LORA_DETECTED then
            some (.done true d)
          else scanLoop env scanStart scanTimeout scanGuard n d
    else some (.done false d)

/-- The loop `for(uint8_t i = 0; i < 2; i++)` of `downlink` over the two Rx windows, from
window `i`, with `k` windows left; `fuel` bounds the iterations of the loops inside. -/
def rxWindows (env : Env) (scanTimeout scanGuard fuel : Nat) : Nat → Nat → Dev →
    Option ScanOutcome
  | 0, _, d => some (.done false d)
  | k + 1, i, d =>
    -- wait for the start of the Rx window
    let (now, d) := d.millis env
    let waitLen := sub32 (d.node.rxDelay i) (sub32 now d.node.rxDelayStart)
    let waitLen := if waitLen > scanGuard then waitLen - scanGuard else waitLen
    let d := { d with phy := d.phy.delay waitLen }
    -- wait until we get a preamble
    let (scanStart, d) := d.millis env
    match scanLoop env scanStart scanTimeout scanGuard fuel d with
    | none => none
    | some (.ret state d) => some (.ret state d)
    | some (.done packetDetected d) =>
      -- check if we have a packet
      if packetDetected then some (.done true d)
      else if i = 0 then
        -- nothing in the first window, configure for the second
        let (state, d) := d.radio env (.setFrequency d.node.band.backupChannel.freqStart)
        if state ≠ RADIOLIB_ERR_NONE then some (.ret state d)
        else
          let (datr, node) :=
            findDataRate d.node RADIOLIB_LORAWAN_DATA_RATE_UNUSED d.node.band.backupChannel
          let d := { d with node := node }
          let (state, d) := d.radio env (.setDataRate datr)
          if state ≠ RADIOLIB_ERR_NONE then some (.ret state d)
          else rxWindows env scanTimeout scanGuard fuel k (i + 1) d
      else rxWindows env scanTimeout scanGuard fuel k (i + 1) d

/-- The statement `if(!this->FSK) { state = this->phyLayer->invertIQ(enable); }`: the status
of the call, or `RADIOLIB_ERR_NONE` with no call made when the node is in FSK mode. -/
def Dev.invertIQ (env : Env) (d : Dev) (enable : Bool) : Status × Dev :=
  if d.node.FSK then (RADIOLIB_ERR_NONE, d) else d.radio env (.invertIQ enable)

/-- The part of `downlink` from the read of the packet length on: length check, MIC block,
read of the data, MIC and address checks and decryption into `data` and `*len`. -/
def downlinkParse (env : Env) (d : Dev) (data : List Nat) (len : Nat) :
    Status × List Nat × Nat × Dev :=
  -- get the packet length
  let downlinkMsgLen := env.packetLength d.phy.tick
  let d := { d with phy := d.phy.call (.getPacketLength true) }
  -- check the minimum required frame length
  if downlinkMsgLen < RADIOLIB_LORAWAN_FRAME_LEN 0 0 - 1 - RADIOLIB_AES128_BLOCK_SIZE then
    (RADIOLIB_ERR_DOWNLINK_MALFORMED, data, len, d)
  else
    -- set the MIC calculation block
    let downlinkMsg := List.replicate (RADIOLIB_AES128_BLOCK_SIZE + downlinkMsgLen) 0
    let downlinkMsg :=
      downlinkMsg.set RADIOLIB_LORAWAN_BLOCK_MAGIC_POS RADIOLIB_LORAWAN_MIC_BLOCK_MAGIC
    let downlinkMsg := writeAt downlinkMsg RADIOLIB_LORAWAN_BLOCK_DEV_ADDR_POS
      (hton 4 d.node.devAddr 0)
    let downlinkMsg :=
      downlinkMsg.set RADIOLIB_LORAWAN_BLOCK_DIR_POS RADIOLIB_LORAWAN_CHANNEL_DIR_DOWNLINK
    let downlinkMsg :=
      downlinkMsg.set RADIOLIB_LORAWAN_MIC_BLOCK_LEN_POS ((downlinkMsgLen - 4) % 256)
    -- read the data
    let (state, bytes, d) := d.readData env downlinkMsgLen
    let downlinkMsg := writeAt downlinkMsg RADIOLIB_AES128_BLOCK_SIZE bytes
    let state := if state = RADIOLIB_ERR_LORA_HEADER_DAMAGED then RADIOLIB_ERR_NONE else state
    if state ≠ RADIOLIB_ERR_NONE then (state, data, len, d)
    -- check the MIC
    else if !verifyMIC env.generateCMAC (some downlinkMsg)
        (RADIOLIB_AES128_BLOCK_SIZE + downlinkMsgLen) d.node.sNwkSIntKey then
      (RADIOLIB_ERR_CRC_MISMATCH, data, len, d)
    else
      -- check the address
      let addr := ntoh 4 (downlinkMsg.drop RADIOLIB_LORAWAN_FHDR_DEV_ADDR_POS) 0
      if addr ≠ d.node.devAddr then (RADIOLIB_ERR_DOWNLINK_MALFORMED, data, len, d)
      else
        let fcnt := ntoh 2 (downlinkMsg.drop RADIOLIB_LORAWAN_FHDR_FCNT_POS) 0
        -- check fopts len
        let foptsLen := downlinkMsg.getD RADIOLIB_LORAWAN_FHDR_FCTRL_POS 0
          &&& RADIOLIB_LORAWAN_FHDR_FOPTS_LEN_MASK
        if foptsLen > 0 then
          -- there are some Fopts, decrypt them
          let out := processAES env.encryptECB d.node.devAddr
            (downlinkMsg.drop RADIOLIB_LORAWAN_FHDR_FOPTS_POS) foptsLen d.node.nwkSEncKey fcnt
            RADIOLIB_LORAWAN_CHANNEL_DIR_DOWNLINK 0x01 true
          (RADIOLIB_ERR_NONE, writeAt data 0 out, foptsLen, d)
        else
          -- no fopts, just payload
          let out := processAES env.encryptECB d.node.devAddr
            (downlinkMsg.drop RADIOLIB_LORAWAN_FHDR_FOPTS_POS) downlinkMsgLen d.node.appSKey fcnt
            RADIOLIB_LORAWAN_CHANNEL_DIR_DOWNLINK 0x00 true
          (state, writeAt data 0 out, downlinkMsgLen, d)

/-- The function `LoRaWANNode::downlink(data, len)`: the status and the contents of `data`
and `*len` at return, which are the given ones where the function does not write them.
`fuel` bounds the iterations of each waiting loop. -/
def downlink (env : Env) (fuel : Nat) (d : Dev) (data : List Nat) (len : Nat) :
    Option (Status × List Nat × Nat × Dev) :=
  -- check if there are any upcoming Rx windows
  let scanGuard := 500
  let (now, d) := d.millis env
  if sub32 now d.node.rxDelayStart > (d.node.rxDelay 1 + scanGuard) % 2 ^ 32 then
    some (RADIOLIB_ERR_NO_RX_WINDOW, data, len, d)
  else
    -- downlink messages are sent with inverted IQ
    let (state, d) := d.invertIQ env true
    if state ≠ RADIOLIB_ERR_NONE then some (state, data, len, d)
    else
      -- calculate the channel scanning timeout
      let scanTimeout := (env.timeOnAir d.phy.tick % 2 ^ 32) / 1000
      let d := { d with phy := d.phy.call (.getTimeOnAir 0) }
      -- set up everything for channel scan
      let (_, d) := d.radio env .setChannelScanAction
      -- perform listening in the two Rx windows
      match rxWindows env scanTimeout scanGuard fuel 2 0 d with
      | none => none
      | some (.ret state d) => some (state, data, len, d)
      | some (.done packetDetected d) =>
        -- check if we received a packet at all
        if !packetDetected then
          let (_, d) := d.radio env .standby
          let (_, d) := d.invertIQ env false
          -- restore the original uplink channel
          let (_, d) := configureChannel env d 0 d.node.dataRate
          some (RADIOLIB_ERR_RX_TIMEOUT, data, len, d)
        else
          -- channel scan is finished, swap the actions
          let (_, d) := d.radio env .clearChannelScanAction
          let (_, d) := d.radio env .setPacketReceivedAction
          -- start receiving
          let (state, d) := d.radio env .startReceive
          if state ≠ RADIOLIB_ERR_NONE then some (state, data, len, d)
          else
            -- wait for reception with some timeout
            let (rxStart, d) := d.millis env
            match waitDownlink env rxStart 30000 fuel d with
            | none => none
            | some (false, d) =>
              -- timed out
              let (_, d) := d.radio env .standby
              let (_, d) := d.invertIQ env false
              some (RADIOLIB_ERR_RX_TIMEOUT, data, len, d)
            | some (true, d) =>
              -- we have a message, clear actions, go to standby and reset the IQ inversion
              let (_, d) := d.radio env .standby
              let (_, d) := d.radio env .clearPacketReceivedAction
              let (state, d) := d.invertIQ env false
              if state ≠ RADIOLIB_ERR_NONE then some (state, data, len, d)
              else some (downlinkParse env d data len)

/-! ## MAC commands and activation -/

/-- The function `LoRaWANNode::sendMacCommand(cid, payload, payloadLen, reply, replyLen)`:
the status and the contents of `reply` at return. -/
def sendMacCommand (env : Env) (fuel : Nat) (d : Dev) (hal : Hal) (cid : Nat)
    (payload : List Nat) (payloadLen : Nat) (reply : List Nat) (replyLen : Nat) :
    Option (Status × List Nat × Dev × Hal) :=
  -- build the command
  let macReqLen := 1 + payloadLen
  let macReqBuff := List.replicate macReqLen 0
  let macReqBuff := macReqBuff.set 0 (cid % 256)
  let macReqBuff := writeAt macReqBuff 1 (payload.take payloadLen)
  -- uplink it
  let (state, d, hal) := uplink env d hal macReqBuff macReqLen RADIOLIB_LORAWAN_FPORT_MAC_COMMAND
  if state ≠ RADIOLIB_ERR_NONE then some (state, reply, d, hal)
  else
    -- build the reply buffer
    let macRplLen := 1 + replyLen
    let macRplBuff := List.replicate (d.node.band.payloadLenMax.getD d.node.dataRate 0) 0
    -- wait for reply from the server
    let rxRplLen := 0
    match downlink env fuel d macRplBuff rxRplLen with
    | none => none
    | some (state, macRplBuff, rxRplLen, d) =>
      if state ≠ RADIOLIB_ERR_NONE then some (state, reply, d, hal)
      -- check the length - it may be longer than expected
      else if rxRplLen < macRplLen then some (RADIOLIB_ERR_DOWNLINK_MALFORMED, reply, d, hal)
      -- check the CID
      else if macRplBuff.getD 0 0 ≠ cid % 256 then some (RADIOLIB_ERR_INVALID_CID, reply, d, hal)
      else
        -- copy the data
        let reply := writeAt reply 0 ((List.range replyLen).map (fun i => macRplBuff.getD (1 + i) 0))
        some (state, reply, d, hal)

/-- The function `LoRaWANNode::begin()`. It reads the persistent storage and does not write
it. -/
def begin (env : Env) (d : Dev) (hal : Hal) : Status × Dev :=
  let (state, d) := setPhyProperties env d
  if state ≠ RADIOLIB_ERR_NONE then (state, d)
  -- check the magic value
  else if hal.store.magic % 2 ^ 32 ≠ RADIOLIB_LORAWAN_MAGIC then
    (RADIOLIB_ERR_NETWORK_NOT_JOINED, d)
  else
    -- pull all needed information from persistent storage
    let node := { d.node with devAddr := hal.store.devAddr % 2 ^ 32 }
    let node := { node with appSKey := hal.store.appSKey.take RADIOLIB_AES128_BLOCK_SIZE }
    let node := { node with fNwkSIntKey := hal.store.fNwkSIntKey.take RADIOLIB_AES128_BLOCK_SIZE }
    let node := { node with sNwkSIntKey := hal.store.sNwkSIntKey.take RADIOLIB_AES128_BLOCK_SIZE }
    let node := { node with nwkSEncKey := hal.store.nwkSEncKey.take RADIOLIB_AES128_BLOCK_SIZE }
    (RADIOLIB_ERR_NONE, { d with node := node })

/-- The calls `RadioLibAES128Instance.init(key); encryptECB(inp, len, out)`: the `len` bytes
stored in `out`. -/
def encryptECB (env : Env) (key inp : List Nat) (len : Nat) : List Nat :=
  (List.range len).map (fun i => (env.encryptECB key (inp.take len)).getD i 0 % 256)

/-- The Join-Request message that `beginOTAA` builds and transmits. -/
def joinRequestMsg (env : Env) (joinEUI devEUI : Nat) (nwkKey : List Nat) (devNonce : Nat) :
    List Nat :=
  let joinRequestMsg := List.replicate RADIOLIB_LORAWAN_JOIN_REQUEST_LEN 0
  -- set the packet fields
  let joinRequestMsg := joinRequestMsg.set 0
    (RADIOLIB_LORAWAN_MHDR_MTYPE_JOIN_REQUEST ||| RADIOLIB_LORAWAN_MHDR_MAJOR_R1)
  let joinRequestMsg := writeAt joinRequestMsg RADIOLIB_LORAWAN_JOIN_REQUEST_JOIN_EUI_POS
    (hton 8 joinEUI 0)
  let joinRequestMsg := writeAt joinRequestMsg RADIOLIB_LORAWAN_JOIN_REQUEST_DEV_EUI_POS
    (hton 8 devEUI 0)
  let joinRequestMsg := writeAt joinRequestMsg RADIOLIB_LORAWAN_JOIN_REQUEST_DEV_NONCE_POS
    (hton 2 devNonce 0)
  -- add the authentication code
  let mic := generateMIC env.generateCMAC (some joinRequestMsg)
    (RADIOLIB_LORAWAN_JOIN_REQUEST_LEN - 4) nwkKey
  writeAt joinRequestMsg (RADIOLIB_LORAWAN_JOIN_REQUEST_LEN - 4) (hton 4 mic 0)

/-- The five frequencies of the CFList, stored in `availableChannelsFreq[0..4]`. -/
def cfListFreqs (joinAcceptMsg availableChannelsFreq : List Nat) : List Nat :=
  (List.range 5).foldl (fun acc i =>
    acc.set i (ntoh 4 (joinAcceptMsg.drop (RADIOLIB_LORAWAN_JOIN_ACCEPT_CFLIST_POS + 3 * i)) 3))
    availableChannelsFreq

/-- The writes with which `beginOTAA` records a completed join. -/
def persistSession (node : LoRaWANNode) (hal : Hal) : Hal :=
  -- save the device address
  let hal := hal.write (.devAddr (node.devAddr % 2 ^ 32))
  -- update the keys
  let hal := hal.write (.appSKey (node.appSKey.take RADIOLIB_AES128_BLOCK_SIZE))
  let hal := hal.write (.fNwkSIntKey (node.fNwkSIntKey.take RADIOLIB_AES128_BLOCK_SIZE))
  let hal := hal.write (.sNwkSIntKey (node.sNwkSIntKey.take RADIOLIB_AES128_BLOCK_SIZE))
  let hal := hal.write (.nwkSEncKey (node.nwkSEncKey.take RADIOLIB_AES128_BLOCK_SIZE))
  -- all complete, reset device counters and set the magic number
  let hal := hal.write (.fCntUp 0)
  hal.write (.magic RADIOLIB_LORAWAN_MAGIC)

/-- The decrypted Join-Accept of `beginOTAA` (lines 152-158): the MAC header byte is copied
and the 32 bytes after it are encrypted again in ECB mode under `nwkKey`. -/
def decryptJoinAccept (env : Env) (nwkKey joinAcceptMsgEnc : List Nat) : List Nat :=
  let joinAcceptMsg := List.replicate RADIOLIB_LORAWAN_JOIN_ACCEPT_MAX_LEN 0
  let joinAcceptMsg := joinAcceptMsg.set 0 (joinAcceptMsgEnc.getD 0 0)
  writeAt joinAcceptMsg 1
    (encryptECB env nwkKey (joinAcceptMsgEnc.drop 1) (RADIOLIB_LORAWAN_JOIN_ACCEPT_MAX_LEN - 1))

/-- The MIC check of the Join-Accept in `beginOTAA` (lines 162-191): whether the MIC is
valid, and the node, whose `jSIntKey` is derived first when DLSettings signals revision 1.1. -/
def checkJoinAcceptMIC (env : Env) (node : LoRaWANNode) (joinEUI devEUI : Nat)
    (nwkKey : List Nat) (devNonce lenRx : Nat) (joinAcceptMsg : List Nat) :
    Bool × LoRaWANNode :=
  let dlSettings := joinAcceptMsg.getD RADIOLIB_LORAWAN_JOIN_ACCEPT_DL_SETTINGS_POS 0
  if dlSettings &&& RADIOLIB_LORAWAN_JOIN_ACCEPT_R_1_1 ≠ 0 then
    -- 1.1 version, first we need to derive the join accept integrity key
    let keyDerivationBuff := List.replicate RADIOLIB_AES128_BLOCK_SIZE 0
    let keyDerivationBuff := keyDerivationBuff.set 0 RADIOLIB_LORAWAN_JOIN_ACCEPT_JS_INT_KEY
    let keyDerivationBuff := writeAt keyDerivationBuff 1 (hton 8 devEUI 0)
    let node :=
      { node with jSIntKey := encryptECB env nwkKey keyDerivationBuff RADIOLIB_AES128_BLOCK_SIZE }
    -- prepare the buffer for MIC calculation
    let micBuff := List.replicate (3 * RADIOLIB_AES128_BLOCK_SIZE) 0
    let micBuff := micBuff.set 0 RADIOLIB_LORAWAN_JOIN_REQUEST_TYPE
    let micBuff := writeAt micBuff 1 (hton 8 joinEUI 0)
    let micBuff := writeAt micBuff 9 (hton 2 devNonce 0)
    let micBuff := writeAt micBuff 11 (joinAcceptMsg.take lenRx)
    (verifyMIC env.generateCMAC (some micBuff) (lenRx + 11) node.jSIntKey, node)
  else
    -- 1.0 version
    (verifyMIC env.generateCMAC (some joinAcceptMsg) lenRx nwkKey, node)

/-- The parsing of the device address and of the Rx delays in `beginOTAA` (lines 196-201). -/
def parseJoinAccept (node : LoRaWANNode) (joinAcceptMsg : List Nat) : LoRaWANNode :=
  let node :=
    { node with
      devAddr := ntoh 4 (joinAcceptMsg.drop RADIOLIB_LORAWAN_JOIN_ACCEPT_DEV_ADDR_POS) 0 }
  let rxDelay0 := joinAcceptMsg.getD RADIOLIB_LORAWAN_JOIN_ACCEPT_RX_DELAY_POS 0 * 1000
  let rxDelay0 := if rxDelay0 = 0 then RADIOLIB_LORAWAN_RECEIVE_DELAY_1_MS else rxDelay0
  { node with rxDelays := (rxDelay0, (rxDelay0 + 1000) % 2 ^ 32) }

/-- The key derivation of revision 1.1 in `beginOTAA` (lines 222-254), up to the assignment
`this->rev = 1`. -/
def deriveKeys11 (env : Env) (node : LoRaWANNode) (joinNonce joinEUI : Nat)
    (nwkKey appKey : List Nat) (devNonce : Nat) : LoRaWANNode :=
  let keyDerivationBuff := List.replicate RADIOLIB_AES128_BLOCK_SIZE 0
  let keyDerivationBuff := writeAt keyDerivationBuff
    RADIOLIB_LORAWAN_JOIN_ACCEPT_JOIN_NONCE_POS (hton 4 joinNonce 3)
  let keyDerivationBuff := writeAt keyDerivationBuff
    RADIOLIB_LORAWAN_JOIN_ACCEPT_JOIN_EUI_POS (hton 8 joinEUI 0)
  let keyDerivationBuff := writeAt keyDerivationBuff
    RADIOLIB_LORAWAN_JOIN_ACCEPT_DEV_NONCE_POS (hton 2 devNonce 0)
  let keyDerivationBuff := keyDerivationBuff.set 0 RADIOLIB_LORAWAN_JOIN_ACCEPT_APP_S_KEY
  let node :=
    { node with appSKey := encryptECB env appKey keyDerivationBuff RADIOLIB_AES128_BLOCK_SIZE }
  let keyDerivationBuff := keyDerivationBuff.set 0 RADIOLIB_LORAWAN_JOIN_ACCEPT_F_NWK_S_INT_KEY
  let node :=
    { node with
      fNwkSIntKey := encryptECB env nwkKey keyDerivationBuff RADIOLIB_AES128_BLOCK_SIZE }
  let keyDerivationBuff := keyDerivationBuff.set 0 RADIOLIB_LORAWAN_JOIN_ACCEPT_S_NWK_S_INT_KEY
  let node :=
    { node with
      sNwkSIntKey := encryptECB env nwkKey keyDerivationBuff RADIOLIB_AES128_BLOCK_SIZE }
  let keyDerivationBuff := keyDerivationBuff.set 0 RADIOLIB_LORAWAN_JOIN_ACCEPT_NWK_S_ENC_KEY
  let node :=
    { node with
      nwkSEncKey := encryptECB env nwkKey keyDerivationBuff RADIOLIB_AES128_BLOCK_SIZE }
  { node with rev := 1 }

/-- The key derivation of revision 1.0 in `beginOTAA` (lines 222-224 and 265-278). -/
def deriveKeys10 (env : Env) (node : LoRaWANNode) (joinNonce homeNetId : Nat)
    (nwkKey : List Nat) (devNonce : Nat) : LoRaWANNode :=
  let keyDerivationBuff := List.replicate RADIOLIB_AES128_BLOCK_SIZE 0
  let keyDerivationBuff := writeAt keyDerivationBuff
    RADIOLIB_LORAWAN_JOIN_ACCEPT_JOIN_NONCE_POS (hton 4 joinNonce 3)
  let node := { node with rev := 0 }
  let keyDerivationBuff := writeAt keyDerivationBuff
    RADIOLIB_LORAWAN_JOIN_ACCEPT_HOME_NET_ID_POS (hton 4 homeNetId 3)
  let keyDerivationBuff := writeAt keyDerivationBuff
    RADIOLIB_LORAWAN_JOIN_ACCEPT_DEV_ADDR_POS (hton 2 devNonce 0)
  let keyDerivationBuff := keyDerivationBuff.set 0 RADIOLIB_LORAWAN_JOIN_ACCEPT_APP_S_KEY
  let node :=
    { node with appSKey := encryptECB env nwkKey keyDerivationBuff RADIOLIB_AES128_BLOCK_SIZE }
  let keyDerivationBuff := keyDerivationBuff.set 0 RADIOLIB_LORAWAN_JOIN_ACCEPT_F_NWK_S_INT_KEY
  let node :=
    { node with
      fNwkSIntKey := encryptECB env nwkKey keyDerivationBuff RADIOLIB_AES128_BLOCK_SIZE }
  let node := { node with sNwkSIntKey := node.fNwkSIntKey.take RADIOLIB_AES128_BLOCK_SIZE }
  { node with nwkSEncKey := node.fNwkSIntKey.take RADIOLIB_AES128_BLOCK_SIZE }

/-- The part of `beginOTAA` that follows the check of the message type of the reply (lines
152-294): decryption of the Join-Accept `joinAcceptMsgEnc` of `lenRx` bytes, MIC check,
parsing, key derivation, the RekeyInd exchange of revision 1.1 and the writes to the
persistent store. `devNonce` is the value sent in the Join-Request. -/
def joinAccept (env : Env) (fuel : Nat) (d : Dev) (hal : Hal) (joinEUI devEUI : Nat)
    (nwkKey appKey : List Nat) (devNonce lenRx : Nat) (joinAcceptMsgEnc : List Nat) :
    Option (Status × Dev × Hal) :=
  -- decrypt the join accept message
  let joinAcceptMsg := decryptJoinAccept env nwkKey joinAcceptMsgEnc
  -- check LoRaWAN revision (the MIC verification depends on this)
  let dlSettings := joinAcceptMsg.getD RADIOLIB_LORAWAN_JOIN_ACCEPT_DL_SETTINGS_POS 0
  let mic := checkJoinAcceptMIC env d.node joinEUI devEUI nwkKey devNonce lenRx joinAcceptMsg
  let d := { d with node := mic.2 }
  if !mic.1 then some (RADIOLIB_ERR_CRC_MISMATCH, d, hal)
  else
    -- parse the contents
    let joinNonce := ntoh 4 (joinAcceptMsg.drop RADIOLIB_LORAWAN_JOIN_ACCEPT_JOIN_NONCE_POS) 3
    let homeNetId := ntoh 4 (joinAcceptMsg.drop RADIOLIB_LORAWAN_JOIN_ACCEPT_HOME_NET_ID_POS) 3
    let d := { d with node := parseJoinAccept d.node joinAcceptMsg }
    -- process CFlist if present
    if lenRx = RADIOLIB_LORAWAN_JOIN_ACCEPT_MAX_LEN ∧
        d.node.band.cfListType ≠ RADIOLIB_LORAWAN_CFLIST_TYPE_FREQUENCIES then
      some (RADIOLIB_ERR_UNSUPPORTED, d, hal)
    else
      let freqs :=
        if lenRx = RADIOLIB_LORAWAN_JOIN_ACCEPT_MAX_LEN then
          cfListFreqs joinAcceptMsg d.node.availableChannelsFreq
        else d.node.availableChannelsFreq
      let d := { d with node := { d.node with availableChannelsFreq := freqs } }
      -- check protocol version (1.0 vs 1.1)
      if dlSettings &&& RADIOLIB_LORAWAN_JOIN_ACCEPT_R_1_1 ≠ 0 then
        -- 1.1 version, derive the keys
        let d := { d with node := deriveKeys11 env d.node joinNonce joinEUI nwkKey appKey devNonce }
        -- send the RekeyInd MAC command
        let serverRev := [0xFF]
        match sendMacCommand env fuel d hal RADIOLIB_LORAWAN_MAC_CMD_REKEY_IND [d.node.rev] 1
            serverRev 1 with
        | none => none
        | some (state, serverRev, d, hal) =>
          if state ≠ RADIOLIB_ERR_NONE then some (state, d, hal)
          -- check the supported server version
          else if serverRev.getD 0 0 ≠ d.node.rev then
            some (RADIOLIB_ERR_INVALID_REVISION, d, hal)
          else some (RADIOLIB_ERR_NONE, d, persistSession d.node hal)
      else
        -- 1.0 version, just derive the keys
        let d := { d with node := deriveKeys10 env d.node joinNonce homeNetId nwkKey devNonce }
        some (RADIOLIB_ERR_NONE, d, persistSession d.node hal)

/-- The function `LoRaWANNode::beginOTAA(joinEUI, devEUI, nwkKey, appKey, force)`. `fuel`
bounds the iterations of each waiting loop. -/
def beginOTAA (env : Env) (fuel : Nat) (d : Dev) (hal : Hal) (joinEUI devEUI : Nat)
    (nwkKey appKey : List Nat) (force : Bool) : Option (Status × Dev × Hal) :=
  -- check if we actually need to send the join request
  if !force ∧ hal.store.magic % 2 ^ 32 = RADIOLIB_LORAWAN_MAGIC then
    -- the device has joined already, we can just pull the data from persistent storage
    let (state, d) := begin env d hal
    some (state, d, hal)
  else
    -- set the physical layer configuration
    let (state, d) := setPhyProperties env d
    if state ≠ RADIOLIB_ERR_NONE then some (state, d, hal)
    else
      -- get dev nonce from persistent storage and increment it
      let devNonce := hal.store.devNonce % 2 ^ 16
      let hal := hal.write (.devNonce ((devNonce + 1) % 2 ^ 16))
      -- build the join-request message and send it
      let (state, d) := d.radio env (.transmit (joinRequestMsg env joinEUI devEUI nwkKey devNonce)
        RADIOLIB_LORAWAN_JOIN_REQUEST_LEN)
      if state ≠ RADIOLIB_ERR_NONE then some (state, d, hal)
      else
        -- set the function that will be called when the reply is received
        let (_, d) := d.radio env .setPacketReceivedAction
        -- downlink messages are sent with inverted IQ
        let (state, d) := d.invertIQ env true
        if state ≠ RADIOLIB_ERR_NONE then some (state, d, hal)
        else
          -- start receiving
          let (start, d) := d.millis env
          let (state, d) := d.radio env .startReceive
          if state ≠ RADIOLIB_ERR_NONE then some (state, d, hal)
          else
            -- wait for the reply or timeout
            match waitDownlink env start (RADIOLIB_LORAWAN_JOIN_ACCEPT_DELAY_2_MS + 2000) fuel d with
            | none => none
            | some (false, d) =>
              let (_, d) := d.invertIQ env false
              some (RADIOLIB_ERR_RX_TIMEOUT, d, hal)
            | some (true, d) =>
              -- we have a message, reset the IQ inversion
              let (_, d) := d.radio env .clearPacketReceivedAction
              let (state, d) := d.invertIQ env false
              if state ≠ RADIOLIB_ERR_NONE then some (state, d, hal)
              else
                -- check received length
                let lenRx := env.packetLength d.phy.tick
                let d := { d with phy := d.phy.call (.getPacketLength true) }
                if lenRx ≠ RADIOLIB_LORAWAN_JOIN_ACCEPT_MAX_LEN ∧ lenRx ≠
                    RADIOLIB_LORAWAN_JOIN_ACCEPT_MAX_LEN - RADIOLIB_LORAWAN_JOIN_ACCEPT_CFLIST_LEN then
                  some (RADIOLIB_ERR_DOWNLINK_MALFORMED, d, hal)
                else
                  -- read the packet
                  let (state, bytes, d) := d.readData env lenRx
                  let joinAcceptMsgEnc :=
                    writeAt (List.replicate RADIOLIB_LORAWAN_JOIN_ACCEPT_MAX_LEN 0) 0 bytes
                  if state ≠ RADIOLIB_ERR_LORA_HEADER_DAMAGED ∧ state ≠ RADIOLIB_ERR_NONE then
                    some (state, d, hal)
                  -- check reply message type
                  else if joinAcceptMsgEnc.getD 0 0 &&& RADIOLIB_LORAWAN_MHDR_MTYPE_MASK ≠
                      RADIOLIB_LORAWAN_MHDR_MTYPE_JOIN_ACCEPT then
                    some (RADIOLIB_ERR_DOWNLINK_MALFORMED, d, hal)
                  else
                    joinAccept env fuel d hal joinEUI devEUI nwkKey appKey devNonce lenRx
                      joinAcceptMsgEnc

/-- How the first part of `beginOTAA` ends: `exit` when the function returns there,
`received` when a reply has been flagged and the IQ inversion has been reset, with the
DevNonce that was sent. -/
inductive JoinStage
  | exit (state : Status) (d : Dev) (hal : Hal)
  | received (d : Dev) (hal : Hal) (devNonce : Nat)

/-- The part of `beginOTAA` up to the reception of the reply (lines 60-126): restore of a
stored session, physical layer configuration, Join-Request and the wait for the reply. -/
def joinRequest (env : Env) (fuel : Nat) (d : Dev) (hal : Hal) (joinEUI devEUI : Nat)
    (nwkKey : List Nat) (force : Bool) : Option JoinStage :=
  -- check if we actually need to send the join request
  if !force ∧ hal.store.magic % 2 ^ 32 = RADIOLIB_LORAWAN_MAGIC then
    -- the device has joined already, we can just pull the data from persistent storage
    let (state, d) := begin env d hal
    some (.exit state d hal)
  else
    -- set the physical layer configuration
    let (state, d) := setPhyProperties env d
    if state ≠ RADIOLIB_ERR_NONE then some (.exit state d hal)
    else
      -- get dev nonce from persistent storage and increment it
      let devNonce := hal.store.devNonce % 2 ^ 16
      let hal := hal.write (.devNonce ((devNonce + 1) % 2 ^ 16))
      -- build the join-request message and send it
      let (state, d) := d.radio env (.transmit (joinRequestMsg env joinEUI devEUI nwkKey devNonce)
        RADIOLIB_LORAWAN_JOIN_REQUEST_LEN)
      if state ≠ RADIOLIB_ERR_NONE then some (.exit state d hal)
      else
        -- set the function that will be called when the reply is received
        let (_, d) := d.radio env .setPacketReceivedAction
        -- downlink messages are sent with inverted IQ
        let (state, d) := d.invertIQ env true
        if state ≠ RADIOLIB_ERR_NONE then some (.exit state d hal)
        else
          -- start receiving
          let (start, d) := d.millis env
          let (state, d) := d.radio env .startReceive
          if state ≠ RADIOLIB_ERR_NONE then some (.exit state d hal)
          else
            -- wait for the reply or timeout
            match waitDownlink env start (RADIOLIB_LORAWAN_JOIN_ACCEPT_DELAY_2_MS + 2000) fuel d with
            | none => none
            | some (false, d) =>
              let (_, d) := d.invertIQ env false
              some (.exit RADIOLIB_ERR_RX_TIMEOUT d hal)
            | some (true, d) =>
              -- we have a message, reset the IQ inversion
              let (_, d) := d.radio env .clearPacketReceivedAction
              let (state, d) := d.invertIQ env false
              if state ≠ RADIOLIB_ERR_NONE then some (.exit state d hal)
              else some (.received d hal devNonce)

/-- The Join-Accept buffer `joinAcceptMsgEnc` of `beginOTAA` after `readData` has stored the
`lenRx` received bytes in it (lines 138-140), for the radio state `d` before the read of the
packet length. -/
def readJoinAccept (env : Env) (d : Dev) : List Nat :=
  let lenRx := env.packetLength d.phy.tick
  let d := { d with phy := d.phy.call (.getPacketLength true) }
  writeAt (List.replicate RADIOLIB_LORAWAN_JOIN_ACCEPT_MAX_LEN 0) 0 (d.readData env lenRx).2.1

/-- The part of `beginOTAA` after the reception of the reply (lines 128-294): length check,
read of the packet, check of the message type, and `joinAccept`. -/
def joinReply (env : Env) (fuel : Nat) (d : Dev) (hal : Hal) (joinEUI devEUI : Nat)
    (nwkKey appKey : List Nat) (devNonce : Nat) : Option (Status × Dev × Hal) :=
  -- check received length
  let lenRx := env.packetLength d.phy.tick
  let d := { d with phy := d.phy.call (.getPacketLength true) }
  if lenRx ≠ RADIOLIB_LORAWAN_JOIN_ACCEPT_MAX_LEN ∧ lenRx ≠
      RADIOLIB_LORAWAN_JOIN_ACCEPT_MAX_LEN - RADIOLIB_LORAWAN_JOIN_ACCEPT_CFLIST_LEN then
    some (RADIOLIB_ERR_DOWNLINK_MALFORMED, d, hal)
  else
    -- read the packet
    let (state, bytes, d) := d.readData env lenRx
    let joinAcceptMsgEnc :=
      writeAt (List.replicate RADIOLIB_LORAWAN_JOIN_ACCEPT_MAX_LEN 0) 0 bytes
    if state ≠ RADIOLIB_ERR_LORA_HEADER_DAMAGED ∧ state ≠ RADIOLIB_ERR_NONE then
      some (state, d, hal)
    -- check reply message type
    else if joinAcceptMsgEnc.getD 0 0 &&& RADIOLIB_LORAWAN_MHDR_MTYPE_MASK ≠
        RADIOLIB_LORAWAN_MHDR_MTYPE_JOIN_ACCEPT then
      some (RADIOLIB_ERR_DOWNLINK_MALFORMED, d, hal)
    else
      joinAccept env fuel d hal joinEUI devEUI nwkKey appKey devNonce lenRx joinAcceptMsgEnc

/-- The function `LoRaWANNode::beginAPB(addr, nwkSKey, appSKey, fNwkSIntKey, sNwkSIntKey)`
(lines 297-314). For the two optional keys `none` is the null pointer. -/
def beginAPB (env : Env) (d : Dev) (addr : Nat) (nwkSKey appSKey : List Nat)
    (fNwkSIntKey sNwkSIntKey : Option (List Nat)) : Status × Dev :=
  let node := { d.node with devAddr := addr % 2 ^ 32 }
  let node := { node with appSKey := appSKey.take RADIOLIB_AES128_BLOCK_SIZE }
  let node := { node with nwkSEncKey := nwkSKey.take RADIOLIB_AES128_BLOCK_SIZE }
  let node := match fNwkSIntKey with
    | some key => { node with rev := 1, fNwkSIntKey := key.take RADIOLIB_AES128_BLOCK_SIZE }
    | none => { node with fNwkSIntKey := nwkSKey.take RADIOLIB_AES128_BLOCK_SIZE }
  let node := match sNwkSIntKey with
    | some key => { node with sNwkSIntKey := key.take RADIOLIB_AES128_BLOCK_SIZE }
    | none => node
  -- set the physical layer configuration
  setPhyProperties env { d with node := node }

/-! ## Write sequences -/

/-- A sequence of writes to the persistent storage, in order. -/
def Hal.writeAll (h : Hal) (ws : List StoreWrite) : Hal :=
  ws.foldl Hal.write h

/-- The writes of `persistSession`, in order. -/
def sessionWrites (node : LoRaWANNode) : List StoreWrite :=
  [.devAddr (node.devAddr % 2 ^ 32),
    .appSKey (node.appSKey.take RADIOLIB_AES128_BLOCK_SIZE),
    .fNwkSIntKey (node.fNwkSIntKey.take RADIOLIB_AES128_BLOCK_SIZE),
    .sNwkSIntKey (node.sNwkSIntKey.take RADIOLIB_AES128_BLOCK_SIZE),
    .nwkSEncKey (node.nwkSEncKey.take RADIOLIB_AES128_BLOCK_SIZE),
    .fCntUp 0,
    .magic RADIOLIB_LORAWAN_MAGIC]

/-- The contents of `encBlock` in `processAES` when block `m` is encrypted: the counter byte
is `m + 1` when the counter flag is set and is left as it was otherwise. -/
def ctrBlock (counter : Bool) (encBlock : List Nat) (m : Nat) : List Nat :=
  if counter then encBlock.set RADIOLIB_LORAWAN_ENC_BLOCK_COUNTER_POS ((m + 1) % 256)
  else encBlock

/-- The initial contents of `encBlock` in `processAES`. -/
def encBlock0 (devAddr fcnt dir ctrId : Nat) : List Nat :=
  let encBlock := List.replicate RADIOLIB_AES128_BLOCK_SIZE 0
  let encBlock := encBlock.set RADIOLIB_LORAWAN_BLOCK_MAGIC_POS RADIOLIB_LORAWAN_ENC_BLOCK_MAGIC
  let encBlock := encBlock.set RADIOLIB_LORAWAN_ENC_BLOCK_COUNTER_ID_POS (ctrId % 256)
  let encBlock := encBlock.set RADIOLIB_LORAWAN_BLOCK_DIR_POS (dir % 256)
  let encBlock := writeAt encBlock RADIOLIB_LORAWAN_BLOCK_DEV_ADDR_POS (hton 4 devAddr 0)
  writeAt encBlock RADIOLIB_LORAWAN_BLOCK_FCNT_POS (hton 4 fcnt 0)

/-! ## Radio call log -/

/-- The radio calls logged in `d'` are those logged in `d` followed by further calls. -/
def callsExtend (d d' : Dev) : Prop :=
  ∃ cs : List RadioCall, d'.phy.calls = d.phy.calls ++ cs

/-- The radio calls logged in `d'` are those logged in `d` followed by at least one more. -/
def callsGrow (d d' : Dev) : Prop :=
  ∃ (c : RadioCall) (cs : List RadioCall), d'.phy.calls = d.phy.calls ++ c :: cs

/-! ## Rx windows and channel plan -/

/-- The waiting time `waitLen` that `downlink` hands to `hal->delay` at the start of Rx
window `i` (lines 497-501), when the clock reads `now`. -/
def windowWait (node : LoRaWANNode) (i now scanGuard : Nat) : Nat :=
  let waitLen := sub32 (node.rxDelay i) (sub32 now node.rxDelayStart)
  if waitLen > scanGuard then waitLen - scanGuard else waitLen

/-- The total number of channels of a band: the sum of `numChannels` over its
`numChannelSpans` spans. -/
def totalChannels (band : LoRaWANBand_t) : Nat :=
  ((List.range band.numChannelSpans).map
    (fun s => (band.defaultChannels.getD s default).numChannels)).sum

/-! ## Sample inputs

Concrete collaborators and states on which the definitions above are evaluated in the
examples. `sampleECB` and `sampleCMAC` are simple stand-ins for the two cryptographic
primitives; every general theorem below holds for arbitrary primitives. -/

/-- A stand-in for the block cipher: each byte is combined with the key byte of its
position in its block. -/
def sampleECB (key b : List Nat) : List Nat :=
  (List.range b.length).map (fun i => b.getD i 0 ^^^ key.getD (i % 16) 0)

/-- A stand-in for the CMAC: byte `i` is the sum of the message bytes, the key byte `i` and
`i`, modulo 256. -/
def sampleCMAC (key m : List Nat) : List Nat :=
  (List.range 16).map (fun i => (m.foldl (fun a b => a + b) 0 + key.getD i 0 + i) % 256)

/-- A channel span with three channels. -/
def sampleSpan : LoRaWANChannelSpan_t :=
  { numChannels := 3, freqStart := 868100, freqStep := 200,
    dataRates := [0x60, 0x50, 0x40, 0x30, 0x20, 0x10, 0x11, 0x80, 0xFF, 0xFF, 0xFF, 0xFF,
      0xFF, 0xFF, 0xFF],
    joinRequestDataRate := 0xFF }

/-- A band with one span and a backup channel. -/
def sampleBand : LoRaWANBand_t :=
  { payloadLenMax := [59, 59, 59, 123, 230, 230, 230, 230, 0, 0, 0, 0, 0, 0, 0],
    powerMax := 16, fskFreq := 868800, cfListType := RADIOLIB_LORAWAN_CFLIST_TYPE_FREQUENCIES,
    numChannelSpans := 1, defaultChannels := [sampleSpan],
    backupChannel :=
      { numChannels := 1, freqStart := 869525, freqStep := 0,
        dataRates := [0x60, 0xFF, 0xFF, 0xFF, 0xFF, 0xFF, 0xFF, 0xFF, 0xFF, 0xFF, 0xFF, 0xFF,
          0xFF, 0xFF, 0xFF],
        joinRequestDataRate := 0xFF } }

/-- A LoRa node that has not joined, with the default Rx delays. -/
def sampleNode : LoRaWANNode :=
  { band := sampleBand, FSK := false, devAddr := 0,
    appSKey := List.replicate 16 0, fNwkSIntKey := List.replicate 16 0,
    sNwkSIntKey := List.replicate 16 0, nwkSEncKey := List.replicate 16 0,
    jSIntKey := List.replicate 16 0, rev := 0, rxDelays := (1000, 2000), rxDelayStart := 0,
    chIndex := 0, dataRate := 0, availableChannelsFreq := [0, 0, 0, 0, 0], command := none }

/-- The sample node with a radio that has not been used yet. -/
def sampleDev : Dev :=
  { node := sampleNode, phy := { tick := 0, calls := [], delays := [] } }

/-- A persistent store without the magic sentinel, with `devNonce` and `fCntUp` as given. -/
def sampleHal (devNonce fCntUp : Nat) : Hal :=
  { store := { magic := 0, devAddr := 0, devNonce := devNonce, fCntUp := fCntUp,
               appSKey := [], fNwkSIntKey := [], sNwkSIntKey := [], nwkSEncKey := [] },
    writes := [] }

/-- Root key `nwkKey` of the samples. -/
def sampleNwkKey : List Nat := [1, 2, 3, 4, 5, 6, 7, 8, 9, 10, 11, 12, 13, 14, 15, 16]

/-- Root key `appKey` of the samples. -/
def sampleAppKey : List Nat :=
  [101, 102, 103, 104, 105, 106, 107, 108, 109, 110, 111, 112, 113, 114, 115, 116]

/-- Collaborators for which every radio call returns `status`, the time on air is reported
as 0, the clock reads `100000 + 100 * t` at tick `t`, both interrupt flags read as set, and
the radio reports a received packet of 17 bytes with the contents `packet`. -/
def sampleEnv (status : Status) (packet : List Nat) : Env :=
  { encryptECB := sampleECB, generateCMAC := sampleCMAC, status := fun _ => status,
    timeOnAir := fun _ => 0, packetLength := fun _ => 17, packet := fun _ => packet,
    millis := fun t => 100000 + 100 * t, downlinkReceived := fun _ => true,
    scanFlag := fun _ => true }

/-- A revision 1.0 Join-Accept as received (encrypted under `sampleNwkKey` with `sampleECB`,
MIC by `sampleCMAC`): JoinNonce `0xA3A2A1`, HomeNetID `0x000013`, DevAddr `0x26011BDA`,
DLSettings `0x00`, RxDelay 1. -/
def sampleJoinAccept10 : List Nat :=
  [32, 160, 160, 160, 23, 5, 6, 221, 19, 8, 44, 11, 13, 58, 55, 52, 45]

/-- A revision 1.1 Join-Accept as received for DevNonce 7, JoinEUI `0x0102030405060708`
and DevEUI `0x1112131415161718`: as `sampleJoinAccept10` with DLSettings `0x80`. -/
def sampleJoinAccept11 : List Nat :=
  [32, 160, 160, 160, 23, 5, 6, 221, 19, 8, 44, 139, 13, 234, 245, 249, 229]

/-- The sample node with the timestamp `rxDelayStart` as given. -/
def sampleDevAt (rxDelayStart : Nat) : Dev :=
  { sampleDev with node := { sampleNode with rxDelayStart := rxDelayStart } }

/-- Session key `appSKey` of the samples. -/
def sampleAppSKey : List Nat :=
  [201, 202, 203, 204, 205, 206, 207, 208, 209, 210, 211, 212, 213, 214, 215, 216]

/-- Session key `nwkSEncKey` of the samples. -/
def sampleNwkSEncKey : List Nat :=
  [51, 52, 53, 54, 55, 56, 57, 58, 59, 60, 61, 62, 63, 64, 65, 66]

/-- A LoRa node with a session (device address `0x26011BDA`) whose last uplink ended at
clock value 100000. -/
def sampleSessionDev : Dev :=
  { sampleDev with
    node := { sampleNode with
      devAddr := 0x26011BDA, appSKey := sampleAppSKey, nwkSEncKey := sampleNwkSEncKey,
      fNwkSIntKey := sampleNwkKey, sNwkSIntKey := sampleNwkKey, rxDelayStart := 100000 } }

/-- Collaborators as in `sampleEnv`, for which the radio call at tick `k` returns `status`
and every other one succeeds, and the radio reports a received packet of `len` bytes with
the contents `packet`. -/
def sampleEnvAt (k : Nat) (status : Status) (len : Nat) (packet : List Nat) : Env :=
  { encryptECB := sampleECB, generateCMAC := sampleCMAC,
    status := fun t => if t = k then status else RADIOLIB_ERR_NONE,
    timeOnAir := fun _ => 0, packetLength := fun _ => len, packet := fun _ => packet,
    millis := fun t => 100000 + 100 * t, downlinkReceived := fun _ => true,
    scanFlag := fun _ => true }

/-- A LoRa node of revision 1.1 with a session, on channel 2 at data rate 3, with different
keys for the two MICs. -/
def sampleDevRev11 : Dev :=
  { sampleDev with
    node := { sampleNode with
      devAddr := 0x26011BDA, appSKey := sampleAppSKey, nwkSEncKey := sampleNwkSEncKey,
      fNwkSIntKey := sampleNwkKey, sNwkSIntKey := sampleAppKey, rev := 1, chIndex := 2,
      dataRate := 3 } }

/-- A data-down frame for the node of `sampleSessionDev` as a network server builds it:
unconfirmed data down, DevAddr `0x26011BDA`, FCtrl `0x00` (no FOpts), FCnt 0, FPort 1, the
payload `BE EF` encrypted under `sampleAppSKey` with `sampleECB`, and the MIC by
`sampleCMAC` under `sampleNwkKey`. -/
def sampleDownlink : List Nat :=
  [96, 218, 27, 1, 38, 0, 0, 0, 1, 118, 37, 138, 140, 142, 144]

/-- A band with two spans, of three and of five channels. -/
def sampleBandTwoSpans : LoRaWANBand_t :=
  { sampleBand with
    numChannelSpans := 2,
    defaultChannels := [sampleSpan, { sampleSpan with numChannels := 5, freqStart := 867100 }] }

/-- The sample node on the band with two spans. -/
def sampleDevTwoSpans : Dev :=
  { sampleDev with node := { sampleNode with band := sampleBandTwoSpans } }

/-- A band as `sampleBand` whose uplink channels are joined at data rate 3. -/
def sampleBandDr3 : LoRaWANBand_t :=
  { sampleBand with defaultChannels := [{ sampleSpan with joinRequestDataRate := 3 }] }

/-- A node as in `sampleSessionDev` on the band `sampleBandDr3`, with the data rate 3 that
`setPhyProperties` configures on this band. -/
def sampleDevDr3 : Dev :=
  { sampleSessionDev with
    node := { sampleSessionDev.node with band := sampleBandDr3, dataRate := 3 } }

/-- A data-down frame as `sampleDownlink` with FCnt 1, as a network server builds it: the
MIC is computed by `sampleCMAC` under `sampleNwkKey` over the MIC block that holds the
frame counter 1, followed by the frame. -/
def sampleDownlinkFCnt1 : List Nat :=
  [96, 218, 27, 1, 38, 0, 1, 0, 1, 118, 37, 140, 142, 144, 146]

/-! ## Byte order and MIC -/

/-- One step of the accumulation in `ntoh`: a byte shifted above the bits already set is added. -/
theorem or_shift_byte (r b k : Nat) (hr : r < 2 ^ k) :
    r ||| (b <<< k) = r + b * 2 ^ k := by
  rw [Nat.shiftLeft_eq, Nat.lor_comm, Nat.mul_comm b, ← Nat.mul_add_lt_is_or hr b]
  omega

/-- Four bytes combined by shifts and ors are the little-endian value of the bytes. -/
theorem or_bytes4 (b0 b1 b2 b3 : Nat) (h0 : b0 < 256) (h1 : b1 < 256) (h2 : b2 < 256)
    (h3 : b3 < 256) :
    ((((0 ||| (b0 <<< 0) % 2 ^ 32) % 2 ^ 32 ||| (b1 <<< 8) % 2 ^ 32) % 2 ^ 32
        ||| (b2 <<< 16) % 2 ^ 32) % 2 ^ 32 ||| (b3 <<< 24) % 2 ^ 32) % 2 ^ 32
      = b0 + b1 * 256 + b2 * 65536 + b3 * 16777216 := by
  have e0 : (b0 <<< 0) % 2 ^ 32 = b0 := by
    rw [Nat.shiftLeft_eq]; omega
  have e1 : (b1 <<< 8) % 2 ^ 32 = b1 <<< 8 := by
    rw [Nat.shiftLeft_eq]; omega
  have e2 : (b2 <<< 16) % 2 ^ 32 = b2 <<< 16 := by
    rw [Nat.shiftLeft_eq]; omega
  have e3 : (b3 <<< 24) % 2 ^ 32 = b3 <<< 24 := by
    rw [Nat.shiftLeft_eq]; omega
  rw [e0, e1, e2, e3, Nat.zero_or]
  have m0 : b0 % 2 ^ 32 = b0 := by omega
  rw [m0, or_shift_byte b0 b1 8 (by omega)]
  have m1 : (b0 + b1 * 2 ^ 8) % 2 ^ 32 = b0 + b1 * 2 ^ 8 := by omega
  rw [m1, or_shift_byte _ b2 16 (by omega)]
  have m2 : (b0 + b1 * 2 ^ 8 + b2 * 2 ^ 16) % 2 ^ 32 = b0 + b1 * 2 ^ 8 + b2 * 2 ^ 16 := by omega
  rw [m2, or_shift_byte _ b3 24 (by omega)]
  omega

theorem ntoh_hton_u32 (v : Nat) : ntoh 4 (hton 4 v 0) 0 = v % 2 ^ 32 := by
  have h4 : List.range 4 = [0, 1, 2, 3] := by decide
  simp only [ntoh, hton, h4, List.map, List.foldl, List.getD_cons_zero, List.getD_cons_succ,
    ne_eq, not_true_eq_false, if_false]
  have e : 8 * 4 = 32 := by norm_num
  simp only [e, Nat.mul_zero, Nat.mul_one, Nat.reduceMul]
  rw [or_bytes4 _ _ _ _ (Nat.mod_lt _ (by norm_num)) (Nat.mod_lt _ (by norm_num))
    (Nat.mod_lt _ (by norm_num)) (Nat.mod_lt _ (by norm_num))]
  simp only [Nat.shiftRight_eq_div_pow]
  omega

theorem generateMIC_lt (cmac : List Nat → List Nat → List Nat) (msg : Option (List Nat))
    (len : Nat) (key : List Nat) : generateMIC cmac msg len key < 2 ^ 32 := by
  unfold generateMIC
  split
  · norm_num
  · split
    · norm_num
    · simp only
      refine Nat.or_lt_two_pow (Nat.or_lt_two_pow (Nat.or_lt_two_pow ?_ ?_) ?_) ?_
      · omega
      · exact Nat.mod_lt _ (by norm_num)
      · exact Nat.mod_lt _ (by norm_num)
      · exact Nat.mod_lt _ (by norm_num)

/-- C1. For every key and every message `msg` (the empty one included), the buffer `msg`
followed by the four bytes `hton<uint32_t>(generateMIC(msg, key))` is accepted by
`verifyMIC` under the same key. -/
theorem verifyMIC_generateMIC (cmac : List Nat → List Nat → List Nat) (key msg : List Nat) :
    verifyMIC cmac (some (msg ++ hton 4 (generateMIC cmac (some msg) msg.length key) 0))
      (msg.length + 4) key = true := by
  have hdrop : (msg ++ hton 4 (generateMIC cmac (some msg) msg.length key) 0).drop
      (msg.length + 4 - 4) = hton 4 (generateMIC cmac (some msg) msg.length key) 0 := by
    simp
  have hgen : generateMIC cmac
      (some (msg ++ hton 4 (generateMIC cmac (some msg) msg.length key) 0))
      (msg.length + 4 - 4) key = generateMIC cmac (some msg) msg.length key := by
    simp [generateMIC]
  unfold verifyMIC
  simp only [hdrop, hgen, ntoh_hton_u32]
  have hlt := generateMIC_lt cmac (some msg) msg.length key
  rw [Nat.mod_eq_of_lt hlt]
  simp


/-- C3 (code at the failing input). Read through `ntoh<uint64_t>`, the eight bytes written
by `hton<uint64_t>` for the value `0x100000001` give `1`: the fifth byte is cast to
`uint32_t` before it is shifted by 32 bits, so it cannot reach bit 32 of the result. -/
theorem ntoh_hton_u64_high_lost :
    hton 8 0x100000001 8 = [1, 0, 0, 0, 1, 0, 0, 0] ∧
      ntoh 8 (hton 8 0x100000001 8) 8 = 1 ∧
      ntoh 8 (hton 8 0x100000001 8) 8 ≠ 0x100000001 := by
  decide

/-! ## Payload cipher -/

theorem ctrBlock_ctrBlock (counter : Bool) (eb : List Nat) (a b : Nat) :
    ctrBlock counter (ctrBlock counter eb a) b = ctrBlock counter eb b := by
  cases counter <;> simp [ctrBlock, List.set_set]

theorem xor_byte_cancel (a e : Nat) (h : a < 256) : ((a ^^^ e) % 256 ^^^ e) % 256 = a := by
  apply Nat.eq_of_testBit_eq
  intro i
  have e8 : (256 : Nat) = 2 ^ 8 := by norm_num
  rw [e8] at h ⊢
  simp only [Nat.testBit_mod_two_pow, Nat.testBit_xor]
  by_cases hi : i < 8
  · simp [hi]
  · have hlt : a < 2 ^ i := lt_of_lt_of_le h (Nat.pow_le_pow_right (by norm_num) (by omega))
    simp [hi, Nat.testBit_lt_two_pow hlt]

theorem processAESLoop_eq (aes : List Nat → List Nat → List Nat) (key : List Nat)
    (counter : Bool) (inp : List Nat) (n : Nat) :
    ∀ (i : Nat) (eb : List Nat) (remLen : Nat),
      processAESLoop aes key counter inp n i eb remLen =
        (List.range (min remLen (16 * n))).map (fun k =>
          (inp.getD (i * 16 + k) 0 ^^^
            (aes key (ctrBlock counter eb (i + k / 16))).getD (k % 16) 0) % 256) := by
  induction n with
  | zero => intro i eb remLen; simp [processAESLoop]
  | succ n ih =>
    intro i eb remLen
    unfold processAESLoop
    simp only [RADIOLIB_AES128_BLOCK_SIZE]
    rw [ih]
    by_cases hr : remLen > 16
    · have hmin : min remLen (16 * (n + 1)) = 16 + min (remLen - 16) (16 * n) := by omega
      rw [hmin, List.range_add, List.map_append, List.map_map]
      simp only [hr, if_true]
      have hA : ∀ k ∈ List.range 16,
          (inp.getD (i * 16 + k) 0 ^^^
            (aes key (if counter = true then
              eb.set RADIOLIB_LORAWAN_ENC_BLOCK_COUNTER_POS ((i + 1) % 256) else eb)).getD k 0)
              % 256 =
          (inp.getD (i * 16 + k) 0 ^^^
            (aes key (ctrBlock counter eb (i + k / 16))).getD (k % 16) 0) % 256 := by
        intro k hk
        have hk16 : k < 16 := List.mem_range.mp hk
        have h1 : k / 16 = 0 := by omega
        have h2 : k % 16 = k := by omega
        simp only [h1, h2, Nat.add_zero]
        rfl
      have hB : ∀ k ∈ List.range (min (remLen - 16) (16 * n)),
          (inp.getD ((i + 1) * 16 + k) 0 ^^^
            (aes key (ctrBlock counter (if counter = true then
              eb.set RADIOLIB_LORAWAN_ENC_BLOCK_COUNTER_POS ((i + 1) % 256) else eb)
              (i + 1 + k / 16))).getD (k % 16) 0) % 256 =
          ((fun k => (inp.getD (i * 16 + k) 0 ^^^
            (aes key (ctrBlock counter eb (i + k / 16))).getD (k % 16) 0) % 256) ∘
              fun x => 16 + x) k := by
        intro k _
        have h1 : (16 + k) / 16 = 1 + k / 16 := by omega
        have h2 : (16 + k) % 16 = k % 16 := by omega
        have h3 : i * 16 + (16 + k) = (i + 1) * 16 + k := by ring
        have h4 : i + (1 + k / 16) = i + 1 + k / 16 := by ring
        simp only [Function.comp, h1, h2, h3, h4]
        have h5 := ctrBlock_ctrBlock counter eb i (i + 1 + k / 16)
        unfold ctrBlock at h5 ⊢
        rw [h5]
      rw [List.map_congr_left hA, List.map_congr_left hB]
    · have hmin : min remLen (16 * (n + 1)) = remLen := by omega
      simp only [hr, if_false, Nat.sub_self, hmin]
      have h0 : min 0 (16 * n) = 0 := by omega
      rw [h0]
      simp only [List.range_zero, List.map_nil, List.append_nil]
      apply List.map_congr_left
      intro k hk
      have hk16 : k < 16 := by have := List.mem_range.mp hk; omega
      have h1 : k / 16 = 0 := by omega
      have h2 : k % 16 = k := by omega
      simp only [h1, h2, Nat.add_zero]
      rfl

/-- The bytes written by `processAES`: byte `k` of the input is combined with byte `k % 16`
of the encryption of the counter block of block `k / 16`. -/
theorem processAES_eq (aes : List Nat → List Nat → List Nat) (devAddr : Nat) (inp : List Nat)
    (len : Nat) (key : List Nat) (fcnt dir ctrId : Nat) (counter : Bool) :
    processAES aes devAddr inp len key fcnt dir ctrId counter =
      (List.range len).map (fun k =>
        (inp.getD k 0 ^^^
          (aes key (ctrBlock counter (encBlock0 devAddr fcnt dir ctrId) (k / 16))).getD
            (k % 16) 0) % 256) := by
  unfold processAES
  simp only [RADIOLIB_AES128_BLOCK_SIZE]
  rw [processAESLoop_eq]
  have hmin : min len (16 * (if len % 16 ≠ 0 then len / 16 + 1 else len / 16)) = len := by
    split <;> omega
  rw [hmin]
  apply List.map_congr_left
  intro k _
  simp only [Nat.zero_mul, Nat.zero_add]
  rfl

theorem processAES_length (aes : List Nat → List Nat → List Nat) (devAddr : Nat)
    (inp : List Nat) (len : Nat) (key : List Nat) (fcnt dir ctrId : Nat) (counter : Bool) :
    (processAES aes devAddr inp len key fcnt dir ctrId counter).length = len := by
  rw [processAES_eq]; simp

/-- C2. Applying `processAES` to the output of `processAES` with the same key, device
address, frame counter, direction, counter id and counter flag gives back the input: the
same number of bytes and the same bytes. -/
theorem processAES_involutive (aes : List Nat → List Nat → List Nat) (devAddr : Nat)
    (p key : List Nat) (fcnt dir ctrId : Nat) (counter : Bool)
    (hp : ∀ b ∈ p, b < 256) :
    (processAES aes devAddr p p.length key fcnt dir ctrId counter).length = p.length ∧
    processAES aes devAddr (processAES aes devAddr p p.length key fcnt dir ctrId counter)
      (processAES aes devAddr p p.length key fcnt dir ctrId counter).length
      key fcnt dir ctrId counter = p := by
  refine ⟨processAES_length _ _ _ _ _ _ _ _ _, ?_⟩
  rw [processAES_length]
  rw [processAES_eq aes devAddr (processAES aes devAddr p p.length key fcnt dir ctrId counter)]
  rw [processAES_eq]
  apply List.ext_getElem
  · simp
  · intro k h1 h2
    simp only [List.getElem_map, List.getElem_range]
    have hk : k < (List.range p.length).length := by simpa using h2
    rw [List.getD_eq_getElem _ _ (by simpa using h2)]
    simp only [List.getElem_map, List.getElem_range]
    rw [List.getD_eq_getElem _ _ h2]
    exact xor_byte_cancel _ _ (hp _ (List.getElem_mem h2))

/-- C2 (instance). The two bytes `0xCA, 0xFE`, processed twice with `sampleECB` as the block
function, are `0xCA, 0xFE` again. -/
theorem processAES_involutive_witness :
    (processAES sampleECB 0x26011BDA [0xCA, 0xFE] [0xCA, 0xFE].length sampleNwkKey 1 0 0
        true).length = [0xCA, 0xFE].length ∧
    processAES sampleECB 0x26011BDA
      (processAES sampleECB 0x26011BDA [0xCA, 0xFE] [0xCA, 0xFE].length sampleNwkKey 1 0 0 true)
      (processAES sampleECB 0x26011BDA [0xCA, 0xFE] [0xCA, 0xFE].length sampleNwkKey 1 0 0
        true).length
      sampleNwkKey 1 0 0 true = [0xCA, 0xFE] :=
  processAES_involutive sampleECB 0x26011BDA [0xCA, 0xFE] sampleNwkKey 1 0 0 true (by decide)

/-! ## Uplink -/

/-- The persistent storage after `uplink`: it is untouched when one of the three checks
rejects the call; otherwise the incremented frame counter has been written, and a status
other than success is the status of the radio's `transmit`. -/
theorem uplink_hal (env : Env) (d : Dev) (hal : Hal) (data : List Nat) (len port : Nat) :
    ((uplink env d hal data len port).1 ≠ RADIOLIB_ERR_NONE →
      ((port > 0xDF ∨ len > d.node.band.payloadLenMax.getD d.node.dataRate 0 ∨
          sub32 (env.millis d.phy.tick % 2 ^ 32) d.node.rxDelayStart < d.node.rxDelay 1) ∧
        (uplink env d hal data len port).2.2 = hal) ∨
      (¬ (port > 0xDF ∨ len > d.node.band.payloadLenMax.getD d.node.dataRate 0 ∨
          sub32 (env.millis d.phy.tick % 2 ^ 32) d.node.rxDelayStart < d.node.rxDelay 1) ∧
        (uplink env d hal data len port).1 = env.status (d.phy.tick + 3) ∧
        (uplink env d hal data len port).2.2 =
          hal.write (.fCntUp ((hal.store.fCntUp % 2 ^ 32 + 1) % 2 ^ 32)))) ∧
    ((uplink env d hal data len port).1 = RADIOLIB_ERR_NONE →
      (uplink env d hal data len port).2.2 =
          hal.write (.fCntUp ((hal.store.fCntUp % 2 ^ 32 + 1) % 2 ^ 32))) := by
  unfold uplink
  simp only [Dev.millis, Dev.radio, Phy.step, Phy.call]
  split_ifs <;> simp_all

/-- C4 (as stated, refuted). With the persisted `fCntUp` at `0xFFFFFFFF`, a successful
uplink leaves the persisted `fCntUp` at `0`, which is not greater than the value before. -/
theorem uplink_fCntUp_wraps :
    (uplink (sampleEnv RADIOLIB_ERR_NONE []) sampleDev (sampleHal 7 0xFFFFFFFF)
        [0xCA, 0xFE] 2 1).1 = RADIOLIB_ERR_NONE ∧
    (uplink (sampleEnv RADIOLIB_ERR_NONE []) sampleDev (sampleHal 7 0xFFFFFFFF)
        [0xCA, 0xFE] 2 1).2.2.store.fCntUp = 0 ∧
    ¬ ((sampleHal 7 0xFFFFFFFF).store.fCntUp <
      (uplink (sampleEnv RADIOLIB_ERR_NONE []) sampleDev (sampleHal 7 0xFFFFFFFF)
        [0xCA, 0xFE] 2 1).2.2.store.fCntUp) := by
  decide!

/-- C4 (amended). If `uplink` returns success, the persisted `fCntUp` after the call is the
32-bit value before the call plus one modulo `2 ^ 32`; it is strictly greater than the value
before the call whenever that value is below `2 ^ 32 - 1`. -/
theorem uplink_fCntUp_increases (env : Env) (d : Dev) (hal : Hal) (data : List Nat)
    (len port : Nat) (hpre : hal.store.fCntUp < 2 ^ 32)
    (hok : (uplink env d hal data len port).1 = RADIOLIB_ERR_NONE) :
    (uplink env d hal data len port).2.2.store.fCntUp = (hal.store.fCntUp + 1) % 2 ^ 32 ∧
    (hal.store.fCntUp < 2 ^ 32 - 1 →
      hal.store.fCntUp < (uplink env d hal data len port).2.2.store.fCntUp) := by
  rw [(uplink_hal env d hal data len port).2 hok]
  simp only [Hal.write, Store.apply]
  constructor
  · rw [Nat.mod_eq_of_lt hpre]
  · intro h
    omega

/-- C4 (instance). A successful uplink from the persisted `fCntUp` 41 leaves it at 42. -/
theorem uplink_fCntUp_increases_witness :
    (uplink (sampleEnv RADIOLIB_ERR_NONE []) sampleDev (sampleHal 7 41)
        [0xCA, 0xFE] 2 1).2.2.store.fCntUp = (41 + 1) % 2 ^ 32 ∧
    ((41 : Nat) < 2 ^ 32 - 1 →
      41 < (uplink (sampleEnv RADIOLIB_ERR_NONE []) sampleDev (sampleHal 7 41)
        [0xCA, 0xFE] 2 1).2.2.store.fCntUp) :=
  uplink_fCntUp_increases (sampleEnv RADIOLIB_ERR_NONE []) sampleDev (sampleHal 7 41)
    [0xCA, 0xFE] 2 1 (by decide) (by decide!)

/-- C6 (as stated, refuted). When the radio's `transmit` fails with the driver code `-5`,
`uplink` returns that code, and the persisted `fCntUp` has changed from 41 to 42. -/
theorem uplink_transmit_error_store_changed :
    (uplink (sampleEnv (.other (-5)) []) sampleDev (sampleHal 7 41) [0xCA, 0xFE] 2 1).1
      = .other (-5) ∧
    (uplink (sampleEnv (.other (-5)) []) sampleDev (sampleHal 7 41) [0xCA, 0xFE] 2 1).1
      ≠ RADIOLIB_ERR_NONE ∧
    (uplink (sampleEnv (.other (-5)) []) sampleDev (sampleHal 7 41)
      [0xCA, 0xFE] 2 1).2.2.store.fCntUp = 42 ∧
    (uplink (sampleEnv (.other (-5)) []) sampleDev (sampleHal 7 41) [0xCA, 0xFE] 2 1).2.2.store
      ≠ (sampleHal 7 41).store := by
  decide!

/-- C6 (amended). Whenever `uplink` returns a status other than success, either one of its
three checks has rejected the call (port above `0xDF`: `InvalidPort`; length above
`payloadLenMax[dataRate]`: `PacketTooLong`; less than `rxDelays[1]` elapsed since
`rxDelayStart`: `UplinkUnavailable`) and the persistent storage is the one before the call, or
the status is the one returned by the radio's `transmit` and the persistent storage differs
from the one before the call by exactly one write, that of the incremented `fCntUp`. -/
theorem uplink_error_store (env : Env) (d : Dev) (hal : Hal) (data : List Nat) (len port : Nat)
    (herr : (uplink env d hal data len port).1 ≠ RADIOLIB_ERR_NONE) :
    ((uplink env d hal data len port).1 = RADIOLIB_ERR_INVALID_PORT ∧ port > 0xDF ∧
        (uplink env d hal data len port).2.2 = hal) ∨
    ((uplink env d hal data len port).1 = RADIOLIB_ERR_PACKET_TOO_LONG ∧
        len > d.node.band.payloadLenMax.getD d.node.dataRate 0 ∧
        (uplink env d hal data len port).2.2 = hal) ∨
    ((uplink env d hal data len port).1 = RADIOLIB_ERR_UPLINK_UNAVAILABLE ∧
        sub32 (env.millis d.phy.tick % 2 ^ 32) d.node.rxDelayStart < d.node.rxDelay 1 ∧
        (uplink env d hal data len port).2.2 = hal) ∨
    ((uplink env d hal data len port).1 = env.status (d.phy.tick + 3) ∧
        (uplink env d hal data len port).2.2.writes =
          hal.writes ++ [.fCntUp ((hal.store.fCntUp % 2 ^ 32 + 1) % 2 ^ 32)] ∧
        (uplink env d hal data len port).2.2.store =
          { hal.store with fCntUp := (hal.store.fCntUp % 2 ^ 32 + 1) % 2 ^ 32 }) := by
  revert herr
  unfold uplink
  simp only [Dev.millis, Dev.radio, Phy.step, Phy.call, Hal.write, Store.apply]
  split_ifs <;> simp_all

/-- C6 (instance). For the sample node, a call on port `0xE0` is rejected with `InvalidPort`
and leaves the persistent storage as it was. -/
theorem uplink_error_store_witness :
    ((uplink (sampleEnv RADIOLIB_ERR_NONE []) sampleDev (sampleHal 7 41) [0xCA, 0xFE] 2 0xE0).1
        = RADIOLIB_ERR_INVALID_PORT ∧ 0xE0 > 0xDF ∧
        (uplink (sampleEnv RADIOLIB_ERR_NONE []) sampleDev (sampleHal 7 41) [0xCA, 0xFE] 2
          0xE0).2.2 = sampleHal 7 41) ∨
    ((uplink (sampleEnv RADIOLIB_ERR_NONE []) sampleDev (sampleHal 7 41) [0xCA, 0xFE] 2 0xE0).1
        = RADIOLIB_ERR_PACKET_TOO_LONG ∧
        2 > sampleDev.node.band.payloadLenMax.getD sampleDev.node.dataRate 0 ∧
        (uplink (sampleEnv RADIOLIB_ERR_NONE []) sampleDev (sampleHal 7 41) [0xCA, 0xFE] 2
          0xE0).2.2 = sampleHal 7 41) ∨
    ((uplink (sampleEnv RADIOLIB_ERR_NONE []) sampleDev (sampleHal 7 41) [0xCA, 0xFE] 2 0xE0).1
        = RADIOLIB_ERR_UPLINK_UNAVAILABLE ∧
        sub32 ((sampleEnv RADIOLIB_ERR_NONE []).millis sampleDev.phy.tick % 2 ^ 32)
          sampleDev.node.rxDelayStart < sampleDev.node.rxDelay 1 ∧
        (uplink (sampleEnv RADIOLIB_ERR_NONE []) sampleDev (sampleHal 7 41) [0xCA, 0xFE] 2
          0xE0).2.2 = sampleHal 7 41) ∨
    ((uplink (sampleEnv RADIOLIB_ERR_NONE []) sampleDev (sampleHal 7 41) [0xCA, 0xFE] 2 0xE0).1
        = (sampleEnv RADIOLIB_ERR_NONE []).status (sampleDev.phy.tick + 3) ∧
        (uplink (sampleEnv RADIOLIB_ERR_NONE []) sampleDev (sampleHal 7 41) [0xCA, 0xFE] 2
          0xE0).2.2.writes =
          (sampleHal 7 41).writes ++ [.fCntUp (((sampleHal 7 41).store.fCntUp % 2 ^ 32 + 1) % 2 ^ 32)] ∧
        (uplink (sampleEnv RADIOLIB_ERR_NONE []) sampleDev (sampleHal 7 41) [0xCA, 0xFE] 2
          0xE0).2.2.store =
          { (sampleHal 7 41).store with
            fCntUp := ((sampleHal 7 41).store.fCntUp % 2 ^ 32 + 1) % 2 ^ 32 }) :=
  uplink_error_store (sampleEnv RADIOLIB_ERR_NONE []) sampleDev (sampleHal 7 41) [0xCA, 0xFE] 2
    0xE0 (by decide)

/-- C10. For every port above `0xDF` (so for every port in `0xE0..0xFF`) and every data,
length and state, `uplink` returns `InvalidPort` and leaves the node, the radio and the
persistent storage as they were: nothing is handed to the radio. For every port in
`0x00..0xDF` the status of `uplink` is `PacketTooLong`, `UplinkUnavailable` or the status that
the radio's `transmit` returned (success included); so it is not `InvalidPort`, unless the
radio driver itself returned that code from `transmit`. -/
theorem uplink_port (env : Env) (d : Dev) (hal : Hal) (data : List Nat) (len port : Nat) :
    (0xDF < port → uplink env d hal data len port = (RADIOLIB_ERR_INVALID_PORT, d, hal)) ∧
    (port ≤ 0xDF →
      ((uplink env d hal data len port).1 = RADIOLIB_ERR_PACKET_TOO_LONG ∨
        (uplink env d hal data len port).1 = RADIOLIB_ERR_UPLINK_UNAVAILABLE ∨
        (uplink env d hal data len port).1 = env.status (d.phy.tick + 3)) ∧
      (env.status (d.phy.tick + 3) ≠ RADIOLIB_ERR_INVALID_PORT →
        (uplink env d hal data len port).1 ≠ RADIOLIB_ERR_INVALID_PORT)) := by
  constructor
  · intro h
    unfold uplink
    simp [h]
  · intro h
    unfold uplink
    simp only [Dev.millis, Dev.radio, Phy.step, Phy.call]
    split_ifs <;> first | omega | simp_all

/-- C10 (instance). On the sample node port `0xE0` is rejected with nothing handed to the
radio, and port `0xDF` is not rejected as an invalid port. -/
theorem uplink_port_witness :
    uplink (sampleEnv RADIOLIB_ERR_NONE []) sampleDev (sampleHal 7 41) [0xCA, 0xFE] 2 0xE0 =
      (RADIOLIB_ERR_INVALID_PORT, sampleDev, sampleHal 7 41) ∧
    (uplink (sampleEnv RADIOLIB_ERR_NONE []) sampleDev (sampleHal 7 41) [0xCA, 0xFE] 2 0xDF).1 ≠
      RADIOLIB_ERR_INVALID_PORT :=
  ⟨(uplink_port (sampleEnv RADIOLIB_ERR_NONE []) sampleDev (sampleHal 7 41) [0xCA, 0xFE] 2
      0xE0).1 (by decide),
    ((uplink_port (sampleEnv RADIOLIB_ERR_NONE []) sampleDev (sampleHal 7 41) [0xCA, 0xFE] 2
      0xDF).2 (by decide)).2 (by decide)⟩

/-! ## Activation -/

/-- The persistent storage after `sendMacCommand`: the only write it can make is that of the
incremented frame counter by its uplink, and it has made it when it returns success. -/
theorem sendMacCommand_hal (env : Env) (fuel : Nat) (d : Dev) (hal : Hal) (cid : Nat)
    (payload : List Nat) (payloadLen : Nat) (reply : List Nat) (replyLen : Nat)
    (r : Status × List Nat × Dev × Hal)
    (h : sendMacCommand env fuel d hal cid payload payloadLen reply replyLen = some r) :
    (r.1 ≠ RADIOLIB_ERR_NONE → r.2.2.2 = hal ∨
      r.2.2.2 = hal.write (.fCntUp ((hal.store.fCntUp % 2 ^ 32 + 1) % 2 ^ 32))) ∧
    (r.1 = RADIOLIB_ERR_NONE →
      r.2.2.2 = hal.write (.fCntUp ((hal.store.fCntUp % 2 ^ 32 + 1) % 2 ^ 32))) := by
  unfold sendMacCommand at h
  simp only at h
  have hu := uplink_hal env d hal
    (writeAt ((List.replicate (1 + payloadLen) 0).set 0 (cid % 256)) 1 (payload.take payloadLen))
    (1 + payloadLen) RADIOLIB_LORAWAN_FPORT_MAC_COMMAND
  generalize uplink env d hal
    (writeAt ((List.replicate (1 + payloadLen) 0).set 0 (cid % 256)) 1 (payload.take payloadLen))
    (1 + payloadLen) RADIOLIB_LORAWAN_FPORT_MAC_COMMAND = u at h hu
  obtain ⟨ust, ud, uhal⟩ := u
  simp only at h hu
  split at h
  · rename_i hne
    cases h
    simp only
    refine ⟨fun _ => ?_, fun hc => absurd hc hne⟩
    rcases hu.1 hne with h1 | h1
    · exact Or.inl h1.2
    · exact Or.inr h1.2.2
  · rename_i hne
    have hok : ust = RADIOLIB_ERR_NONE := by simpa using hne
    have hh := hu.2 hok
    split at h
    · cases h
    · rename_i st buf len dd heq
      split at h
      · cases h; simp only; exact ⟨fun _ => Or.inr hh, fun _ => hh⟩
      · split at h
        · cases h; simp only; exact ⟨fun _ => Or.inr hh, fun _ => hh⟩
        · split at h
          · cases h; simp only; exact ⟨fun _ => Or.inr hh, fun _ => hh⟩
          · cases h; simp only; exact ⟨fun _ => Or.inr hh, fun _ => hh⟩

/-- The function `persistSession` makes the writes `sessionWrites`, in order. -/
theorem persistSession_eq (node : LoRaWANNode) (hal : Hal) :
    persistSession node hal = hal.writeAll (sessionWrites node) := rfl

/-- Writing two sequences one after the other. -/
theorem writeAll_append (hal : Hal) (a b : List StoreWrite) :
    hal.writeAll (a ++ b) = (hal.writeAll a).writeAll b := by
  simp [Hal.writeAll, List.foldl_append]

/-- The writes of `joinAccept`: at most the frame counter of the RekeyInd uplink, followed by
the writes that record the session exactly when it returns success. -/
theorem joinAccept_hal (env : Env) (fuel : Nat) (d : Dev) (hal : Hal) (joinEUI devEUI : Nat)
    (nwkKey appKey : List Nat) (devNonce lenRx : Nat) (joinAcceptMsgEnc : List Nat)
    (r : Status × Dev × Hal)
    (h : joinAccept env fuel d hal joinEUI devEUI nwkKey appKey devNonce lenRx joinAcceptMsgEnc
      = some r) :
    ∃ up, (up = [] ∨ up = [StoreWrite.fCntUp ((hal.store.fCntUp % 2 ^ 32 + 1) % 2 ^ 32)]) ∧
      ((r.1 ≠ RADIOLIB_ERR_NONE ∧ r.2.2 = hal.writeAll up) ∨
        (r.1 = RADIOLIB_ERR_NONE ∧ r.2.2 = hal.writeAll (up ++ sessionWrites r.2.1.node))) := by
  unfold joinAccept at h
  simp only at h
  split at h
  · cases h
    exact ⟨[], Or.inl rfl, Or.inl ⟨by simp, rfl⟩⟩
  · split at h
    · cases h
      exact ⟨[], Or.inl rfl, Or.inl ⟨by simp, rfl⟩⟩
    · split at h
      · split at h
        · cases h
        · rename_i st srv dd hh heq
          have hs := sendMacCommand_hal _ _ _ _ _ _ _ _ _ _ heq
          simp only at hs
          split at h
          · rename_i hne
            cases h
            rcases hs.1 hne with h1 | h1
            · exact ⟨[], Or.inl rfl, Or.inl ⟨hne, h1⟩⟩
            · exact ⟨_, Or.inr rfl, Or.inl ⟨hne, h1⟩⟩
          · rename_i hne
            have hok : st = RADIOLIB_ERR_NONE := by simpa using hne
            split at h
            · cases h
              exact ⟨_, Or.inr rfl, Or.inl ⟨by simp, hs.2 hok⟩⟩
            · cases h
              refine ⟨_, Or.inr rfl, Or.inr ⟨rfl, ?_⟩⟩
              simp only [persistSession_eq, writeAll_append, hs.2 hok]
              rfl
      · cases h
        exact ⟨[], Or.inl rfl, Or.inr ⟨rfl, rfl⟩⟩

/-- The writes of `beginOTAA`. Without a join attempt (session restored, or the physical
layer configuration failed) it writes nothing. With a join attempt it writes the incremented
`devNonce`, then at most the frame counter of the RekeyInd uplink, then the writes that
record the session exactly when it returns success. -/
theorem beginOTAA_hal (env : Env) (fuel : Nat) (d : Dev) (hal : Hal) (joinEUI devEUI : Nat)
    (nwkKey appKey : List Nat) (force : Bool) (r : Status × Dev × Hal)
    (h : beginOTAA env fuel d hal joinEUI devEUI nwkKey appKey force = some r) :
    (¬ (force = true ∨ hal.store.magic % 2 ^ 32 ≠ RADIOLIB_LORAWAN_MAGIC) ∧ r.2.2 = hal) ∨
    ((force = true ∨ hal.store.magic % 2 ^ 32 ≠ RADIOLIB_LORAWAN_MAGIC) ∧
      (setPhyProperties env d).1 ≠ RADIOLIB_ERR_NONE ∧ r.1 = (setPhyProperties env d).1 ∧
      r.2.2 = hal) ∨
    ((force = true ∨ hal.store.magic % 2 ^ 32 ≠ RADIOLIB_LORAWAN_MAGIC) ∧
      (setPhyProperties env d).1 = RADIOLIB_ERR_NONE ∧
      ∃ up, (up = [] ∨ up = [StoreWrite.fCntUp ((hal.store.fCntUp % 2 ^ 32 + 1) % 2 ^ 32)]) ∧
        ((r.1 ≠ RADIOLIB_ERR_NONE ∧
            r.2.2 = hal.writeAll
              (StoreWrite.devNonce ((hal.store.devNonce % 2 ^ 16 + 1) % 2 ^ 16) :: up)) ∨
          (r.1 = RADIOLIB_ERR_NONE ∧
            r.2.2 = hal.writeAll
              (StoreWrite.devNonce ((hal.store.devNonce % 2 ^ 16 + 1) % 2 ^ 16) :: up ++
                sessionWrites r.2.1.node)))) := by
  unfold beginOTAA at h
  split at h
  · rename_i hc
    cases h
    left
    refine ⟨?_, rfl⟩
    simp only [Bool.not_eq_true', decide_eq_true_eq] at hc
    simp [hc.1, hc.2]
    exact hc.2
  · rename_i hc
    have hj : force = true ∨ hal.store.magic % 2 ^ 32 ≠ RADIOLIB_LORAWAN_MAGIC := by
      by_cases hf : force = true
      · exact Or.inl hf
      · right
        intro hm
        exact hc ⟨by simpa using hf, hm⟩
    split at h
    rename_i st0 d0 hsp
    split at h
    · rename_i hne
      cases h
      right; left
      exact ⟨hj, by simpa [hsp] using hne, by simp [hsp], rfl⟩
    · rename_i hne
      have hphy : st0 = RADIOLIB_ERR_NONE := by simpa using hne
      right; right
      refine ⟨hj, by simp [hsp, hphy], ?_⟩
      clear hsp hne hc hj hphy
      repeat' first | split at h | (fail_if_no_progress simp only at h)
      all_goals first
        | (cases h; done)
        | (cases h
           refine ⟨[], Or.inl rfl, Or.inl ⟨?_, rfl⟩⟩
           first | assumption | (simp; done) | simp_all)
        | (obtain ⟨up, hup, hres⟩ := joinAccept_hal _ _ _ _ _ _ _ _ _ _ _ _ h
           exact ⟨up, hup, hres⟩)

/-- The log of writes after a sequence of writes. -/
theorem writeAll_writes (ws : List StoreWrite) :
    ∀ hal : Hal, (hal.writeAll ws).writes = hal.writes ++ ws := by
  induction ws with
  | nil => intro hal; simp [Hal.writeAll]
  | cons w ws ih =>
    intro hal
    have := ih (hal.write w)
    simp only [Hal.writeAll, List.foldl_cons] at this ⊢
    rw [this]
    simp [Hal.write]

/-- C5 (amended). For every `beginOTAA` call that makes a join attempt (`force` set or magic
absent, and the physical layer configured, so that a Join-Request is built and handed to the
radio), whatever status it then returns, the persisted 16-bit `devNonce` after the call is the
value before the call plus one modulo `2 ^ 16`; it is strictly greater than the value before
the call whenever that value is below `2 ^ 16 - 1`. -/
theorem beginOTAA_devNonce (env : Env) (fuel : Nat) (d : Dev) (hal : Hal) (joinEUI devEUI : Nat)
    (nwkKey appKey : List Nat) (force : Bool) (r : Status × Dev × Hal)
    (hpre : hal.store.devNonce < 2 ^ 16)
    (hjoin : force = true ∨ hal.store.magic % 2 ^ 32 ≠ RADIOLIB_LORAWAN_MAGIC)
    (hphy : (setPhyProperties env d).1 = RADIOLIB_ERR_NONE)
    (hret : beginOTAA env fuel d hal joinEUI devEUI nwkKey appKey force = some r) :
    r.2.2.store.devNonce = (hal.store.devNonce + 1) % 2 ^ 16 ∧
    (hal.store.devNonce < 2 ^ 16 - 1 → hal.store.devNonce < r.2.2.store.devNonce) := by
  have hval : r.2.2.store.devNonce = (hal.store.devNonce + 1) % 2 ^ 16 := by
    rcases beginOTAA_hal env fuel d hal joinEUI devEUI nwkKey appKey force r hret with
      h | h | ⟨_, _, up, hup, hres⟩
    · exact absurd hjoin h.1
    · exact absurd hphy h.2.1
    · rw [Nat.mod_eq_of_lt hpre] at hres
      rcases hup with rfl | rfl <;> rcases hres with ⟨_, h2⟩ | ⟨_, h2⟩ <;>
        simp [h2, Hal.writeAll, Hal.write, Store.apply, sessionWrites]
  refine ⟨hval, fun h => ?_⟩
  rw [hval]
  omega

/-- C7 (amended). Whenever `beginOTAA` returns a status other than success, the persistent
store after the call differs from the store before the call at most in `devNonce` and
`fCntUp`: magic, `devAddr` and the four key blobs are unchanged, `devNonce` is unchanged or
incremented, and `fCntUp` is unchanged or incremented (by the uplink of the RekeyInd exchange
of revision 1.1). -/
theorem beginOTAA_error_store (env : Env) (fuel : Nat) (d : Dev) (hal : Hal)
    (joinEUI devEUI : Nat) (nwkKey appKey : List Nat) (force : Bool) (r : Status × Dev × Hal)
    (hret : beginOTAA env fuel d hal joinEUI devEUI nwkKey appKey force = some r)
    (herr : r.1 ≠ RADIOLIB_ERR_NONE) :
    r.2.2.store.magic = hal.store.magic ∧ r.2.2.store.devAddr = hal.store.devAddr ∧
    r.2.2.store.appSKey = hal.store.appSKey ∧ r.2.2.store.fNwkSIntKey = hal.store.fNwkSIntKey ∧
    r.2.2.store.sNwkSIntKey = hal.store.sNwkSIntKey ∧
    r.2.2.store.nwkSEncKey = hal.store.nwkSEncKey ∧
    (r.2.2.store.devNonce = hal.store.devNonce ∨
      r.2.2.store.devNonce = (hal.store.devNonce % 2 ^ 16 + 1) % 2 ^ 16) ∧
    (r.2.2.store.fCntUp = hal.store.fCntUp ∨
      r.2.2.store.fCntUp = (hal.store.fCntUp % 2 ^ 32 + 1) % 2 ^ 32) := by
  rcases beginOTAA_hal env fuel d hal joinEUI devEUI nwkKey appKey force r hret with
    h | h | ⟨_, _, up, hup, hres⟩
  · simp [h.2]
  · simp [h.2.2.2]
  · rcases hres with ⟨_, h2⟩ | ⟨h1, _⟩
    · rcases hup with rfl | rfl <;> simp [h2, Hal.writeAll, Hal.write, Store.apply]
    · exact absurd h1 herr

/-- C8 (amended). For every `beginOTAA` call that completes a join successfully, the writes
to the persistent store made by the call are: the incremented `devNonce` (followed, in
revision 1.1, by the frame counter of the RekeyInd uplink), then `devAddr`, then the four
session keys `appSKey`, `fNwkSIntKey`, `sNwkSIntKey`, `nwkSEncKey`, then `fCntUp` reset to 0,
then the magic sentinel. -/
theorem beginOTAA_write_order (env : Env) (fuel : Nat) (d : Dev) (hal : Hal)
    (joinEUI devEUI : Nat) (nwkKey appKey : List Nat) (force : Bool) (r : Status × Dev × Hal)
    (hjoin : force = true ∨ hal.store.magic % 2 ^ 32 ≠ RADIOLIB_LORAWAN_MAGIC)
    (hret : beginOTAA env fuel d hal joinEUI devEUI nwkKey appKey force = some r)
    (hok : r.1 = RADIOLIB_ERR_NONE) :
    ∃ pre,
      (pre = [StoreWrite.devNonce ((hal.store.devNonce % 2 ^ 16 + 1) % 2 ^ 16)] ∨
        pre = [StoreWrite.devNonce ((hal.store.devNonce % 2 ^ 16 + 1) % 2 ^ 16),
          StoreWrite.fCntUp ((hal.store.fCntUp % 2 ^ 32 + 1) % 2 ^ 32)]) ∧
      r.2.2.writes = hal.writes ++ pre ++
        [StoreWrite.devAddr (r.2.1.node.devAddr % 2 ^ 32),
          StoreWrite.appSKey (r.2.1.node.appSKey.take 16),
          StoreWrite.fNwkSIntKey (r.2.1.node.fNwkSIntKey.take 16),
          StoreWrite.sNwkSIntKey (r.2.1.node.sNwkSIntKey.take 16),
          StoreWrite.nwkSEncKey (r.2.1.node.nwkSEncKey.take 16),
          StoreWrite.fCntUp 0,
          StoreWrite.magic RADIOLIB_LORAWAN_MAGIC] := by
  rcases beginOTAA_hal env fuel d hal joinEUI devEUI nwkKey appKey force r hret with
    h | h | ⟨_, _, up, hup, hres⟩
  · exact absurd hjoin h.1
  · exact absurd (h.2.2.1 ▸ hok) h.2.1
  · rcases hres with ⟨h1, _⟩ | ⟨_, h2⟩
    · exact absurd hok h1
    · rcases hup with rfl | rfl
      · exact ⟨_, Or.inl rfl, by rw [h2, writeAll_writes]; simp [sessionWrites, RADIOLIB_AES128_BLOCK_SIZE]⟩
      · exact ⟨_, Or.inr rfl, by rw [h2, writeAll_writes]; simp [sessionWrites, RADIOLIB_AES128_BLOCK_SIZE]⟩

/-- C5 (as stated, refuted). With the persisted `devNonce` at `0xFFFF`, a join attempt leaves
the persisted `devNonce` at `0`, which is not greater than the value before: both when the
reply is malformed (17 zero bytes, so not a Join-Accept) and when the join succeeds. -/
theorem beginOTAA_devNonce_wraps :
    (beginOTAA (sampleEnv RADIOLIB_ERR_NONE []) 1 sampleDev
        (sampleHal 0xFFFF 41) 0x0102030405060708 0x1112131415161718 sampleNwkKey sampleAppKey
        false).map (fun r => (r.1, r.2.2.store.devNonce)) =
      some (RADIOLIB_ERR_DOWNLINK_MALFORMED, 0) ∧
    (beginOTAA (sampleEnv RADIOLIB_ERR_NONE sampleJoinAccept10) 1 sampleDev
        (sampleHal 0xFFFF 41) 0x0102030405060708 0x1112131415161718 sampleNwkKey sampleAppKey
        false).map (fun r => (r.1, r.2.2.store.devNonce)) = some (RADIOLIB_ERR_NONE, 0) ∧
    (sampleHal 0xFFFF 41).store.devNonce = 0xFFFF ∧ ¬ (0xFFFF < 0) := by
  decide!

/-- C5 (instance). A join attempt from the persisted `devNonce` 7 leaves it at 8. -/
theorem beginOTAA_devNonce_witness :
    ∃ r, beginOTAA (sampleEnv RADIOLIB_ERR_NONE sampleJoinAccept10) 1 sampleDev (sampleHal 7 41)
        0x0102030405060708 0x1112131415161718 sampleNwkKey sampleAppKey false = some r ∧
      r.2.2.store.devNonce = (7 + 1) % 2 ^ 16 ∧ ((7 : Nat) < 2 ^ 16 - 1 → 7 < r.2.2.store.devNonce) := by
  have hs : (beginOTAA (sampleEnv RADIOLIB_ERR_NONE sampleJoinAccept10) 1 sampleDev
      (sampleHal 7 41) 0x0102030405060708 0x1112131415161718 sampleNwkKey sampleAppKey
      false).isSome = true := by decide!
  obtain ⟨r, hr⟩ := Option.isSome_iff_exists.mp hs
  exact ⟨r, hr, beginOTAA_devNonce (sampleEnv RADIOLIB_ERR_NONE sampleJoinAccept10) 1 sampleDev
    (sampleHal 7 41) 0x0102030405060708 0x1112131415161718 sampleNwkKey sampleAppKey false r
    (by decide) (Or.inr (by decide)) (by decide!) hr⟩

/-- C7 (as stated, refuted). A revision 1.1 Join-Accept is received and accepted, the
RekeyInd uplink is transmitted, and no downlink preamble is detected in either Rx window:
`beginOTAA` returns `RxTimeout`, and the persisted `fCntUp` has changed from 41 to 42. -/
theorem beginOTAA_rekey_timeout_fCntUp_changed :
    (beginOTAA (sampleEnv RADIOLIB_ERR_NONE sampleJoinAccept11) 3 sampleDev (sampleHal 7 41)
        0x0102030405060708 0x1112131415161718 sampleNwkKey sampleAppKey false).map
      (fun r => (r.1, r.2.2.store.fCntUp, r.2.2.writes)) =
      some (RADIOLIB_ERR_RX_TIMEOUT, 42, [StoreWrite.devNonce 8, StoreWrite.fCntUp 42]) ∧
    (sampleHal 7 41).store.fCntUp = 41 ∧ RADIOLIB_ERR_RX_TIMEOUT ≠ RADIOLIB_ERR_NONE := by
  decide!

/-- C7 (instance). In the run above the magic, `devAddr` and the keys are the ones before
the call. -/
theorem beginOTAA_error_store_witness :
    ∃ r, beginOTAA (sampleEnv RADIOLIB_ERR_NONE sampleJoinAccept11) 3 sampleDev (sampleHal 7 41)
        0x0102030405060708 0x1112131415161718 sampleNwkKey sampleAppKey false = some r ∧
      r.1 ≠ RADIOLIB_ERR_NONE ∧
      r.2.2.store.magic = (sampleHal 7 41).store.magic ∧
      r.2.2.store.devAddr = (sampleHal 7 41).store.devAddr ∧
      r.2.2.store.appSKey = (sampleHal 7 41).store.appSKey ∧
      r.2.2.store.fNwkSIntKey = (sampleHal 7 41).store.fNwkSIntKey ∧
      r.2.2.store.sNwkSIntKey = (sampleHal 7 41).store.sNwkSIntKey ∧
      r.2.2.store.nwkSEncKey = (sampleHal 7 41).store.nwkSEncKey ∧
      (r.2.2.store.devNonce = (sampleHal 7 41).store.devNonce ∨
        r.2.2.store.devNonce = ((sampleHal 7 41).store.devNonce % 2 ^ 16 + 1) % 2 ^ 16) ∧
      (r.2.2.store.fCntUp = (sampleHal 7 41).store.fCntUp ∨
        r.2.2.store.fCntUp = ((sampleHal 7 41).store.fCntUp % 2 ^ 32 + 1) % 2 ^ 32) := by
  have hs : (beginOTAA (sampleEnv RADIOLIB_ERR_NONE sampleJoinAccept11) 3 sampleDev
      (sampleHal 7 41) 0x0102030405060708 0x1112131415161718 sampleNwkKey sampleAppKey
      false).map (fun r => r.1) = some RADIOLIB_ERR_RX_TIMEOUT := by decide!
  obtain ⟨r, hr, hst⟩ := Option.map_eq_some'.mp hs
  have herr : r.1 ≠ RADIOLIB_ERR_NONE := by rw [hst]; decide
  exact ⟨r, hr, herr, beginOTAA_error_store (sampleEnv RADIOLIB_ERR_NONE sampleJoinAccept11) 3
    sampleDev (sampleHal 7 41) 0x0102030405060708 0x1112131415161718 sampleNwkKey sampleAppKey
    false r hr herr⟩

/-- C8 (as stated, refuted). In a successful revision 1.0 join the write of `devAddr` comes
before the writes of the four session keys, not after them. -/
theorem beginOTAA_devAddr_before_keys :
    (beginOTAA (sampleEnv RADIOLIB_ERR_NONE sampleJoinAccept10) 1 sampleDev (sampleHal 7 41)
        0x0102030405060708 0x1112131415161718 sampleNwkKey sampleAppKey false).map
      (fun r => (r.1, r.2.2.writes)) =
      some (RADIOLIB_ERR_NONE,
        [StoreWrite.devNonce 8,
          StoreWrite.devAddr 0x26011BDA,
          StoreWrite.appSKey [3, 163, 161, 167, 22, 6, 7, 15, 9, 10, 11, 12, 13, 14, 15, 16],
          StoreWrite.fNwkSIntKey [0, 163, 161, 167, 22, 6, 7, 15, 9, 10, 11, 12, 13, 14, 15, 16],
          StoreWrite.sNwkSIntKey [0, 163, 161, 167, 22, 6, 7, 15, 9, 10, 11, 12, 13, 14, 15, 16],
          StoreWrite.nwkSEncKey [0, 163, 161, 167, 22, 6, 7, 15, 9, 10, 11, 12, 13, 14, 15, 16],
          StoreWrite.fCntUp 0,
          StoreWrite.magic RADIOLIB_LORAWAN_MAGIC]) := by
  decide!

/-- C8 (instance). The writes of the successful revision 1.0 join of the samples. -/
theorem beginOTAA_write_order_witness :
    ∃ r, beginOTAA (sampleEnv RADIOLIB_ERR_NONE sampleJoinAccept10) 1 sampleDev (sampleHal 7 41)
        0x0102030405060708 0x1112131415161718 sampleNwkKey sampleAppKey false = some r ∧
      r.1 = RADIOLIB_ERR_NONE ∧
      ∃ pre,
        (pre = [StoreWrite.devNonce (((sampleHal 7 41).store.devNonce % 2 ^ 16 + 1) % 2 ^ 16)] ∨
          pre = [StoreWrite.devNonce (((sampleHal 7 41).store.devNonce % 2 ^ 16 + 1) % 2 ^ 16),
            StoreWrite.fCntUp (((sampleHal 7 41).store.fCntUp % 2 ^ 32 + 1) % 2 ^ 32)]) ∧
        r.2.2.writes = (sampleHal 7 41).writes ++ pre ++
          [StoreWrite.devAddr (r.2.1.node.devAddr % 2 ^ 32),
            StoreWrite.appSKey (r.2.1.node.appSKey.take 16),
            StoreWrite.fNwkSIntKey (r.2.1.node.fNwkSIntKey.take 16),
            StoreWrite.sNwkSIntKey (r.2.1.node.sNwkSIntKey.take 16),
            StoreWrite.nwkSEncKey (r.2.1.node.nwkSEncKey.take 16),
            StoreWrite.fCntUp 0,
            StoreWrite.magic RADIOLIB_LORAWAN_MAGIC] := by
  have hs : (beginOTAA (sampleEnv RADIOLIB_ERR_NONE sampleJoinAccept10) 1 sampleDev
      (sampleHal 7 41) 0x0102030405060708 0x1112131415161718 sampleNwkKey sampleAppKey
      false).map (fun r => r.1) = some RADIOLIB_ERR_NONE := by decide!
  obtain ⟨r, hr, hst⟩ := Option.map_eq_some'.mp hs
  exact ⟨r, hr, hst, beginOTAA_write_order (sampleEnv RADIOLIB_ERR_NONE sampleJoinAccept10) 1
    sampleDev (sampleHal 7 41) 0x0102030405060708 0x1112131415161718 sampleNwkKey sampleAppKey
    false r (Or.inr (by decide)) hr hst⟩

/-- C9. In every execution of `beginOTAA` that returns, if the magic sentinel is among the
writes made by the call, then it is the last write of the call, no earlier write of the call
is a write of the magic, and `devAddr` and each of the four session keys have been written
before it in the same call. -/
theorem beginOTAA_magic_last (env : Env) (fuel : Nat) (d : Dev) (hal : Hal)
    (joinEUI devEUI : Nat) (nwkKey appKey : List Nat) (force : Bool) (r : Status × Dev × Hal)
    (hret : beginOTAA env fuel d hal joinEUI devEUI nwkKey appKey force = some r) :
    ∃ ws, r.2.2.writes = hal.writes ++ ws ∧
      ∀ v, StoreWrite.magic v ∈ ws →
        ∃ pre, ws = pre ++ [StoreWrite.magic v] ∧ (∀ u, StoreWrite.magic u ∉ pre) ∧
          (∃ a, StoreWrite.devAddr a ∈ pre) ∧ (∃ k, StoreWrite.appSKey k ∈ pre) ∧
          (∃ k, StoreWrite.fNwkSIntKey k ∈ pre) ∧ (∃ k, StoreWrite.sNwkSIntKey k ∈ pre) ∧
          (∃ k, StoreWrite.nwkSEncKey k ∈ pre) := by
  rcases beginOTAA_hal env fuel d hal joinEUI devEUI nwkKey appKey force r hret with
    h | h | ⟨_, _, up, hup, hres⟩
  · exact ⟨[], by simp [h.2], by simp⟩
  · exact ⟨[], by simp [h.2.2.2], by simp⟩
  · rcases hres with ⟨_, h2⟩ | ⟨_, h2⟩
    · refine ⟨_, by rw [h2, writeAll_writes], ?_⟩
      rcases hup with rfl | rfl <;> simp
    · refine ⟨_, by rw [h2, writeAll_writes], ?_⟩
      intro v hv
      have hv2 : v = RADIOLIB_LORAWAN_MAGIC := by
        rcases hup with rfl | rfl <;> simpa [sessionWrites] using hv
      subst hv2
      refine ⟨StoreWrite.devNonce ((hal.store.devNonce % 2 ^ 16 + 1) % 2 ^ 16) :: up ++
        [StoreWrite.devAddr (r.2.1.node.devAddr % 2 ^ 32),
          StoreWrite.appSKey (r.2.1.node.appSKey.take RADIOLIB_AES128_BLOCK_SIZE),
          StoreWrite.fNwkSIntKey (r.2.1.node.fNwkSIntKey.take RADIOLIB_AES128_BLOCK_SIZE),
          StoreWrite.sNwkSIntKey (r.2.1.node.sNwkSIntKey.take RADIOLIB_AES128_BLOCK_SIZE),
          StoreWrite.nwkSEncKey (r.2.1.node.nwkSEncKey.take RADIOLIB_AES128_BLOCK_SIZE),
          StoreWrite.fCntUp 0], ?_, ?_, ?_⟩
      · simp [sessionWrites]
      · rcases hup with rfl | rfl <;> simp
      · exact ⟨⟨r.2.1.node.devAddr % 2 ^ 32, by simp⟩,
          ⟨r.2.1.node.appSKey.take RADIOLIB_AES128_BLOCK_SIZE, by simp⟩,
          ⟨r.2.1.node.fNwkSIntKey.take RADIOLIB_AES128_BLOCK_SIZE, by simp⟩,
          ⟨r.2.1.node.sNwkSIntKey.take RADIOLIB_AES128_BLOCK_SIZE, by simp⟩,
          ⟨r.2.1.node.nwkSEncKey.take RADIOLIB_AES128_BLOCK_SIZE, by simp⟩⟩

/-- C9 (instance). In the successful revision 1.0 join of the samples the magic is the last
write and follows the writes of `devAddr` and of the four keys. -/
theorem beginOTAA_magic_last_witness :
    ∃ r, beginOTAA (sampleEnv RADIOLIB_ERR_NONE sampleJoinAccept10) 1 sampleDev (sampleHal 7 41)
        0x0102030405060708 0x1112131415161718 sampleNwkKey sampleAppKey false = some r ∧
      StoreWrite.magic RADIOLIB_LORAWAN_MAGIC ∈ r.2.2.writes ∧
      ∃ ws, r.2.2.writes = (sampleHal 7 41).writes ++ ws ∧
        ∀ v, StoreWrite.magic v ∈ ws →
          ∃ pre, ws = pre ++ [StoreWrite.magic v] ∧ (∀ u, StoreWrite.magic u ∉ pre) ∧
            (∃ a, StoreWrite.devAddr a ∈ pre) ∧ (∃ k, StoreWrite.appSKey k ∈ pre) ∧
            (∃ k, StoreWrite.fNwkSIntKey k ∈ pre) ∧ (∃ k, StoreWrite.sNwkSIntKey k ∈ pre) ∧
            (∃ k, StoreWrite.nwkSEncKey k ∈ pre) := by
  have hs : (beginOTAA (sampleEnv RADIOLIB_ERR_NONE sampleJoinAccept10) 1 sampleDev
      (sampleHal 7 41) 0x0102030405060708 0x1112131415161718 sampleNwkKey sampleAppKey
      false).map (fun r => decide (StoreWrite.magic RADIOLIB_LORAWAN_MAGIC ∈ r.2.2.writes))
        = some true := by decide!
  obtain ⟨r, hr, hm⟩ := Option.map_eq_some'.mp hs
  exact ⟨r, hr, of_decide_eq_true hm, beginOTAA_magic_last
    (sampleEnv RADIOLIB_ERR_NONE sampleJoinAccept10) 1 sampleDev (sampleHal 7 41)
    0x0102030405060708 0x1112131415161718 sampleNwkKey sampleAppKey false r hr⟩

/-! ## Uplink frames -/

theorem length_writeAt (buf : List Nat) (pos : Nat) (bytes : List Nat)
    (h : pos + bytes.length ≤ buf.length) : (writeAt buf pos bytes).length = buf.length := by
  unfold writeAt
  simp only [List.length_append, List.length_take, List.length_drop]
  omega

theorem length_hton (t v : Nat) : (hton t v 0).length = t := by
  simp [hton]

theorem length_micBlock0 (dir devAddr fcnt n : Nat) : (micBlock0 dir devAddr fcnt n).length = 16 := by
  unfold micBlock0
  simp only [List.length_set]
  rw [length_writeAt, length_writeAt] <;>
    simp [length_hton, RADIOLIB_AES128_BLOCK_SIZE, RADIOLIB_LORAWAN_BLOCK_DEV_ADDR_POS,
      RADIOLIB_LORAWAN_BLOCK_FCNT_POS, length_writeAt]

/-- Writing a 16-byte block over the first 16 bytes of a buffer. -/
theorem writeAt_zero_block (buf blk : List Nat) (hblk : blk.length = 16) :
    writeAt buf 0 blk = blk ++ buf.drop 16 := by
  simp [writeAt, hblk]

/-- The buffer of `uplink` after the two MIC blocks and the MIC have been written: the
part before the MIC is the block followed by the frame body, and the frame handed to the
radio is the body followed by the MIC. -/
theorem uplinkMsg_tail (m blk1 blk0 mic : List Nat) (n : Nat) (hm : m.length = n)
    (hn : 20 ≤ n) (h1 : blk1.length = 16) (h0 : blk0.length = 16) (hmic : mic.length = 4) :
    (writeAt m 0 blk1).take (n - 4) = blk1 ++ (m.drop 16).take (n - 20) ∧
    (writeAt (writeAt m 0 blk1) 0 blk0).take (n - 4) = blk0 ++ (m.drop 16).take (n - 20) ∧
    (writeAt (writeAt (writeAt m 0 blk1) 0 blk0) (n - 4) mic).drop 16 =
      (m.drop 16).take (n - 20) ++ mic := by
  have e1 : writeAt m 0 blk1 = blk1 ++ m.drop 16 := writeAt_zero_block m blk1 h1
  have e0 : writeAt (blk1 ++ m.drop 16) 0 blk0 = blk0 ++ m.drop 16 := by
    rw [writeAt_zero_block _ _ h0, List.drop_append_of_le_length (by omega), ← h1, List.drop_length,
      List.nil_append]
  have t : ∀ b : List Nat, b.length = 16 →
      (b ++ m.drop 16).take (n - 4) = b ++ (m.drop 16).take (n - 20) := by
    intro b hb
    rw [List.take_append_eq_append_take, List.take_of_length_le (by omega), hb]
    congr 2
  rw [e1, e0]
  refine ⟨t blk1 h1, t blk0 h0, ?_⟩
  have hnil : (blk0 ++ m.drop 16).drop (n - 4 + mic.length) = [] := by
    apply List.drop_eq_nil_of_le
    simp only [List.length_append, List.length_drop, h0, hm, hmic]
    omega
  unfold writeAt
  rw [t blk0 h0, hnil, List.append_nil, List.append_assoc,
    List.drop_append_of_le_length (by omega), ← h0, List.drop_length, List.nil_append]

/-- An uplink that passes the three checks hands the frame built by `buildUplinkMsg` to the
radio, returns the status of `transmit` and has written the incremented frame counter. -/
theorem uplink_transmits (env : Env) (d : Dev) (hal : Hal) (data : List Nat) (len port : Nat)
    (hport : port ≤ 0xDF) (hlen : len ≤ d.node.band.payloadLenMax.getD d.node.dataRate 0)
    (htime : ¬ sub32 (env.millis d.phy.tick % 2 ^ 32) d.node.rxDelayStart < d.node.rxDelay 1) :
    (uplink env d hal data len port).1 = env.status (d.phy.tick + 3) ∧
    (uplink env d hal data len port).2.1.phy.calls = d.phy.calls ++
      [.getTimeOnAir (RADIOLIB_LORAWAN_FRAME_LEN len (uplinkFoptsLen d.node) - 16),
        .transmit ((buildUplinkMsg env d.node ((hal.store.fCntUp % 2 ^ 32 + 1) % 2 ^ 32)
          data len port).drop 16) (RADIOLIB_LORAWAN_FRAME_LEN len (uplinkFoptsLen d.node) - 16)] ∧
    (uplink env d hal data len port).2.2 =
      hal.write (.fCntUp ((hal.store.fCntUp % 2 ^ 32 + 1) % 2 ^ 32)) := by
  have h1 : ¬ port > 0xDF := by omega
  have h2 : ¬ len > d.node.band.payloadLenMax.getD d.node.dataRate 0 := by omega
  unfold uplink buildUplinkMsg uplinkMsgBody uplinkFoptsLen
  simp only [Dev.millis, Dev.radio, Phy.step, Phy.call, h1, h2, htime, if_false,
    RADIOLIB_LORAWAN_FHDR_LEN_START_OFFS]
  split_ifs with ha hb hc <;>
    simp only [List.append_assoc, List.singleton_append, and_self, and_true] <;>
    exact (not_not.mp ha).symm

/-- A successful uplink has passed the port, length and timing checks. -/
theorem uplink_ok_checks (env : Env) (d : Dev) (hal : Hal) (data : List Nat) (len port : Nat)
    (hok : (uplink env d hal data len port).1 = RADIOLIB_ERR_NONE) :
    port ≤ 0xDF ∧ len ≤ d.node.band.payloadLenMax.getD d.node.dataRate 0 ∧
      ¬ sub32 (env.millis d.phy.tick % 2 ^ 32) d.node.rxDelayStart < d.node.rxDelay 1 := by
  unfold uplink at hok
  simp only [Dev.millis, Dev.radio, Phy.step, Phy.call] at hok
  split_ifs at hok <;> first | (exact absurd hok (by decide)) | (refine ⟨?_, ?_, ?_⟩ <;> omega)

/-- The length of a buffer after a store, also when the store runs past its end. -/
theorem length_writeAt_min (buf : List Nat) (pos : Nat) (bytes : List Nat) :
    (writeAt buf pos bytes).length =
      min pos buf.length + bytes.length + (buf.length - (pos + bytes.length)) := by
  simp only [writeAt, List.length_append, List.length_take, List.length_drop]

theorem length_uplinkMsgBody (env : Env) (node : LoRaWANNode) (fcnt : Nat) (data : List Nat)
    (len port : Nat) :
    (uplinkMsgBody env node fcnt data len port).length = 29 + len + uplinkFoptsLen node := by
  unfold uplinkMsgBody uplinkFoptsLen
  generalize node.command = cmd
  cases cmd <;>
    simp only [length_writeAt_min, List.length_set, List.length_replicate, length_hton,
      processAES_length, RADIOLIB_LORAWAN_FRAME_LEN, RADIOLIB_LORAWAN_FHDR_DEV_ADDR_POS,
      RADIOLIB_LORAWAN_FHDR_FCNT_POS, RADIOLIB_LORAWAN_FRAME_PAYLOAD_POS,
      RADIOLIB_LORAWAN_FHDR_LEN_START_OFFS] <;> omega

/-- The bytes just stored are read back from the position of the store. -/
theorem window_writeAt_self (buf : List Nat) (pos : Nat) (bytes : List Nat) (n : Nat)
    (h : pos ≤ buf.length) (hn : bytes.length = n) :
    ((writeAt buf pos bytes).drop pos).take n = bytes := by
  unfold writeAt
  have hp : (buf.take pos).length = pos := by simp [h]
  rw [List.append_assoc, List.drop_append_of_le_length (by omega)]
  rw [List.drop_of_length_le (by omega), List.nil_append, ← hn, List.take_left']
  rfl

theorem generateMIC_take (cmac : List Nat → List Nat → List Nat) (m : List Nat) (len : Nat)
    (key : List Nat) :
    generateMIC cmac (some m) len key = generateMIC cmac (some (m.take len)) len key := by
  simp [generateMIC, List.take_take]

theorem uplinkMsgBody_payload (env : Env) (node : LoRaWANNode) (fcnt : Nat) (data : List Nat)
    (len port : Nat) :
    ((uplinkMsgBody env node fcnt data len port).drop (25 + uplinkFoptsLen node)).take len =
      processAES env.encryptECB node.devAddr data len
        (if port = 0 then node.nwkSEncKey else node.appSKey) fcnt 0 0 true := by
  unfold uplinkMsgBody uplinkFoptsLen
  generalize node.command = cmd
  cases cmd <;> simp only [] <;>
    refine window_writeAt_self _ _ _ _ ?_ (processAES_length _ _ _ _ _ _ _ _ _) <;>
    simp only [length_writeAt_min, List.length_set, List.length_replicate, length_hton,
      processAES_length, RADIOLIB_LORAWAN_FRAME_LEN, RADIOLIB_LORAWAN_FHDR_DEV_ADDR_POS,
      RADIOLIB_LORAWAN_FHDR_FCNT_POS, RADIOLIB_LORAWAN_FRAME_PAYLOAD_POS,
      RADIOLIB_LORAWAN_FHDR_LEN_START_OFFS] <;> omega

/-- The frame handed to the radio by `uplink`: the frame body followed by the four bytes of
the MIC, which is computed from the MICs of the two blocks followed by the body. -/
theorem buildUplinkMsg_frame (env : Env) (node : LoRaWANNode) (fcnt : Nat) (data : List Nat)
    (len port : Nat) :
    let body := ((uplinkMsgBody env node fcnt data len port).drop 16).take
      (9 + len + uplinkFoptsLen node)
    let block0 := micBlock0 0 node.devAddr fcnt (9 + len + uplinkFoptsLen node)
    let block1 := (block0.set 3 node.dataRate).set 4 node.chIndex
    let micS := generateMIC env.generateCMAC (some (block1 ++ body))
      (25 + len + uplinkFoptsLen node) node.sNwkSIntKey
    let micF := generateMIC env.generateCMAC (some (block0 ++ body))
      (25 + len + uplinkFoptsLen node) node.fNwkSIntKey
    body.length = 9 + len + uplinkFoptsLen node ∧
    (buildUplinkMsg env node fcnt data len port).drop 16 = body ++ hton 4
      (if node.rev = 1 then
        (((micF &&& 0x0000FF00) <<< 16) % 2 ^ 32) ||| (((micF &&& 0x0000000FF) <<< 16) % 2 ^ 32)
          ||| ((micS &&& 0x0000FF00) >>> 0) ||| ((micS &&& 0x0000000FF) >>> 0)
      else micF) 0 := by
  have hlen := length_uplinkMsgBody env node fcnt data len port
  have e1 : RADIOLIB_LORAWAN_FRAME_LEN len (uplinkFoptsLen node) - 4 =
      25 + len + uplinkFoptsLen node := by
    simp only [RADIOLIB_LORAWAN_FRAME_LEN]; omega
  have e2 : RADIOLIB_LORAWAN_FRAME_LEN len (uplinkFoptsLen node) - RADIOLIB_AES128_BLOCK_SIZE - 4 =
      9 + len + uplinkFoptsLen node := by
    simp only [RADIOLIB_LORAWAN_FRAME_LEN, RADIOLIB_AES128_BLOCK_SIZE]; omega
  have e3 : 29 + len + uplinkFoptsLen node - 4 = 25 + len + uplinkFoptsLen node := by omega
  have e4 : 29 + len + uplinkFoptsLen node - 20 = 9 + len + uplinkFoptsLen node := by omega
  have h0 : (micBlock0 0 node.devAddr fcnt (9 + len + uplinkFoptsLen node)).length = 16 :=
    length_micBlock0 _ _ _ _
  unfold buildUplinkMsg
  simp only [RADIOLIB_LORAWAN_CHANNEL_DIR_UPLINK, RADIOLIB_LORAWAN_MIC_DATA_RATE_POS,
    RADIOLIB_LORAWAN_MIC_CH_INDEX_POS, e1, e2]
  generalize uplinkMsgBody env node fcnt data len port = m at hlen ⊢
  generalize micBlock0 0 node.devAddr fcnt (9 + len + uplinkFoptsLen node) = block0 at h0 ⊢
  have h1 : ((block0.set 3 node.dataRate).set 4 node.chIndex).length = 16 := by
    simp only [List.length_set, h0]
  generalize (block0.set 3 node.dataRate).set 4 node.chIndex = block1 at h1 ⊢
  have tail := fun mic hmic =>
    uplinkMsg_tail m block1 block0 mic (29 + len + uplinkFoptsLen node) hlen (by omega) h1 h0 hmic
  simp only [e3, e4] at tail
  constructor
  · simp only [List.length_take, List.length_drop, hlen]
    omega
  · rw [generateMIC_take _ (writeAt m 0 block1), (tail (hton 4 0 0) (length_hton 4 0)).1,
      generateMIC_take _ (writeAt (writeAt m 0 block1) 0 block0),
      (tail (hton 4 0 0) (length_hton 4 0)).2.1]
    split_ifs
    · exact (tail _ (length_hton 4 _)).2.2
    · exact (tail _ (length_hton 4 _)).2.2

/-- The frame header, port and payload written by `uplink` when no MAC command is queued. -/
theorem uplinkMsg_layout (a c out : List Nat) (v0 v1 p : Nat) (ha : a.length = 4)
    (hc : c.length = 2) :
    ((writeAt ((writeAt ((writeAt ((List.replicate (29 + out.length) 0).set 16 v0) 17 a).set
      21 v1) 22 c).set 24 p) 25 out).drop 16).take (9 + out.length) =
      [v0] ++ a ++ [v1] ++ c ++ [p] ++ out := by
  rcases a with _ | ⟨a0, _ | ⟨a1, _ | ⟨a2, _ | ⟨a3, _ | ⟨a4, t⟩⟩⟩⟩⟩ <;>
    simp only [List.length_cons, List.length_nil] at ha <;> try omega
  rcases c with _ | ⟨c0, _ | ⟨c1, _ | ⟨c2, t⟩⟩⟩ <;>
    simp only [List.length_cons, List.length_nil] at hc <;> try omega
  have e : List.replicate (29 + out.length) 0 =
      List.replicate 25 0 ++ List.replicate (out.length + 4) 0 := by
    rw [← List.replicate_add]; congr 1; omega
  rw [e]
  simp only [writeAt, List.replicate, List.set_cons_succ, List.set_cons_zero, List.cons_append,
    List.take_succ_cons, List.take_zero, List.length_cons, List.length_nil, List.drop_succ_cons,
    List.drop_zero, List.nil_append, List.append_assoc, List.length_append,
    List.length_replicate, Nat.zero_add, Nat.reduceAdd]
  generalize List.drop (25 + out.length) _ = X
  have e9 : 9 + out.length = out.length + 1 + 1 + 1 + 1 + 1 + 1 + 1 + 1 + 1 := by omega
  rw [e9]
  simp only [List.take_succ_cons, List.take_left']

theorem frame_len_sub (len f : Nat) : RADIOLIB_LORAWAN_FRAME_LEN len f - 16 = 13 + len + f := by
  simp only [RADIOLIB_LORAWAN_FRAME_LEN]; omega

/-- C11. Every uplink that reaches transmission (valid port, payload within the limit of the
data rate, Rx windows of the previous uplink over) hands the radio a frame of
`13 + len + foptsLen` bytes whose FRMPayload field, the `len` bytes after the MAC header,
device address, FCtrl, FCnt, FOpts and FPort, is
`processAES(data, len, K, fcnt, uplink, counter id 0, counter incrementing)`, where `fcnt` is
the newly incremented `fCntUp` that the call has persisted and `K` is `nwkSEncKey` for port 0
and `appSKey` for every other port. -/
theorem uplink_payload_encrypted (env : Env) (d : Dev) (hal : Hal) (data : List Nat)
    (len port : Nat) (hport : port ≤ 0xDF)
    (hlen : len ≤ d.node.band.payloadLenMax.getD d.node.dataRate 0)
    (htime : ¬ sub32 (env.millis d.phy.tick % 2 ^ 32) d.node.rxDelayStart < d.node.rxDelay 1) :
    ∃ frame : List Nat,
      (uplink env d hal data len port).2.1.phy.calls = d.phy.calls ++
        [.getTimeOnAir (13 + len + uplinkFoptsLen d.node),
          .transmit frame (13 + len + uplinkFoptsLen d.node)] ∧
      frame.length = 13 + len + uplinkFoptsLen d.node ∧
      (uplink env d hal data len port).2.2.store.fCntUp =
        (hal.store.fCntUp % 2 ^ 32 + 1) % 2 ^ 32 ∧
      (frame.drop (9 + uplinkFoptsLen d.node)).take len =
        processAES env.encryptECB d.node.devAddr data len
          (if port = 0 then d.node.nwkSEncKey else d.node.appSKey)
          ((hal.store.fCntUp % 2 ^ 32 + 1) % 2 ^ 32) RADIOLIB_LORAWAN_CHANNEL_DIR_UPLINK 0
          true := by
  obtain ⟨_, hcalls, hhal⟩ := uplink_transmits env d hal data len port hport hlen htime
  obtain ⟨hbody, hframe⟩ := buildUplinkMsg_frame env d.node
    ((hal.store.fCntUp % 2 ^ 32 + 1) % 2 ^ 32) data len port
  simp only [] at hbody hframe
  rw [frame_len_sub] at hcalls
  refine ⟨_, hcalls, ?_, ?_, ?_⟩
  · rw [hframe, List.length_append, hbody, length_hton]
    omega
  · rw [hhal]
    rfl
  · rw [hframe, List.drop_append_of_le_length (by omega),
      List.take_append_of_le_length (by simp only [List.length_drop, hbody]; omega),
      List.drop_take, List.drop_drop, List.take_take]
    have e : min len (9 + len + uplinkFoptsLen d.node - (9 + uplinkFoptsLen d.node)) = len := by
      omega
    have e2 : 16 + (9 + uplinkFoptsLen d.node) = 25 + uplinkFoptsLen d.node := by omega
    rw [e, e2]
    exact uplinkMsgBody_payload env d.node _ data len port

/-- C11 (instance). On the sample node an uplink of two bytes on port 1 reaches transmission
and the frame carries the payload encrypted under `appSKey`. -/
theorem uplink_payload_encrypted_witness :
    ∃ frame : List Nat,
      (uplink (sampleEnv RADIOLIB_ERR_NONE []) sampleDev (sampleHal 7 41) [0xCA, 0xFE] 2
        1).2.1.phy.calls = [.getTimeOnAir 15, .transmit frame 15] ∧
      (frame.drop 9).take 2 =
        processAES sampleECB 0 [0xCA, 0xFE] 2 (List.replicate 16 0) 42 0 0 true :=
  let ⟨frame, h1, _, _, h4⟩ := uplink_payload_encrypted (sampleEnv RADIOLIB_ERR_NONE [])
    sampleDev (sampleHal 7 41) [0xCA, 0xFE] 2 1 (by decide) (by decide) (by decide)
  ⟨frame, h1, h4⟩

/-- C12. For a port up to `0xDF`: a payload longer than `band->payloadLenMax[dataRate]` is
rejected with `RADIOLIB_ERR_PACKET_TOO_LONG` before the clock or the radio is used; a payload
within the limit, with the second Rx delay elapsed and `transmit` succeeding, gives
`RADIOLIB_ERR_NONE`; and unless `transmit` itself reports that status, the uplink returns
`RADIOLIB_ERR_PACKET_TOO_LONG` exactly when `len` exceeds the limit. -/
theorem uplink_packet_too_long (env : Env) (d : Dev) (hal : Hal) (data : List Nat)
    (len port : Nat) (hport : port ≤ 0xDF) :
    (len > d.node.band.payloadLenMax.getD d.node.dataRate 0 →
      uplink env d hal data len port = (RADIOLIB_ERR_PACKET_TOO_LONG, d, hal)) ∧
    (len ≤ d.node.band.payloadLenMax.getD d.node.dataRate 0 →
      ¬ sub32 (env.millis d.phy.tick % 2 ^ 32) d.node.rxDelayStart < d.node.rxDelay 1 →
      env.status (d.phy.tick + 3) = RADIOLIB_ERR_NONE →
      (uplink env d hal data len port).1 = RADIOLIB_ERR_NONE) ∧
    (env.status (d.phy.tick + 3) ≠ RADIOLIB_ERR_PACKET_TOO_LONG →
      ((uplink env d hal data len port).1 = RADIOLIB_ERR_PACKET_TOO_LONG ↔
        len > d.node.band.payloadLenMax.getD d.node.dataRate 0)) := by
  have hp : ¬ port > 0xDF := by omega
  refine ⟨?_, ?_, ?_⟩
  · intro h
    unfold uplink
    simp only [hp, h, if_true, if_false]
  · intro hlen htime hst
    rw [(uplink_transmits env d hal data len port hport hlen htime).1, hst]
  · intro hst
    constructor
    · intro h
      by_contra hlen
      by_cases htime : sub32 (env.millis d.phy.tick % 2 ^ 32) d.node.rxDelayStart <
          d.node.rxDelay 1
      · unfold uplink at h
        simp only [Dev.millis, Phy.step, hp, hlen, htime, if_true, if_false] at h
        exact absurd h (by decide)
      · rw [(uplink_transmits env d hal data len port hport (by omega) htime).1] at h
        exact hst h
    · intro h
      unfold uplink
      simp only [hp, h, if_true, if_false]

/-- C12 (instance). On the sample node, whose data rate allows 59 bytes, a payload of 59
bytes is sent and one of 60 bytes is rejected. -/
theorem uplink_packet_too_long_witness :
    (uplink (sampleEnv RADIOLIB_ERR_NONE []) sampleDev (sampleHal 7 41) (List.replicate 59 0xAB)
      59 1).1 = RADIOLIB_ERR_NONE ∧
    uplink (sampleEnv RADIOLIB_ERR_NONE []) sampleDev (sampleHal 7 41) (List.replicate 60 0xAB)
      60 1 = (RADIOLIB_ERR_PACKET_TOO_LONG, sampleDev, sampleHal 7 41) :=
  ⟨(uplink_packet_too_long (sampleEnv RADIOLIB_ERR_NONE []) sampleDev (sampleHal 7 41)
      (List.replicate 59 0xAB) 59 1 (by decide)).2.1 (by decide) (by decide) (by decide),
    (uplink_packet_too_long (sampleEnv RADIOLIB_ERR_NONE []) sampleDev (sampleHal 7 41)
      (List.replicate 60 0xAB) 60 1 (by decide)).1 (by decide)⟩

/-- C13 (as stated, refuted). With the clock at 100000 and `rxDelayStart` at 100500, the
clock is still before `rxDelayStart`, so fewer than `rxDelays[1] = 2000` milliseconds have
elapsed since then; the unsigned difference is `4294966796`, and `uplink` transmits the
frame and returns `RADIOLIB_ERR_NONE`. -/
theorem uplink_before_rxDelayStart_transmits :
    (sampleEnv RADIOLIB_ERR_NONE []).millis (sampleDevAt 100500).phy.tick = 100000 ∧
    (sampleDevAt 100500).node.rxDelayStart = 100500 ∧
    (sampleDevAt 100500).node.rxDelay 1 = 2000 ∧
    sub32 100000 100500 = 4294966796 ∧
    (uplink (sampleEnv RADIOLIB_ERR_NONE []) (sampleDevAt 100500) (sampleHal 7 41) [0xCA, 0xFE]
      2 1).1 = RADIOLIB_ERR_NONE ∧
    (uplink (sampleEnv RADIOLIB_ERR_NONE []) (sampleDevAt 100500) (sampleHal 7 41) [0xCA, 0xFE]
      2 1).2.1.phy.calls =
      [.getTimeOnAir 15,
        .transmit [64, 0, 0, 0, 0, 0, 42, 0, 1, 203, 254, 178, 179, 180, 181] 15] := by
  decide!

/-- C13 (amended). For a valid port and length, if the unsigned 32-bit difference between
the clock and `rxDelayStart` is below `rxDelays[1]`, `uplink` returns
`RADIOLIB_ERR_UPLINK_UNAVAILABLE`, makes no radio call and leaves the persistent store as it
was. This is the case whenever the clock is at or after `rxDelayStart` and fewer than
`rxDelays[1]` milliseconds have elapsed. -/
theorem uplink_unavailable (env : Env) (d : Dev) (hal : Hal) (data : List Nat)
    (len port : Nat) (hport : port ≤ 0xDF)
    (hlen : len ≤ d.node.band.payloadLenMax.getD d.node.dataRate 0) :
    (sub32 (env.millis d.phy.tick % 2 ^ 32) d.node.rxDelayStart < d.node.rxDelay 1 →
      (uplink env d hal data len port).1 = RADIOLIB_ERR_UPLINK_UNAVAILABLE ∧
      (uplink env d hal data len port).2.1.phy.calls = d.phy.calls ∧
      (uplink env d hal data len port).2.2 = hal) ∧
    (d.node.rxDelayStart ≤ env.millis d.phy.tick % 2 ^ 32 →
      env.millis d.phy.tick % 2 ^ 32 - d.node.rxDelayStart < d.node.rxDelay 1 →
      (uplink env d hal data len port).1 = RADIOLIB_ERR_UPLINK_UNAVAILABLE ∧
      (uplink env d hal data len port).2.1.phy.calls = d.phy.calls ∧
      (uplink env d hal data len port).2.2 = hal) := by
  have hp : ¬ port > 0xDF := by omega
  have hl : ¬ len > d.node.band.payloadLenMax.getD d.node.dataRate 0 := by omega
  have key : sub32 (env.millis d.phy.tick % 2 ^ 32) d.node.rxDelayStart < d.node.rxDelay 1 →
      (uplink env d hal data len port).1 = RADIOLIB_ERR_UPLINK_UNAVAILABLE ∧
      (uplink env d hal data len port).2.1.phy.calls = d.phy.calls ∧
      (uplink env d hal data len port).2.2 = hal := by
    intro h
    unfold uplink
    simp only [Dev.millis, Phy.step, hp, hl, h, if_true, if_false, and_self]
  refine ⟨key, fun h1 h2 => key ?_⟩
  unfold sub32
  have hlt : env.millis d.phy.tick % 2 ^ 32 < 2 ^ 32 := Nat.mod_lt _ (by norm_num)
  omega

/-- C13 (amended, instance). On the sample node with `rxDelayStart` at 99000, 1000
milliseconds have elapsed at clock value 100000 and the uplink is refused. -/
theorem uplink_unavailable_witness :
    (uplink (sampleEnv RADIOLIB_ERR_NONE []) (sampleDevAt 99000) (sampleHal 7 41) [0xCA, 0xFE]
      2 1).1 = RADIOLIB_ERR_UPLINK_UNAVAILABLE ∧
    (uplink (sampleEnv RADIOLIB_ERR_NONE []) (sampleDevAt 99000) (sampleHal 7 41) [0xCA, 0xFE]
      2 1).2.1.phy.calls = [] ∧
    (uplink (sampleEnv RADIOLIB_ERR_NONE []) (sampleDevAt 99000) (sampleHal 7 41) [0xCA, 0xFE]
      2 1).2.2 = sampleHal 7 41 :=
  (uplink_unavailable (sampleEnv RADIOLIB_ERR_NONE []) (sampleDevAt 99000) (sampleHal 7 41)
    [0xCA, 0xFE] 2 1 (by decide) (by decide)).2 (by decide) (by decide)

/-- The first MIC block, byte by byte. -/
theorem micBlock0_eq (dir devAddr fcnt n : Nat) :
    micBlock0 dir devAddr fcnt n =
      [0x49, 0, 0, 0, 0, dir] ++ hton 4 devAddr 0 ++ hton 4 fcnt 0 ++ [0, n % 256] := by
  unfold micBlock0
  have ha := length_hton 4 devAddr
  have hc := length_hton 4 fcnt
  generalize hton 4 devAddr 0 = a at ha ⊢
  generalize hton 4 fcnt 0 = c at hc ⊢
  rcases a with _ | ⟨a0, _ | ⟨a1, _ | ⟨a2, _ | ⟨a3, _ | ⟨a4, t⟩⟩⟩⟩⟩ <;>
    simp only [List.length_cons, List.length_nil] at ha <;> try omega
  rcases c with _ | ⟨c0, _ | ⟨c1, _ | ⟨c2, _ | ⟨c3, _ | ⟨c4, t⟩⟩⟩⟩⟩ <;>
    simp only [List.length_cons, List.length_nil] at hc <;> try omega
  rfl

/-- The frame body written by `uplink` when no MAC command is queued. -/
theorem uplinkMsgBody_none (env : Env) (node : LoRaWANNode) (fcnt : Nat) (data : List Nat)
    (len port : Nat) (hcmd : node.command = none) :
    ((uplinkMsgBody env node fcnt data len port).drop 16).take (9 + len) =
      [0x40] ++ hton 4 node.devAddr 0 ++ [0x00] ++ hton 2 (fcnt % 2 ^ 16) 0 ++ [port] ++
        processAES env.encryptECB node.devAddr data len
          (if port = 0 then node.nwkSEncKey else node.appSKey) fcnt 0 0 true := by
  unfold uplinkMsgBody uplinkFoptsLen
  rw [hcmd]
  simp only [RADIOLIB_LORAWAN_FPORT_MAC_COMMAND, RADIOLIB_LORAWAN_CHANNEL_DIR_UPLINK]
  have hout := processAES_length env.encryptECB node.devAddr data len
    (if port = 0 then node.nwkSEncKey else node.appSKey) fcnt 0 0 true
  generalize processAES env.encryptECB node.devAddr data len
    (if port = 0 then node.nwkSEncKey else node.appSKey) fcnt 0 0 true = out at hout ⊢
  subst hout
  exact uplinkMsg_layout _ _ out _ _ _ (length_hton 4 _) (length_hton 2 _)

/-- A message followed by the four bytes of its own MIC passes `verifyMIC`. -/
theorem verifyMIC_append (cmac : List Nat → List Nat → List Nat) (key msg : List Nat) :
    verifyMIC cmac (some (msg ++ hton 4 (generateMIC cmac (some msg) msg.length key) 0))
      (msg.length + 4) key = true := by
  have hdrop : (msg ++ hton 4 (generateMIC cmac (some msg) msg.length key) 0).drop
      (msg.length + 4 - 4) = hton 4 (generateMIC cmac (some msg) msg.length key) 0 := by
    simp
  have hgen : generateMIC cmac
      (some (msg ++ hton 4 (generateMIC cmac (some msg) msg.length key) 0))
      (msg.length + 4 - 4) key = generateMIC cmac (some msg) msg.length key := by
    simp [generateMIC]
  unfold verifyMIC
  simp only [hdrop, hgen, ntoh_hton_u32]
  have hlt := generateMIC_lt cmac (some msg) msg.length key
  rw [Nat.mod_eq_of_lt hlt]
  simp

theorem uplinkFoptsLen_none (node : LoRaWANNode) (hcmd : node.command = none) :
    uplinkFoptsLen node = 0 := by
  unfold uplinkFoptsLen
  rw [hcmd]

/-- C17. Every successful uplink of `len` bytes of a revision 1.0 node with no MAC command
queued hands the radio exactly `13 + len` bytes: `0x40`, the device address (4 bytes, least
significant first), FCtrl `0x00`, the low 16 bits of the new `fCntUp` (least significant
first), the port, the payload encrypted by `processAES`, and four MIC bytes for which
`verifyMIC` accepts the block `B0` followed by the frame under `fNwkSIntKey`, where `B0` is
`0x49`, four zero bytes, the direction `0x00`, the device address, the new `fCntUp` (4 bytes
each), `0x00` and the length `9 + len` of the frame without its MIC (as a byte). -/
theorem uplink_frame_rev10 (env : Env) (d : Dev) (hal : Hal) (data : List Nat)
    (len port : Nat) (hcmd : d.node.command = none) (hrev : d.node.rev = 0)
    (hok : (uplink env d hal data len port).1 = RADIOLIB_ERR_NONE) :
    ∃ mic : List Nat, mic.length = 4 ∧
      (uplink env d hal data len port).2.1.phy.calls = d.phy.calls ++
        [.getTimeOnAir (13 + len),
          .transmit ([0x40] ++ hton 4 d.node.devAddr 0 ++ [0x00] ++
            hton 2 ((hal.store.fCntUp % 2 ^ 32 + 1) % 2 ^ 32 % 2 ^ 16) 0 ++ [port] ++
            processAES env.encryptECB d.node.devAddr data len
              (if port = 0 then d.node.nwkSEncKey else d.node.appSKey)
              ((hal.store.fCntUp % 2 ^ 32 + 1) % 2 ^ 32) 0 0 true ++ mic) (13 + len)] ∧
      ([0x40] ++ hton 4 d.node.devAddr 0 ++ [0x00] ++
        hton 2 ((hal.store.fCntUp % 2 ^ 32 + 1) % 2 ^ 32 % 2 ^ 16) 0 ++ [port] ++
        processAES env.encryptECB d.node.devAddr data len
          (if port = 0 then d.node.nwkSEncKey else d.node.appSKey)
          ((hal.store.fCntUp % 2 ^ 32 + 1) % 2 ^ 32) 0 0 true ++ mic).length = 13 + len ∧
      (uplink env d hal data len port).2.2.store.fCntUp =
        (hal.store.fCntUp % 2 ^ 32 + 1) % 2 ^ 32 ∧
      verifyMIC env.generateCMAC
        (some (([0x49, 0, 0, 0, 0, 0x00] ++ hton 4 d.node.devAddr 0 ++
            hton 4 ((hal.store.fCntUp % 2 ^ 32 + 1) % 2 ^ 32) 0 ++ [0x00, (9 + len) % 256]) ++
          ([0x40] ++ hton 4 d.node.devAddr 0 ++ [0x00] ++
            hton 2 ((hal.store.fCntUp % 2 ^ 32 + 1) % 2 ^ 32 % 2 ^ 16) 0 ++ [port] ++
            processAES env.encryptECB d.node.devAddr data len
              (if port = 0 then d.node.nwkSEncKey else d.node.appSKey)
              ((hal.store.fCntUp % 2 ^ 32 + 1) % 2 ^ 32) 0 0 true ++ mic)))
        (16 + 13 + len) d.node.fNwkSIntKey = true := by
  obtain ⟨hport, hlen, htime⟩ := uplink_ok_checks env d hal data len port hok
  obtain ⟨_, hcalls, hhal⟩ := uplink_transmits env d hal data len port hport hlen htime
  obtain ⟨hbody, hframe⟩ := buildUplinkMsg_frame env d.node
    ((hal.store.fCntUp % 2 ^ 32 + 1) % 2 ^ 32) data len port
  have hf := uplinkFoptsLen_none d.node hcmd
  have hr : ¬ d.node.rev = 1 := by omega
  simp only [hf, Nat.add_zero, hr, if_false, micBlock0_eq,
    uplinkMsgBody_none env d.node _ data len port hcmd] at hbody hframe
  rw [frame_len_sub, hf, Nat.add_zero, hframe] at hcalls
  refine ⟨_, length_hton 4 _, hcalls, ?_, ?_, ?_⟩
  · rw [List.length_append, hbody, length_hton]
    omega
  · rw [hhal]
    rfl
  · have hv := verifyMIC_append env.generateCMAC d.node.fNwkSIntKey
      (([0x49, 0, 0, 0, 0, 0x00] ++ hton 4 d.node.devAddr 0 ++
            hton 4 ((hal.store.fCntUp % 2 ^ 32 + 1) % 2 ^ 32) 0 ++ [0x00, (9 + len) % 256]) ++
          ([0x40] ++ hton 4 d.node.devAddr 0 ++ [0x00] ++
            hton 2 ((hal.store.fCntUp % 2 ^ 32 + 1) % 2 ^ 32 % 2 ^ 16) 0 ++ [port] ++
            processAES env.encryptECB d.node.devAddr data len
              (if port = 0 then d.node.nwkSEncKey else d.node.appSKey)
              ((hal.store.fCntUp % 2 ^ 32 + 1) % 2 ^ 32) 0 0 true))
    have hl : (([0x49, 0, 0, 0, 0, 0x00] ++ hton 4 d.node.devAddr 0 ++
            hton 4 ((hal.store.fCntUp % 2 ^ 32 + 1) % 2 ^ 32) 0 ++ [0x00, (9 + len) % 256]) ++
          ([0x40] ++ hton 4 d.node.devAddr 0 ++ [0x00] ++
            hton 2 ((hal.store.fCntUp % 2 ^ 32 + 1) % 2 ^ 32 % 2 ^ 16) 0 ++ [port] ++
            processAES env.encryptECB d.node.devAddr data len
              (if port = 0 then d.node.nwkSEncKey else d.node.appSKey)
              ((hal.store.fCntUp % 2 ^ 32 + 1) % 2 ^ 32) 0 0 true)).length = 25 + len := by
      simp only [List.length_append, length_hton, processAES_length, List.length_cons,
        List.length_nil]
      omega
    rw [hl] at hv
    have e : 16 + 13 + len = 25 + len + 4 := by omega
    rw [e, ← List.append_assoc (_ ++ _ ++ _ ++ _)]
    exact hv

/-- C17 (instance). The successful uplink of the two bytes `CA FE` on port 1 of the sample
node, whose stored `fCntUp` is 41, hands the radio 15 bytes: header, counter 42, port 1, the
encrypted payload and four MIC bytes. -/
theorem uplink_frame_rev10_witness :
    ∃ mic : List Nat, mic.length = 4 ∧
      (uplink (sampleEnv RADIOLIB_ERR_NONE []) sampleDev (sampleHal 7 41) [0xCA, 0xFE] 2
        1).2.1.phy.calls =
        [.getTimeOnAir 15, .transmit ([64, 0, 0, 0, 0, 0, 42, 0, 1, 203, 254] ++ mic) 15] :=
  let ⟨mic, h1, h2, _⟩ := uplink_frame_rev10 (sampleEnv RADIOLIB_ERR_NONE []) sampleDev
    (sampleHal 7 41) [0xCA, 0xFE] 2 1 rfl rfl (by decide!)
  ⟨mic, h1, h2⟩

theorem and_ff (x : Nat) : x &&& 0xFF = x % 256 :=
  Nat.and_pow_two_sub_one_eq_mod x 8

theorem and_ff00 (x : Nat) : x &&& 0xFF00 = (x / 256 % 256) * 256 := by
  have e : (0xFF00 : Nat) = (2 ^ 8 - 1) <<< 8 := by decide
  have e2 : (x / 256 % 256) * 256 = ((x >>> 8) % 2 ^ 8) <<< 8 := by
    rw [Nat.shiftLeft_eq, Nat.shiftRight_eq_div_pow]
    norm_num
  rw [e, e2]
  apply Nat.eq_of_testBit_eq
  intro i
  simp only [Nat.testBit_and, Nat.testBit_shiftLeft, Nat.testBit_two_pow_sub_one,
    Nat.testBit_mod_two_pow, Nat.testBit_shiftRight]
  by_cases h : 8 ≤ i
  · have : 8 + (i - 8) = i := by omega
    simp [h, this, Bool.and_comm]
  · simp [h]

theorem or_bytes4_plain (b0 b1 b2 b3 : Nat) (h0 : b0 < 256) (h1 : b1 < 256) (h2 : b2 < 256)
    (h3 : b3 < 256) :
    b0 ||| (b1 <<< 8) % 2 ^ 32 ||| (b2 <<< 16) % 2 ^ 32 ||| (b3 <<< 24) % 2 ^ 32
      = b0 + b1 * 256 + b2 * 65536 + b3 * 16777216 := by
  have e1 : (b1 <<< 8) % 2 ^ 32 = b1 <<< 8 := by
    rw [Nat.shiftLeft_eq]; omega
  have e2 : (b2 <<< 16) % 2 ^ 32 = b2 <<< 16 := by
    rw [Nat.shiftLeft_eq]; omega
  have e3 : (b3 <<< 24) % 2 ^ 32 = b3 <<< 24 := by
    rw [Nat.shiftLeft_eq]; omega
  have os : ∀ r b k : Nat, r < 2 ^ k → r ||| (b <<< k) = r + b * 2 ^ k := by
    intro r b k hr
    rw [Nat.shiftLeft_eq, Nat.lor_comm, Nat.mul_comm b, ← Nat.mul_add_lt_is_or hr b]
    omega
  rw [e1, e2, e3, os b0 b1 8 (by omega), os _ b2 16 (by omega), os _ b3 24 (by omega)]
  omega

/-- The MIC of a revision 1.1 uplink, combined from the two MICs as `uplink` does, has the
first two bytes of the second one followed by the first two bytes of the first one. -/
theorem mic_combine (s0 s1 s2 s3 f0 f1 f2 f3 : Nat) (hs0 : s0 < 256) (hs1 : s1 < 256)
    (hf0 : f0 < 256) (hf1 : f1 < 256) (hf2 : f2 < 256)
    (hf3 : f3 < 256) (micS micF : Nat)
    (hS : micS = s0 + s1 * 256 + s2 * 65536 + s3 * 16777216)
    (hF : micF = f0 + f1 * 256 + f2 * 65536 + f3 * 16777216) :
    (((micF &&& 0x0000FF00) <<< 16) % 2 ^ 32) ||| (((micF &&& 0x0000000FF) <<< 16) % 2 ^ 32)
        ||| ((micS &&& 0x0000FF00) >>> 0) ||| ((micS &&& 0x0000000FF) >>> 0) =
      s0 + s1 * 256 + f0 * 65536 + f1 * 16777216 := by
  have os : ∀ r b k : Nat, r < 2 ^ k → (b <<< k) ||| r = r + b * 2 ^ k := by
    intro r b k hr
    rw [Nat.shiftLeft_eq, Nat.mul_comm b, ← Nat.mul_add_lt_is_or hr b]
    omega
  have a1 : micF &&& 0x0000FF00 = f1 * 256 := by rw [and_ff00]; omega
  have a2 : micF &&& 0x0000000FF = f0 := by rw [and_ff]; omega
  have a3 : micS &&& 0x0000FF00 = s1 * 256 := by rw [and_ff00]; omega
  have a4 : micS &&& 0x0000000FF = s0 := by rw [and_ff]; omega
  rw [a1, a2, a3, a4]
  simp only [Nat.shiftRight_zero]
  have b1 : ((f1 * 256) <<< 16) % 2 ^ 32 = f1 <<< 24 := by
    rw [Nat.shiftLeft_eq, Nat.shiftLeft_eq]; omega
  have b2 : (f0 <<< 16) % 2 ^ 32 = f0 * 65536 := by
    rw [Nat.shiftLeft_eq]; omega
  rw [b1, b2, os (f0 * 65536) f1 24 (by omega)]
  have c1 : f0 * 65536 + f1 * 2 ^ 24 = (f0 + f1 * 256) <<< 16 := by
    rw [Nat.shiftLeft_eq]; omega
  rw [c1, os (s1 * 256) _ 16 (by omega)]
  have c2 : s1 * 256 + (f0 + f1 * 256) * 2 ^ 16 = (s1 + (f0 + f1 * 256) * 256) <<< 8 := by
    rw [Nat.shiftLeft_eq]; omega
  rw [c2, os s0 _ 8 (by omega)]
  omega

/-- The MIC as the little-endian value of the first four bytes of the CMAC. -/
theorem generateMIC_bytes (cmac : List Nat → List Nat → List Nat) (m : List Nat) (len : Nat)
    (key : List Nat) (hlen : len ≠ 0) :
    generateMIC cmac (some m) len key =
      (cmac key (m.take len)).getD 0 0 % 256 + (cmac key (m.take len)).getD 1 0 % 256 * 256 +
        (cmac key (m.take len)).getD 2 0 % 256 * 65536 +
        (cmac key (m.take len)).getD 3 0 % 256 * 16777216 := by
  unfold generateMIC
  simp only [hlen, if_false]
  exact or_bytes4_plain _ _ _ _ (Nat.mod_lt _ (by norm_num)) (Nat.mod_lt _ (by norm_num))
    (Nat.mod_lt _ (by norm_num)) (Nat.mod_lt _ (by norm_num))

/-- The four bytes that `hton<uint32_t>` writes for a little-endian value. -/
theorem hton_u32_bytes (b0 b1 b2 b3 : Nat) (h0 : b0 < 256) (h1 : b1 < 256) (h2 : b2 < 256)
    (h3 : b3 < 256) :
    hton 4 (b0 + b1 * 256 + b2 * 65536 + b3 * 16777216) 0 = [b0, b1, b2, b3] := by
  have h4 : List.range 4 = [0, 1, 2, 3] := by decide
  simp only [hton, h4, List.map, ne_eq, not_true_eq_false, if_false, Nat.shiftRight_eq_div_pow]
  refine congrArg₂ _ ?_ (congrArg₂ _ ?_ (congrArg₂ _ ?_ (congrArg₂ _ ?_ rfl))) <;> omega

/-- C18. Every uplink of a revision 1.1 node that reaches transmission hands the radio the
frame body followed by the four MIC bytes `cmacS[0], cmacS[1], cmacF[0], cmacF[1]`, where
`cmacS` is the CMAC under `sNwkSIntKey` of the second MIC block (the first one with the data
rate and the channel index filled in) followed by the frame body, and `cmacF` is the CMAC
under `fNwkSIntKey` of the first MIC block followed by the frame body. -/
theorem uplink_mic_rev11 (env : Env) (d : Dev) (hal : Hal) (data : List Nat)
    (len port : Nat) (hport : port ≤ 0xDF)
    (hlen : len ≤ d.node.band.payloadLenMax.getD d.node.dataRate 0)
    (htime : ¬ sub32 (env.millis d.phy.tick % 2 ^ 32) d.node.rxDelayStart < d.node.rxDelay 1)
    (hrev : d.node.rev = 1) :
    ∃ body : List Nat, body.length = 9 + len + uplinkFoptsLen d.node ∧
      let block0 := micBlock0 RADIOLIB_LORAWAN_CHANNEL_DIR_UPLINK d.node.devAddr
        ((hal.store.fCntUp % 2 ^ 32 + 1) % 2 ^ 32) (9 + len + uplinkFoptsLen d.node)
      let block1 := (block0.set RADIOLIB_LORAWAN_MIC_DATA_RATE_POS d.node.dataRate).set
        RADIOLIB_LORAWAN_MIC_CH_INDEX_POS d.node.chIndex
      let cmacS := env.generateCMAC d.node.sNwkSIntKey (block1 ++ body)
      let cmacF := env.generateCMAC d.node.fNwkSIntKey (block0 ++ body)
      (uplink env d hal data len port).2.1.phy.calls = d.phy.calls ++
        [.getTimeOnAir (13 + len + uplinkFoptsLen d.node),
          .transmit (body ++ [cmacS.getD 0 0 % 256, cmacS.getD 1 0 % 256, cmacF.getD 0 0 % 256,
            cmacF.getD 1 0 % 256]) (13 + len + uplinkFoptsLen d.node)] := by
  obtain ⟨_, hcalls, _⟩ := uplink_transmits env d hal data len port hport hlen htime
  obtain ⟨hbody, hframe⟩ := buildUplinkMsg_frame env d.node
    ((hal.store.fCntUp % 2 ^ 32 + 1) % 2 ^ 32) data len port
  simp only [hrev, if_true] at hbody hframe
  rw [frame_len_sub, hframe] at hcalls
  refine ⟨_, hbody, ?_⟩
  simp only []
  rw [hcalls]
  have h0 : (micBlock0 0 d.node.devAddr ((hal.store.fCntUp % 2 ^ 32 + 1) % 2 ^ 32)
      (9 + len + uplinkFoptsLen d.node)).length = 16 := length_micBlock0 _ _ _ _
  have hne : 25 + len + uplinkFoptsLen d.node ≠ 0 := by omega
  have t : ∀ b : List Nat, b.length = 16 →
      (b ++ ((uplinkMsgBody env d.node ((hal.store.fCntUp % 2 ^ 32 + 1) % 2 ^ 32) data len
        port).drop 16).take (9 + len + uplinkFoptsLen d.node)).take
        (25 + len + uplinkFoptsLen d.node) =
      b ++ ((uplinkMsgBody env d.node ((hal.store.fCntUp % 2 ^ 32 + 1) % 2 ^ 32) data len
        port).drop 16).take (9 + len + uplinkFoptsLen d.node) := by
    intro b hb
    apply List.take_of_length_le
    rw [List.length_append, hbody, hb]
    omega
  rw [generateMIC_bytes _ _ _ _ hne, generateMIC_bytes _ _ _ _ hne, t _ h0,
    t _ (by simp only [List.length_set, h0])]
  rw [mic_combine _ _ _ _ _ _ _ _ (Nat.mod_lt _ (by norm_num)) (Nat.mod_lt _ (by norm_num))
    (Nat.mod_lt _ (by norm_num)) (Nat.mod_lt _ (by norm_num)) (Nat.mod_lt _ (by norm_num))
    (Nat.mod_lt _ (by norm_num)) _ _ rfl rfl,
    hton_u32_bytes _ _ _ _ (Nat.mod_lt _ (by norm_num)) (Nat.mod_lt _ (by norm_num))
    (Nat.mod_lt _ (by norm_num)) (Nat.mod_lt _ (by norm_num))]
  rfl

/-- C18 (instance). An uplink of the sample node of revision 1.1, on channel 2 at data
rate 3: the frame ends with two bytes of the CMAC under `sNwkSIntKey` of the second block
followed by the body, then two bytes of the CMAC under `fNwkSIntKey` of the first block
followed by the body. -/
theorem uplink_mic_rev11_witness :
    ∃ body : List Nat, body.length = 11 ∧
      (uplink (sampleEnv RADIOLIB_ERR_NONE []) sampleDevRev11 (sampleHal 7 41) [0xCA, 0xFE] 2
        1).2.1.phy.calls =
        [.getTimeOnAir 15, .transmit (body ++
          [(sampleCMAC sampleAppKey
              ([0x49, 0, 0, 3, 2, 0, 0xDA, 0x1B, 0x01, 0x26, 42, 0, 0, 0, 0, 11] ++ body)).getD 0 0
              % 256,
            (sampleCMAC sampleAppKey
              ([0x49, 0, 0, 3, 2, 0, 0xDA, 0x1B, 0x01, 0x26, 42, 0, 0, 0, 0, 11] ++ body)).getD 1 0
              % 256,
            (sampleCMAC sampleNwkKey
              ([0x49, 0, 0, 0, 0, 0, 0xDA, 0x1B, 0x01, 0x26, 42, 0, 0, 0, 0, 11] ++ body)).getD 0 0
              % 256,
            (sampleCMAC sampleNwkKey
              ([0x49, 0, 0, 0, 0, 0, 0xDA, 0x1B, 0x01, 0x26, 42, 0, 0, 0, 0, 11] ++ body)).getD 1 0
              % 256])
          15] :=
  uplink_mic_rev11 (sampleEnv RADIOLIB_ERR_NONE []) sampleDevRev11 (sampleHal 7 41)
    [0xCA, 0xFE] 2 1 (by decide) (by decide) (by decide) rfl

/-! ## Join procedure -/

theorem radio_node (env : Env) (d : Dev) (c : RadioCall) : (d.radio env c).2.node = d.node := rfl

theorem radio_calls (env : Env) (d : Dev) (c : RadioCall) :
    (d.radio env c).2.phy.calls = d.phy.calls ++ [c] := rfl

theorem millis_node (env : Env) (d : Dev) : (d.millis env).2.node = d.node := rfl

theorem millis_calls (env : Env) (d : Dev) : (d.millis env).2.phy.calls = d.phy.calls := rfl

theorem invertIQ_node (env : Env) (d : Dev) (b : Bool) : (d.invertIQ env b).2.node = d.node := by
  unfold Dev.invertIQ
  split <;> rfl

theorem readData_node (env : Env) (d : Dev) (n : Nat) : (d.readData env n).2.2.node = d.node :=
  rfl

/-- The wait for the reception flag leaves the node and the log of radio calls as they are. -/
theorem waitDownlink_node (env : Env) (start timeout : Nat) :
    ∀ (n : Nat) (d : Dev) (b : Bool) (d' : Dev),
      waitDownlink env start timeout n d = some (b, d') →
        d'.node = d.node ∧ d'.phy.calls = d.phy.calls := by
  intro n
  induction n with
  | zero => intro d b d' h; simp [waitDownlink] at h
  | succ n ih =>
    intro d b d' h
    unfold waitDownlink at h
    simp only [Dev.millis, Phy.step] at h
    split_ifs at h with h1 h2
    · cases h; exact ⟨rfl, rfl⟩
    · cases h; exact ⟨rfl, rfl⟩
    · have := ih _ _ _ h
      exact this

/-- A join attempt that reaches the reception of the reply has sent the stored DevNonce,
has written the incremented DevNonce and nothing else, and has the node state left by the
physical layer configuration. -/
theorem joinRequest_received (env : Env) (fuel : Nat) (d : Dev) (hal : Hal) (joinEUI devEUI : Nat)
    (nwkKey : List Nat) (force : Bool) (d' : Dev) (hal' : Hal) (dn : Nat)
    (h : joinRequest env fuel d hal joinEUI devEUI nwkKey force = some (.received d' hal' dn)) :
    dn = hal.store.devNonce % 2 ^ 16 ∧ hal' = hal.write (.devNonce ((dn + 1) % 2 ^ 16)) ∧
      d'.node = (setPhyProperties env d).2.node := by
  unfold joinRequest at h
  repeat' first | split at h | (fail_if_no_progress simp only at h)
  all_goals first
    | (cases h; done)
    | (rename_i hsp _ _ _ _ _ _ hwait _
       cases h
       refine ⟨rfl, rfl, ?_⟩
       rw [invertIQ_node, radio_node, (waitDownlink_node _ _ _ _ _ _ _ hwait).1, radio_node,
         millis_node, invertIQ_node, radio_node, radio_node, hsp])

theorem findDataRate_session (node : LoRaWANNode) (dr : Nat) (span : LoRaWANChannelSpan_t) :
    (findDataRate node dr span).2.session = node.session := by
  unfold findDataRate
  simp only []
  split <;> rfl

theorem configureChannel_session (env : Env) (d : Dev) (chan dr : Nat) :
    (configureChannel env d chan dr).2.node.session = d.node.session := by
  unfold configureChannel
  simp only [Dev.radio, Phy.call]
  split_ifs
  · rfl
  · rfl
  · exact findDataRate_session _ _ _

/-- The physical layer configuration leaves the session of the node as it is. -/
theorem setPhyProperties_session (env : Env) (d : Dev) :
    (setPhyProperties env d).2.node.session = d.node.session := by
  have hc := configureChannel_session env d 0
    (d.node.band.defaultChannels.getD 0 default).joinRequestDataRate
  unfold setPhyProperties
  by_cases hF : d.node.FSK = true
  · simp only [hF, if_true, Dev.radio, Phy.call]
    split_ifs <;> rfl
  · simp only [hF, Bool.false_eq_true, if_false]
    generalize configureChannel env d 0
      (d.node.band.defaultChannels.getD 0 default).joinRequestDataRate = r at hc ⊢
    obtain ⟨s, d1⟩ := r
    rw [← hc]
    simp only [Dev.radio, Phy.call]
    split_ifs <;> rfl

/-- The function `beginOTAA` is its first part `joinRequest` followed, when a reply has been
received, by `joinReply`. -/
theorem beginOTAA_stages (env : Env) (fuel : Nat) (d : Dev) (hal : Hal) (joinEUI devEUI : Nat)
    (nwkKey appKey : List Nat) (force : Bool) :
    beginOTAA env fuel d hal joinEUI devEUI nwkKey appKey force =
      match joinRequest env fuel d hal joinEUI devEUI nwkKey force with
      | none => none
      | some (.exit state d hal) => some (state, d, hal)
      | some (.received d hal devNonce) =>
        joinReply env fuel d hal joinEUI devEUI nwkKey appKey devNonce := by
  unfold beginOTAA joinRequest
  split_ifs with h0
  · generalize begin env d hal = p
    obtain ⟨s, d1⟩ := p
    rfl
  · generalize setPhyProperties env d = p
    obtain ⟨s1, d1⟩ := p
    dsimp only
    by_cases h1 : s1 ≠ RADIOLIB_ERR_NONE
    · rw [if_pos h1, if_pos h1]
    · rw [if_neg h1, if_neg h1]
      generalize Dev.radio env d1 (.transmit
        (joinRequestMsg env joinEUI devEUI nwkKey (hal.store.devNonce % 2 ^ 16))
        RADIOLIB_LORAWAN_JOIN_REQUEST_LEN) = p
      obtain ⟨s2, d2⟩ := p
      dsimp only
      by_cases h2 : s2 ≠ RADIOLIB_ERR_NONE
      · rw [if_pos h2, if_pos h2]
      · rw [if_neg h2, if_neg h2]
        generalize Dev.radio env d2 .setPacketReceivedAction = p
        obtain ⟨s3, d3⟩ := p
        dsimp only
        generalize Dev.invertIQ env d3 true = p
        obtain ⟨s4, d4⟩ := p
        dsimp only
        by_cases h4 : s4 ≠ RADIOLIB_ERR_NONE
        · rw [if_pos h4, if_pos h4]
        · rw [if_neg h4, if_neg h4]
          generalize Dev.millis env d4 = p
          obtain ⟨start, d5⟩ := p
          dsimp only
          generalize Dev.radio env d5 .startReceive = p
          obtain ⟨s6, d6⟩ := p
          dsimp only
          by_cases h6 : s6 ≠ RADIOLIB_ERR_NONE
          · rw [if_pos h6, if_pos h6]
          · rw [if_neg h6, if_neg h6]
            generalize waitDownlink env start (RADIOLIB_LORAWAN_JOIN_ACCEPT_DELAY_2_MS + 2000)
              fuel d6 = w
            rcases w with _ | ⟨_ | _, d7⟩
            · rfl
            · dsimp only
            · dsimp only
              generalize Dev.radio env d7 .clearPacketReceivedAction = p
              obtain ⟨s8, d8⟩ := p
              dsimp only
              generalize Dev.invertIQ env d8 false = p
              obtain ⟨s9, d9⟩ := p
              dsimp only
              by_cases h9 : s9 ≠ RADIOLIB_ERR_NONE
              · rw [if_pos h9, if_pos h9]
              · rw [if_neg h9, if_neg h9]
                rfl

/-! ## Join replies -/

/-- C14. In every join attempt in which a reply is received (the reception flag is seen and
the IQ inversion is reset) and the radio reports a packet length that is neither 17 nor 33,
`beginOTAA` returns `RADIOLIB_ERR_DOWNLINK_MALFORMED`. After the reception it has only asked
for the packet length: it has not read the packet, the node (and so its session) is as the
physical layer configuration left it, and the only write to the persistent store is the
incremented DevNonce written before the Join-Request. -/
theorem beginOTAA_length_malformed (env : Env) (fuel : Nat) (d : Dev) (hal : Hal)
    (joinEUI devEUI : Nat) (nwkKey appKey : List Nat) (force : Bool) (d' : Dev) (hal' : Hal)
    (dn : Nat)
    (hrx : joinRequest env fuel d hal joinEUI devEUI nwkKey force = some (.received d' hal' dn))
    (h33 : env.packetLength d'.phy.tick ≠ 33) (h17 : env.packetLength d'.phy.tick ≠ 17) :
    beginOTAA env fuel d hal joinEUI devEUI nwkKey appKey force =
      some (RADIOLIB_ERR_DOWNLINK_MALFORMED,
        { d' with phy := d'.phy.call (.getPacketLength true) },
        hal.write (.devNonce ((hal.store.devNonce % 2 ^ 16 + 1) % 2 ^ 16))) ∧
    d'.node.session = d.node.session := by
  obtain ⟨hdn, hhal, hnode⟩ := joinRequest_received _ _ _ _ _ _ _ _ _ _ _ hrx
  refine ⟨?_, by rw [hnode, setPhyProperties_session]⟩
  rw [beginOTAA_stages, hrx]
  dsimp only
  unfold joinReply
  dsimp only
  rw [if_pos ⟨h33, h17⟩, hhal, hdn]

/-- C14 (instance). On the sample node a join attempt whose reply has 16 bytes returns
`RADIOLIB_ERR_DOWNLINK_MALFORMED`; the store has the DevNonce incremented from 7 to 8 and
nothing else written. -/
theorem beginOTAA_length_malformed_witness :
    ∃ d' : Dev,
      beginOTAA (sampleEnvAt 1000 RADIOLIB_ERR_NONE 16 []) 10 sampleDev (sampleHal 7 0)
        0x0102030405060708 0x1112131415161718 sampleNwkKey sampleAppKey false =
      some (RADIOLIB_ERR_DOWNLINK_MALFORMED,
        { d' with phy := d'.phy.call (.getPacketLength true) },
        (sampleHal 7 0).write (.devNonce 8)) := by
  have hs : (joinRequest (sampleEnvAt 1000 RADIOLIB_ERR_NONE 16 []) 10 sampleDev (sampleHal 7 0)
      0x0102030405060708 0x1112131415161718 sampleNwkKey false).map
      (fun s => match s with | .received _ _ _ => true | _ => false) = some true := by
    decide!
  obtain ⟨st, hst, hb⟩ := Option.map_eq_some'.mp hs
  cases st with
  | exit s d1 h1 => cases hb
  | received d' hal' dn =>
    exact ⟨d', (beginOTAA_length_malformed _ _ _ _ _ _ _ _ _ d' hal' dn hst
      (show (16 : Nat) ≠ 33 by decide) (show (16 : Nat) ≠ 17 by decide)).1⟩

theorem length_encryptECB (env : Env) (key inp : List Nat) (n : Nat) :
    (encryptECB env key inp n).length = n := by
  simp [encryptECB]

theorem encryptECB_lt (env : Env) (key inp : List Nat) (n : Nat) :
    ∀ x ∈ encryptECB env key inp n, x < 256 := by
  intro x hx
  simp only [encryptECB, List.mem_map] at hx
  obtain ⟨i, _, rfl⟩ := hx
  exact Nat.mod_lt _ (by norm_num)

/-- The decrypted Join-Accept: the MAC header byte followed by 32 bytes from the cipher. -/
theorem decryptJoinAccept_eq (env : Env) (nwkKey enc : List Nat) :
    decryptJoinAccept env nwkKey enc =
      enc.getD 0 0 :: encryptECB env nwkKey (enc.drop 1) 32 := by
  unfold decryptJoinAccept writeAt
  simp [RADIOLIB_LORAWAN_JOIN_ACCEPT_MAX_LEN, length_encryptECB, List.replicate]

/-- Four bytes written back by `hton<uint32_t>` from the value that `ntoh<uint32_t>` reads. -/
theorem hton_ntoh_u32 (X : List Nat) (hX : ∀ x ∈ X.take 4, x < 256) (hlen : 4 ≤ X.length) :
    hton 4 (ntoh 4 X 0) 0 = X.take 4 := by
  rcases X with _ | ⟨a, _ | ⟨b, _ | ⟨c, _ | ⟨e, t⟩⟩⟩⟩ <;>
    simp only [List.length_cons, List.length_nil] at hlen <;> try omega
  simp only [List.take_succ_cons, List.take_zero, List.mem_cons, List.mem_nil_iff, or_false,
    forall_eq_or_imp, forall_eq] at hX
  obtain ⟨ha, hb, hc, he⟩ := hX
  have h4 : List.range 4 = [0, 1, 2, 3] := by decide
  have hn : ntoh 4 (a :: b :: c :: e :: t) 0 = a + b * 256 + c * 65536 + e * 16777216 := by
    simp only [ntoh, h4, List.foldl, List.getD_cons_zero, List.getD_cons_succ,
      ne_eq, not_true_eq_false, if_false]
    have e8 : 8 * 4 = 32 := by norm_num
    simp only [e8, Nat.mul_zero, Nat.mul_one, Nat.reduceMul]
    exact or_bytes4 a b c e ha hb hc he
  rw [hn, hton_u32_bytes a b c e ha hb hc he]
  rfl

/-- A message whose last four bytes are not the bytes of its MIC is rejected by `verifyMIC`,
provided that these four bytes are byte values. -/
theorem verifyMIC_mismatch (cmac : List Nat → List Nat → List Nat) (msg : List Nat) (len : Nat)
    (key : List Nat) (hlen : 4 ≤ len) (hmsg : len ≤ msg.length)
    (hbytes : ∀ x ∈ (msg.take len).drop (len - 4), x < 256)
    (hmic : (msg.take len).drop (len - 4) ≠
      hton 4 (generateMIC cmac (some (msg.take (len - 4))) (len - 4) key) 0) :
    verifyMIC cmac (some msg) len key = false := by
  have hd : (msg.take len).drop (len - 4) = (msg.drop (len - 4)).take 4 := by
    rw [List.drop_take]
    congr 1
    omega
  unfold verifyMIC
  have h4 : ¬ len < 4 := by omega
  simp only [h4, if_false]
  rw [if_pos]
  intro heq
  apply hmic
  rw [← generateMIC_take, heq, hton_ntoh_u32 _ (by rw [← hd]; exact hbytes)
    (by rw [List.length_drop]; omega), hd]

/-- The result of `joinReply` for a packet of 17 or 33 bytes that is read without an error
and has the message type of a Join-Accept: the result of `joinAccept`. -/
theorem joinReply_accept (env : Env) (fuel : Nat) (d : Dev) (hal : Hal) (joinEUI devEUI : Nat)
    (nwkKey appKey : List Nat) (devNonce : Nat)
    (hlen : env.packetLength d.phy.tick = 17 ∨ env.packetLength d.phy.tick = 33)
    (hread : env.status (d.phy.tick + 1) = RADIOLIB_ERR_NONE ∨
      env.status (d.phy.tick + 1) = RADIOLIB_ERR_LORA_HEADER_DAMAGED)
    (htype : (readJoinAccept env d).getD 0 0 &&& RADIOLIB_LORAWAN_MHDR_MTYPE_MASK =
      RADIOLIB_LORAWAN_MHDR_MTYPE_JOIN_ACCEPT) :
    joinReply env fuel d hal joinEUI devEUI nwkKey appKey devNonce =
      joinAccept env fuel
        (Dev.readData env { d with phy := d.phy.call (.getPacketLength true) }
          (env.packetLength d.phy.tick)).2.2
        hal joinEUI devEUI nwkKey appKey devNonce (env.packetLength d.phy.tick)
        (readJoinAccept env d) := by
  unfold joinReply
  dsimp only
  have h1 : ¬ (env.packetLength d.phy.tick ≠ RADIOLIB_LORAWAN_JOIN_ACCEPT_MAX_LEN ∧
      env.packetLength d.phy.tick ≠
        RADIOLIB_LORAWAN_JOIN_ACCEPT_MAX_LEN - RADIOLIB_LORAWAN_JOIN_ACCEPT_CFLIST_LEN) := by
    simp only [RADIOLIB_LORAWAN_JOIN_ACCEPT_MAX_LEN, RADIOLIB_LORAWAN_JOIN_ACCEPT_CFLIST_LEN]
    omega
  rw [if_neg h1]
  unfold Dev.readData
  dsimp only
  have h2 : ¬ (env.status (d.phy.call (.getPacketLength true)).tick ≠
      RADIOLIB_ERR_LORA_HEADER_DAMAGED ∧
      env.status (d.phy.call (.getPacketLength true)).tick ≠ RADIOLIB_ERR_NONE) := by
    show ¬ (env.status (d.phy.tick + 1) ≠ _ ∧ env.status (d.phy.tick + 1) ≠ _)
    rcases hread with h | h <;> simp [h]
  rw [if_neg h2]
  have h3 : ¬ ((readJoinAccept env d).getD 0 0 &&& RADIOLIB_LORAWAN_MHDR_MTYPE_MASK ≠
      RADIOLIB_LORAWAN_MHDR_MTYPE_JOIN_ACCEPT) := fun h => h htype
  unfold readJoinAccept Dev.readData at h3
  dsimp only at h3
  rw [if_neg h3]
  rfl

/-- A write of the DevNonce leaves the stored magic value, device address and keys as they
are. -/
theorem write_devNonce_store (hal : Hal) (n : Nat) :
    (hal.write (.devNonce n)).store.magic = hal.store.magic ∧
    (hal.write (.devNonce n)).store.devAddr = hal.store.devAddr ∧
    (hal.write (.devNonce n)).store.appSKey = hal.store.appSKey ∧
    (hal.write (.devNonce n)).store.fNwkSIntKey = hal.store.fNwkSIntKey ∧
    (hal.write (.devNonce n)).store.sNwkSIntKey = hal.store.sNwkSIntKey ∧
    (hal.write (.devNonce n)).store.nwkSEncKey = hal.store.nwkSEncKey :=
  ⟨rfl, rfl, rfl, rfl, rfl, rfl⟩

/-- The last four bytes of a message of at least five bytes are bytes of its tail. -/
theorem last4_mem_tail (h : Nat) (E : List Nat) (l : Nat) (hl : 5 ≤ l)
    (hE : ∀ x ∈ E, x < 256) : ∀ x ∈ ((h :: E).take l).drop (l - 4), x < 256 := by
  obtain ⟨k, rfl⟩ : ∃ k, l = k + 5 := ⟨l - 5, by omega⟩
  intro x hx
  have e : k + 5 - 4 = k + 1 := by omega
  rw [e, List.take_succ_cons, List.drop_succ_cons] at hx
  exact hE x (List.mem_of_mem_take (List.mem_of_mem_drop hx))

/-- C15. For every received Join-Accept of 17 or 33 bytes (read without an error) with the
message type of a Join-Accept and bit 7 of DLSettings clear: if the last four bytes of the
decrypted message differ from the little-endian bytes of
`generateMIC(decrypted message without its last four bytes, nwkKey)`, then `beginOTAA`
returns `RADIOLIB_ERR_CRC_MISMATCH`, the session in memory (device address, Rx delays and
the four session keys) is the one before the call, and the persistent store has only had the
incremented DevNonce written, so the stored magic value, device address and keys are the
ones before the call. -/
theorem beginOTAA_mic_mismatch (env : Env) (fuel : Nat) (d : Dev) (hal : Hal)
    (joinEUI devEUI : Nat) (nwkKey appKey : List Nat) (force : Bool) (d' : Dev) (hal' : Hal)
    (dn : Nat)
    (hrx : joinRequest env fuel d hal joinEUI devEUI nwkKey force = some (.received d' hal' dn))
    (hlen : env.packetLength d'.phy.tick = 17 ∨ env.packetLength d'.phy.tick = 33)
    (hread : env.status (d'.phy.tick + 1) = RADIOLIB_ERR_NONE ∨
      env.status (d'.phy.tick + 1) = RADIOLIB_ERR_LORA_HEADER_DAMAGED)
    (htype : (readJoinAccept env d').getD 0 0 &&& RADIOLIB_LORAWAN_MHDR_MTYPE_MASK =
      RADIOLIB_LORAWAN_MHDR_MTYPE_JOIN_ACCEPT)
    (hbit : (decryptJoinAccept env nwkKey (readJoinAccept env d')).getD
      RADIOLIB_LORAWAN_JOIN_ACCEPT_DL_SETTINGS_POS 0 &&& 0x80 = 0)
    (hmic : ((decryptJoinAccept env nwkKey (readJoinAccept env d')).take
        (env.packetLength d'.phy.tick)).drop (env.packetLength d'.phy.tick - 4) ≠
      hton 4 (generateMIC env.generateCMAC
        (some ((decryptJoinAccept env nwkKey (readJoinAccept env d')).take
          (env.packetLength d'.phy.tick - 4)))
        (env.packetLength d'.phy.tick - 4) nwkKey) 0) :
    ∃ r : Status × Dev × Hal,
      beginOTAA env fuel d hal joinEUI devEUI nwkKey appKey force = some r ∧
      r.1 = RADIOLIB_ERR_CRC_MISMATCH ∧
      r.2.1.node.session = d.node.session ∧
      r.2.2 = hal.write (.devNonce ((hal.store.devNonce % 2 ^ 16 + 1) % 2 ^ 16)) ∧
      r.2.2.store.magic = hal.store.magic ∧ r.2.2.store.devAddr = hal.store.devAddr ∧
      r.2.2.store.appSKey = hal.store.appSKey ∧
      r.2.2.store.fNwkSIntKey = hal.store.fNwkSIntKey ∧
      r.2.2.store.sNwkSIntKey = hal.store.sNwkSIntKey ∧
      r.2.2.store.nwkSEncKey = hal.store.nwkSEncKey := by
  obtain ⟨hdn, hhal, hnode⟩ := joinRequest_received _ _ _ _ _ _ _ _ _ _ _ hrx
  have hlen33 : (decryptJoinAccept env nwkKey (readJoinAccept env d')).length = 33 := by
    rw [decryptJoinAccept_eq, List.length_cons, length_encryptECB]
  have hv : verifyMIC env.generateCMAC (some (decryptJoinAccept env nwkKey (readJoinAccept env d')))
      (env.packetLength d'.phy.tick) nwkKey = false := by
    apply verifyMIC_mismatch _ _ _ _ (by omega) (by omega) _ hmic
    rw [decryptJoinAccept_eq]
    exact last4_mem_tail _ _ _ (by omega) (encryptECB_lt _ _ _ _)
  rw [beginOTAA_stages, hrx]
  dsimp only
  rw [joinReply_accept env fuel d' hal' joinEUI devEUI nwkKey appKey dn hlen hread htype]
  unfold joinAccept checkJoinAcceptMIC
  dsimp only
  have hb : ¬ ((decryptJoinAccept env nwkKey (readJoinAccept env d')).getD
      RADIOLIB_LORAWAN_JOIN_ACCEPT_DL_SETTINGS_POS 0 &&& RADIOLIB_LORAWAN_JOIN_ACCEPT_R_1_1 ≠ 0) :=
    fun h => h hbit
  rw [if_neg hb]
  dsimp only
  rw [hv]
  refine ⟨_, rfl, rfl, ?_, ?_⟩
  · show d'.node.session = d.node.session
    rw [hnode, setPhyProperties_session]
  · rw [hhal, hdn]
    exact ⟨rfl, write_devNonce_store _ _⟩

/-- C15 (instance). The sample Join-Accept with its last byte changed from 45 to 46 is
rejected with `RADIOLIB_ERR_CRC_MISMATCH`; the session in memory is untouched and the store
has only the DevNonce incremented from 7 to 8. -/
theorem beginOTAA_mic_mismatch_witness :
    ∃ r : Status × Dev × Hal,
      beginOTAA (sampleEnv RADIOLIB_ERR_NONE
          [32, 160, 160, 160, 23, 5, 6, 221, 19, 8, 44, 11, 13, 58, 55, 52, 46]) 10 sampleDev
        (sampleHal 7 0) 0x0102030405060708 0x1112131415161718 sampleNwkKey sampleAppKey false =
        some r ∧
      r.1 = RADIOLIB_ERR_CRC_MISMATCH ∧ r.2.1.node.session = sampleDev.node.session ∧
      r.2.2 = (sampleHal 7 0).write (.devNonce 8) := by
  have hs : (joinRequest (sampleEnv RADIOLIB_ERR_NONE
      [32, 160, 160, 160, 23, 5, 6, 221, 19, 8, 44, 11, 13, 58, 55, 52, 46]) 10 sampleDev
      (sampleHal 7 0) 0x0102030405060708 0x1112131415161718 sampleNwkKey false).map
      (fun s => match s with | .received _ _ _ => true | _ => false) = some true := by
    decide!
  obtain ⟨st, hst, hb⟩ := Option.map_eq_some'.mp hs
  cases st with
  | exit s d1 h1 => cases hb
  | received d' hal' dn =>
    have e : readJoinAccept (sampleEnv RADIOLIB_ERR_NONE
        [32, 160, 160, 160, 23, 5, 6, 221, 19, 8, 44, 11, 13, 58, 55, 52, 46]) d' =
        [32, 160, 160, 160, 23, 5, 6, 221, 19, 8, 44, 11, 13, 58, 55, 52, 46] ++
          List.replicate 16 0 := rfl
    obtain ⟨r, h1, h2, h3, h4, _⟩ := beginOTAA_mic_mismatch _ _ _ _ _ _ _ sampleAppKey _ d'
      hal' dn hst (Or.inl rfl) (Or.inl rfl) (by rw [e]; decide) (by rw [e]; decide!)
      (by
        show ((decryptJoinAccept _ sampleNwkKey _).take 17).drop (17 - 4) ≠
          hton 4 (generateMIC sampleCMAC (some ((decryptJoinAccept _ sampleNwkKey _).take
            (17 - 4))) (17 - 4) sampleNwkKey) 0
        rw [e]
        decide!)
    exact ⟨r, h1, h2, h3, h4⟩

theorem invertIQ_calls (env : Env) (d : Dev) (b : Bool) :
    (d.invertIQ env b).2.phy.calls =
      d.phy.calls ++ (if d.node.FSK then [] else [.invertIQ b]) := by
  unfold Dev.invertIQ
  split
  · simp
  · rfl

/-- A join attempt that reaches the reception of the reply has handed the Join-Request with
the DevNonce `dn` to the radio. -/
theorem joinRequest_transmits (env : Env) (fuel : Nat) (d : Dev) (hal : Hal)
    (joinEUI devEUI : Nat) (nwkKey : List Nat) (force : Bool) (d' : Dev) (hal' : Hal) (dn : Nat)
    (h : joinRequest env fuel d hal joinEUI devEUI nwkKey force = some (.received d' hal' dn)) :
    RadioCall.transmit (joinRequestMsg env joinEUI devEUI nwkKey dn)
      RADIOLIB_LORAWAN_JOIN_REQUEST_LEN ∈ d'.phy.calls := by
  unfold joinRequest at h
  repeat' first | split at h | (fail_if_no_progress simp only at h)
  all_goals first
    | (cases h; done)
    | (rename_i hsp _ _ _ _ _ _ hwait _
       cases h
       rw [invertIQ_calls, radio_calls, (waitDownlink_node _ _ _ _ _ _ _ hwait).2, radio_calls,
         millis_calls, invertIQ_calls, radio_calls, radio_calls]
       simp)

theorem length_hton_size (t v s : Nat) (hs : s ≠ 0) : (hton t v s).length = s := by
  simp [hton, hs]

/-- The key derivation block of revision 1.0, byte by byte. -/
theorem keyBlock10_eq (jn hn dn tag : Nat) :
    (writeAt (writeAt (writeAt (List.replicate RADIOLIB_AES128_BLOCK_SIZE 0)
      RADIOLIB_LORAWAN_JOIN_ACCEPT_JOIN_NONCE_POS (hton 4 jn 3))
      RADIOLIB_LORAWAN_JOIN_ACCEPT_HOME_NET_ID_POS (hton 4 hn 3))
      RADIOLIB_LORAWAN_JOIN_ACCEPT_DEV_ADDR_POS (hton 2 dn 0)).set 0 tag =
      [tag] ++ hton 4 jn 3 ++ hton 4 hn 3 ++ hton 2 dn 0 ++ List.replicate 7 0 := by
  have ha := length_hton_size 4 jn 3 (by decide)
  have hb := length_hton_size 4 hn 3 (by decide)
  have hc := length_hton 2 dn
  generalize hton 4 jn 3 = a at ha ⊢
  generalize hton 4 hn 3 = b at hb ⊢
  generalize hton 2 dn 0 = c at hc ⊢
  rcases a with _ | ⟨a0, _ | ⟨a1, _ | ⟨a2, _ | ⟨a3, t⟩⟩⟩⟩ <;>
    simp only [List.length_cons, List.length_nil] at ha <;> try omega
  rcases b with _ | ⟨b0, _ | ⟨b1, _ | ⟨b2, _ | ⟨b3, t⟩⟩⟩⟩ <;>
    simp only [List.length_cons, List.length_nil] at hb <;> try omega
  rcases c with _ | ⟨c0, _ | ⟨c1, _ | ⟨c2, t⟩⟩⟩ <;>
    simp only [List.length_cons, List.length_nil] at hc <;> try omega
  rfl

/-- C16. After every successful join of revision 1.0 (a reply was received, `beginOTAA`
returned `RADIOLIB_ERR_NONE` and bit 7 of the decrypted DLSettings is clear), `appSKey` is
the AES-128 ECB encryption under `nwkKey` of the 16-byte block made of the AppSKey tag, the
JoinNonce (3 bytes), the HomeNetID (3 bytes), the DevNonce (2 bytes, the value read from the
store and sent in the Join-Request), each least significant byte first, and seven zero
bytes; `fNwkSIntKey`, `sNwkSIntKey` and `nwkSEncKey` are all the encryption under `nwkKey`
of the same block with the tag of the network session key in byte 0. -/
theorem beginOTAA_keys_rev10 (env : Env) (fuel : Nat) (d : Dev) (hal : Hal)
    (joinEUI devEUI : Nat) (nwkKey appKey : List Nat) (force : Bool) (d' : Dev) (hal' : Hal)
    (dn : Nat) (r : Status × Dev × Hal)
    (hrx : joinRequest env fuel d hal joinEUI devEUI nwkKey force = some (.received d' hal' dn))
    (hret : beginOTAA env fuel d hal joinEUI devEUI nwkKey appKey force = some r)
    (hok : r.1 = RADIOLIB_ERR_NONE)
    (hbit : (decryptJoinAccept env nwkKey (readJoinAccept env d')).getD
      RADIOLIB_LORAWAN_JOIN_ACCEPT_DL_SETTINGS_POS 0 &&& 0x80 = 0) :
    let msg := decryptJoinAccept env nwkKey (readJoinAccept env d')
    let joinNonce := ntoh 4 (msg.drop RADIOLIB_LORAWAN_JOIN_ACCEPT_JOIN_NONCE_POS) 3
    let homeNetId := ntoh 4 (msg.drop RADIOLIB_LORAWAN_JOIN_ACCEPT_HOME_NET_ID_POS) 3
    let block := fun tag : Nat =>
      [tag] ++ hton 4 joinNonce 3 ++ hton 4 homeNetId 3 ++ hton 2 dn 0 ++ List.replicate 7 0
    dn = hal.store.devNonce % 2 ^ 16 ∧
    RadioCall.transmit (joinRequestMsg env joinEUI devEUI nwkKey dn)
      RADIOLIB_LORAWAN_JOIN_REQUEST_LEN ∈ d'.phy.calls ∧
    r.2.1.node.appSKey =
      encryptECB env nwkKey (block RADIOLIB_LORAWAN_JOIN_ACCEPT_APP_S_KEY) 16 ∧
    r.2.1.node.fNwkSIntKey =
      encryptECB env nwkKey (block RADIOLIB_LORAWAN_JOIN_ACCEPT_F_NWK_S_INT_KEY) 16 ∧
    r.2.1.node.sNwkSIntKey =
      encryptECB env nwkKey (block RADIOLIB_LORAWAN_JOIN_ACCEPT_F_NWK_S_INT_KEY) 16 ∧
    r.2.1.node.nwkSEncKey =
      encryptECB env nwkKey (block RADIOLIB_LORAWAN_JOIN_ACCEPT_F_NWK_S_INT_KEY) 16 := by
  intro msg joinNonce homeNetId block
  obtain ⟨hdn, _, _⟩ := joinRequest_received _ _ _ _ _ _ _ _ _ _ _ hrx
  refine ⟨hdn, joinRequest_transmits _ _ _ _ _ _ _ _ _ _ _ hrx, ?_⟩
  have hb : ¬ ((decryptJoinAccept env nwkKey (readJoinAccept env d')).getD
      RADIOLIB_LORAWAN_JOIN_ACCEPT_DL_SETTINGS_POS 0 &&& RADIOLIB_LORAWAN_JOIN_ACCEPT_R_1_1 ≠ 0) :=
    fun h => h hbit
  rw [beginOTAA_stages, hrx] at hret
  dsimp only at hret
  unfold joinReply at hret
  dsimp only at hret
  split at hret
  · cases hret; cases hok
  · unfold Dev.readData at hret
    dsimp only at hret
    split at hret
    · rename_i hst
      cases hret
      exact absurd hok hst.2
    · split at hret
      · cases hret; cases hok
      · unfold joinAccept checkJoinAcceptMIC at hret
        dsimp only at hret
        unfold readJoinAccept Dev.readData at hb
        dsimp only at hb
        rw [if_neg hb] at hret
        dsimp only at hret
        repeat' split at hret
        all_goals first
          | (cases hret; cases hok; done)
          | (cases hret
             unfold deriveKeys10
             dsimp only
             rw [List.set_set, keyBlock10_eq, keyBlock10_eq, List.take_of_length_le
               (by rw [length_encryptECB])]
             exact ⟨rfl, rfl, rfl, rfl⟩)

/-- C16 (instance). The join of the sample node with the sample Join-Accept of revision 1.0
(JoinNonce `0xA3A2A1`, HomeNetID `0x000013`) and the stored DevNonce 7 succeeds, and the
session keys are the encryptions under `sampleNwkKey` of the blocks with tag `0x02` and
`0x01`. -/
theorem beginOTAA_keys_rev10_witness :
    ∃ r : Status × Dev × Hal,
      beginOTAA (sampleEnv RADIOLIB_ERR_NONE sampleJoinAccept10) 10 sampleDev (sampleHal 7 0)
        0x0102030405060708 0x1112131415161718 sampleNwkKey sampleAppKey false = some r ∧
      r.1 = RADIOLIB_ERR_NONE ∧
      r.2.1.node.appSKey = encryptECB (sampleEnv RADIOLIB_ERR_NONE sampleJoinAccept10)
        sampleNwkKey [0x02, 0xA1, 0xA2, 0xA3, 0x13, 0, 0, 7, 0, 0, 0, 0, 0, 0, 0, 0] 16 ∧
      r.2.1.node.fNwkSIntKey = encryptECB (sampleEnv RADIOLIB_ERR_NONE sampleJoinAccept10)
        sampleNwkKey [0x01, 0xA1, 0xA2, 0xA3, 0x13, 0, 0, 7, 0, 0, 0, 0, 0, 0, 0, 0] 16 ∧
      r.2.1.node.sNwkSIntKey = r.2.1.node.fNwkSIntKey ∧
      r.2.1.node.nwkSEncKey = r.2.1.node.fNwkSIntKey := by
  have hs : (joinRequest (sampleEnv RADIOLIB_ERR_NONE sampleJoinAccept10) 10 sampleDev
      (sampleHal 7 0) 0x0102030405060708 0x1112131415161718 sampleNwkKey false).map
      (fun s => match s with | .received _ _ _ => true | _ => false) = some true := by
    decide!
  have hr : (beginOTAA (sampleEnv RADIOLIB_ERR_NONE sampleJoinAccept10) 10 sampleDev
      (sampleHal 7 0) 0x0102030405060708 0x1112131415161718 sampleNwkKey sampleAppKey false).map
      (fun r => r.1) = some RADIOLIB_ERR_NONE := by
    decide!
  obtain ⟨st, hst, hb⟩ := Option.map_eq_some'.mp hs
  obtain ⟨r, hret, hok⟩ := Option.map_eq_some'.mp hr
  cases st with
  | exit s d1 h1 => cases hb
  | received d' hal' dn =>
    have e : readJoinAccept (sampleEnv RADIOLIB_ERR_NONE sampleJoinAccept10) d' =
        sampleJoinAccept10 ++ List.replicate 16 0 := rfl
    have h := beginOTAA_keys_rev10 _ _ _ _ _ _ _ _ _ d' hal' dn r hst hret hok
      (by rw [e]; decide!)
    simp only [e] at h
    obtain ⟨hdn, _, h1, h2, h3, h4⟩ := h
    subst hdn
    exact ⟨r, hret, hok, h1, h2, h3.trans h2.symm, h4.trans h2.symm⟩

/-! ## Downlink window -/

theorem callsExtend_refl (d : Dev) : callsExtend d d := ⟨[], by simp⟩

theorem callsExtend_of_calls (d d' : Dev) (cs : List RadioCall)
    (h : d'.phy.calls = d.phy.calls ++ cs) : callsExtend d d' := ⟨cs, h⟩

theorem callsExtend_of_eq (d d' : Dev) (h : d'.phy.calls = d.phy.calls) : callsExtend d d' :=
  ⟨[], by simp [h]⟩

theorem callsExtend_trans {a b c : Dev} (h1 : callsExtend a b) (h2 : callsExtend b c) :
    callsExtend a c := by
  obtain ⟨x, hx⟩ := h1
  obtain ⟨y, hy⟩ := h2
  exact ⟨x ++ y, by rw [hy, hx, List.append_assoc]⟩

theorem callsExtend_radio (env : Env) (d : Dev) (c : RadioCall) :
    callsExtend d (d.radio env c).2 := ⟨[c], rfl⟩

theorem callsExtend_invertIQ (env : Env) (d : Dev) (b : Bool) :
    callsExtend d (d.invertIQ env b).2 := ⟨_, invertIQ_calls env d b⟩

theorem waitScanFlag_node (env : Env) (cadStart : Nat) :
    ∀ (n : Nat) (d d' : Dev), waitScanFlag env cadStart n d = some d' →
      d'.node = d.node ∧ d'.phy.calls = d.phy.calls := by
  intro n
  induction n with
  | zero => intro d d' h; simp [waitScanFlag] at h
  | succ n ih =>
    intro d d' h
    unfold waitScanFlag at h
    simp only [Dev.millis, Phy.step] at h
    split_ifs at h with h1 h2
    · cases h; exact ⟨rfl, rfl⟩
    · cases h; exact ⟨rfl, rfl⟩
    · have := ih _ _ h
      exact this

theorem scanLoop_extend (env : Env) (scanStart scanTimeout scanGuard : Nat) :
    ∀ (n : Nat) (d : Dev) (o : ScanOutcome),
      scanLoop env scanStart scanTimeout scanGuard n d = some o → callsExtend d o.dev := by
  intro n
  induction n with
  | zero => intro d o h; simp [scanLoop] at h
  | succ n ih =>
    intro d o h
    unfold scanLoop at h
    repeat' first | (fail_if_no_progress simp only at h) | split at h
    all_goals first
      | (cases h; done)
      | (cases h
         exact ⟨_, by
           simp only [ScanOutcome.dev, radio_calls, millis_calls, List.append_assoc]
           first | rfl | exact (List.append_nil _).symm⟩)
      | (rename_i hw _
         cases h
         exact ⟨_, by
           simp only [ScanOutcome.dev, radio_calls, millis_calls,
             (waitScanFlag_node _ _ _ _ _ hw).2, List.append_assoc]
           rfl⟩)
      | (rename_i hw _
         have hI := ih _ _ h
         refine callsExtend_trans ?_ hI
         exact ⟨_, by
           simp only [radio_calls, millis_calls, (waitScanFlag_node _ _ _ _ _ hw).2,
             List.append_assoc]
           rfl⟩)

theorem rxWindows_extend (env : Env) (scanTimeout scanGuard fuel : Nat) :
    ∀ (k i : Nat) (d : Dev) (o : ScanOutcome),
      rxWindows env scanTimeout scanGuard fuel k i d = some o → callsExtend d o.dev := by
  intro k
  induction k with
  | zero =>
    intro i d o h
    simp only [rxWindows, Option.some.injEq] at h
    subst h
    exact callsExtend_refl d
  | succ k ih =>
    intro i d o h
    unfold rxWindows at h
    repeat' first | (fail_if_no_progress simp only at h) | split at h
    all_goals first
      | (cases h; done)
      | (have hS := scanLoop_extend _ _ _ _ _ _ _ (by assumption)
         simp only [ScanOutcome.dev] at hS
         have h0 : callsExtend d _ := callsExtend_trans
           (callsExtend_of_eq _ _ (by simp only [millis_calls, Phy.delay])) hS
         first
           | (cases h; exact h0)
           | (cases h
              refine callsExtend_trans h0 ?_
              apply callsExtend_of_calls
              simp only [ScanOutcome.dev, radio_calls, List.append_assoc]
              rfl)
           | exact callsExtend_trans h0 (ih _ _ _ h)
           | (refine callsExtend_trans (callsExtend_trans h0 ?_) (ih _ _ _ h)
              apply callsExtend_of_calls
              simp only [radio_calls, List.append_assoc]
              rfl))

theorem configureChannel_extend (env : Env) (d : Dev) (chan dr : Nat) :
    callsExtend d (configureChannel env d chan dr).2 := by
  unfold configureChannel
  simp only [Dev.radio, Phy.call]
  split_ifs
  · exact callsExtend_refl d
  · exact ⟨_, rfl⟩
  · exact ⟨_, by simp only [List.append_assoc]; rfl⟩

theorem downlinkParse_extend (env : Env) (d : Dev) (data : List Nat) (len : Nat) :
    callsExtend d (downlinkParse env d data len).2.2.2 := by
  unfold downlinkParse
  simp only [Dev.readData, Phy.call]
  split_ifs <;> first | exact ⟨_, rfl⟩ | exact ⟨_, by simp only [List.append_assoc]; rfl⟩

theorem callsGrow_of (d d' : Dev) (pre : List RadioCall) (c : RadioCall) (post : List RadioCall)
    (h : d'.phy.calls = d.phy.calls ++ (pre ++ c :: post)) : callsGrow d d' := by
  cases pre with
  | nil => exact ⟨c, post, h⟩
  | cons a t => exact ⟨a, t ++ c :: post, h⟩

theorem callsGrow_extend {a b c : Dev} (h1 : callsGrow a b) (h2 : callsExtend b c) :
    callsGrow a c := by
  obtain ⟨x, xs, hx⟩ := h1
  obtain ⟨y, hy⟩ := h2
  exact ⟨x, xs ++ y, by rw [hy, hx, List.append_assoc]; rfl⟩

theorem invertIQ_failed (env : Env) (d : Dev) (b : Bool)
    (h : (d.invertIQ env b).1 ≠ RADIOLIB_ERR_NONE) :
    (d.invertIQ env b).2.phy.calls = d.phy.calls ++ [.invertIQ b] := by
  unfold Dev.invertIQ at h ⊢
  split
  · rename_i hF
    rw [if_pos hF] at h
    exact absurd rfl h
  · rfl

theorem downlink_grows (env : Env) (fuel : Nat) (d : Dev) (data : List Nat) (len : Nat)
    (hle : ¬ sub32 (env.millis d.phy.tick % 2 ^ 32) d.node.rxDelayStart >
      (d.node.rxDelay 1 + 500) % 2 ^ 32)
    (r : Status × List Nat × Nat × Dev) (h : downlink env fuel d data len = some r) :
    callsGrow d r.2.2.2 := by
  unfold downlink at h
  repeat' first | (fail_if_no_progress simp only at h) | split at h
  all_goals first
    | (cases h; done)
    | (rename_i hc; exact absurd hc hle)
    | (rename_i hq; cases h; exact ⟨_, [], invertIQ_failed _ _ _ hq⟩)
    | (have hR := rxWindows_extend _ _ _ _ _ _ _ _ (by assumption)
       simp only [ScanOutcome.dev] at hR
       have hG : callsGrow d _ := callsGrow_extend (callsGrow_of _ _ _ _ _ (by
         simp only [radio_calls, Phy.call, invertIQ_calls, millis_calls, List.append_assoc]
         rfl)) hR
       first
         | (cases h; exact hG)
         | (cases h
            refine callsGrow_extend hG ?_
            apply callsExtend_of_calls
            simp only [radio_calls, invertIQ_calls, List.append_assoc]
            rfl)
         | (cases h
            refine callsGrow_extend hG
              (callsExtend_trans ?_ (configureChannel_extend _ _ _ _))
            apply callsExtend_of_calls
            simp only [radio_calls, invertIQ_calls, List.append_assoc]
            rfl)
         | (have hW := waitDownlink_node _ _ _ _ _ _ _ (by assumption)
            cases h
            refine callsGrow_extend hG ?_
            apply callsExtend_of_calls
            simp only [radio_calls, invertIQ_calls, millis_calls, hW.2, List.append_assoc]
            rfl)
         | (have hW := waitDownlink_node _ _ _ _ _ _ _ (by assumption)
            cases h
            refine callsGrow_extend hG
              (callsExtend_trans ?_ (downlinkParse_extend _ _ _ _))
            apply callsExtend_of_calls
            simp only [radio_calls, invertIQ_calls, millis_calls, hW.2, List.append_assoc]
            rfl))

/-- C19. A call of `downlink` made when more than `rxDelays[1] + 500` milliseconds have
passed since `rxDelayStart` (on the 32-bit clock) returns `RADIOLIB_ERR_NO_RX_WINDOW`; it
has read the clock and made no radio call, and `data` and `*len` are as given. A call made
when exactly `rxDelays[1] + 500` milliseconds have passed does not return at this check:
whenever it returns, it has made at least one radio call. -/
theorem downlink_no_rx_window (env : Env) (fuel : Nat) (d : Dev) (data : List Nat)
    (len : Nat) :
    (d.node.rxDelay 1 + 500 < sub32 (env.millis d.phy.tick % 2 ^ 32) d.node.rxDelayStart →
      downlink env fuel d data len =
        some (RADIOLIB_ERR_NO_RX_WINDOW, data, len, { d with phy := d.phy.step }) ∧
      ({ d with phy := d.phy.step } : Dev).phy.calls = d.phy.calls) ∧
    (sub32 (env.millis d.phy.tick % 2 ^ 32) d.node.rxDelayStart = d.node.rxDelay 1 + 500 →
      ∀ r : Status × List Nat × Nat × Dev, downlink env fuel d data len = some r →
        ∃ (c : RadioCall) (cs : List RadioCall), r.2.2.2.phy.calls = d.phy.calls ++ c :: cs) := by
  have hlt : sub32 (env.millis d.phy.tick % 2 ^ 32) d.node.rxDelayStart < 2 ^ 32 :=
    Nat.mod_lt _ (by norm_num)
  constructor
  · intro h
    refine ⟨?_, rfl⟩
    have hm : (d.node.rxDelay 1 + 500) % 2 ^ 32 = d.node.rxDelay 1 + 500 :=
      Nat.mod_eq_of_lt (by omega)
    unfold downlink
    simp only [Dev.millis]
    rw [if_pos (by rw [hm]; exact h)]
  · intro h r hr
    have hw : d.node.rxDelay 1 + 500 < 2 ^ 32 := by omega
    exact downlink_grows env fuel d data len (by rw [Nat.mod_eq_of_lt hw]; omega) r hr

/-- C19 (instance). On the sample node, whose second Rx delay is 2000 ms: at 100000 ms after
`rxDelayStart` the call returns `RADIOLIB_ERR_NO_RX_WINDOW` with no radio call made; at
exactly 2500 ms after `rxDelayStart` the call goes on to use the radio. -/
theorem downlink_no_rx_window_witness :
    downlink (sampleEnv RADIOLIB_ERR_NONE []) 10 sampleDev [] 0 =
      some (RADIOLIB_ERR_NO_RX_WINDOW, [], 0, { sampleDev with phy := sampleDev.phy.step }) ∧
    sub32 100000 97500 = 2000 + 500 ∧
    ∃ (r : Status × List Nat × Nat × Dev) (c : RadioCall) (cs : List RadioCall),
      downlink (sampleEnvAt 11 RADIOLIB_PREAMBLE_DETECTED 15 sampleDownlink) 10
        (sampleDevAt 97500) [] 0 = some r ∧
      r.2.2.2.phy.calls = c :: cs := by
  refine ⟨((downlink_no_rx_window (sampleEnv RADIOLIB_ERR_NONE []) 10 sampleDev [] 0).1
    (by decide)).1, by decide, ?_⟩
  have hs : (downlink (sampleEnvAt 11 RADIOLIB_PREAMBLE_DETECTED 15 sampleDownlink) 10
      (sampleDevAt 97500) [] 0).map (fun r => r.1) = some RADIOLIB_ERR_CRC_MISMATCH := by
    decide!
  obtain ⟨r, hr, _⟩ := Option.map_eq_some'.mp hs
  obtain ⟨c, cs, hc⟩ := (downlink_no_rx_window
    (sampleEnvAt 11 RADIOLIB_PREAMBLE_DETECTED 15 sampleDownlink) 10 (sampleDevAt 97500) [] 0).2
    (by decide) r hr
  exact ⟨r, c, cs, hr, hc⟩

/-- C20 (code at the failing input). The frame `sampleDownlink` has FOptsLen 0, FPort 1 and a
2-byte FRMPayload that `processAES` decrypts to `BE EF` under `appSKey` with the FCnt 0 of
the frame; it passes the MIC and the address check of `downlink`. The call returns
`RADIOLIB_ERR_NONE` with the output length 15, the length of the whole frame, and the
output starts with the 7 bytes of the frame from the FPort byte to the end of the MIC
combined with the key stream: the payload `BE EF` is not what is returned. -/
theorem downlink_payload_garbled :
    sampleDownlink.length = 15 ∧
    sampleDownlink.getD 5 0 &&& RADIOLIB_LORAWAN_FHDR_FOPTS_LEN_MASK = 0 ∧
    sampleDownlink.getD 8 0 = 1 ∧
    ntoh 2 (sampleDownlink.drop 6) 0 = 0 ∧
    processAES sampleECB 0x26011BDA ((sampleDownlink.drop 9).take 2) 2 sampleAppSKey 0
      RADIOLIB_LORAWAN_CHANNEL_DIR_DOWNLINK 0 true = [0xBE, 0xEF] ∧
    (downlink (sampleEnvAt 11 RADIOLIB_PREAMBLE_DETECTED 15 sampleDownlink) 10 sampleSessionDev
      [] 0).map (fun r => (r.1, r.2.1.take 7, r.2.2.1)) =
      some (RADIOLIB_ERR_NONE, [201, 188, 238, 70, 65, 65, 133], 15) := by
  decide!

/-! ## MIC value and key stream -/

/-- C24 (as stated, refuted). For the empty message the stand-in CMAC under `sampleNwkKey`
starts with the bytes 1, 3, 5, 7, whose little-endian value is not zero, while
`generateMIC` of a buffer of length zero is zero. -/
theorem generateMIC_empty_zero :
    (sampleCMAC sampleNwkKey []).take 4 = [1, 3, 5, 7] ∧
    generateMIC sampleCMAC (some []) 0 sampleNwkKey = 0 ∧
    generateMIC sampleCMAC (some []) 0 sampleNwkKey ≠
      (sampleCMAC sampleNwkKey []).getD 0 0 + 2 ^ 8 * (sampleCMAC sampleNwkKey []).getD 1 0 +
        2 ^ 16 * (sampleCMAC sampleNwkKey []).getD 2 0 +
        2 ^ 24 * (sampleCMAC sampleNwkKey []).getD 3 0 := by
  decide

/-- C24 (amended). For every key and every message buffer of non-zero length `len`,
`generateMIC` returns `c[0] + 2^8 * c[1] + 2^16 * c[2] + 2^24 * c[3]`, where `c` is the
CMAC of the whole buffer under the key, each `c[i]` read as a byte; for a buffer of length
zero, and for the null pointer, it returns 0 without computing a CMAC. -/
theorem generateMIC_value (cmac : List Nat → List Nat → List Nat) (m key : List Nat) :
    (m.length ≠ 0 →
      generateMIC cmac (some m) m.length key =
        (cmac key m).getD 0 0 % 256 + 2 ^ 8 * ((cmac key m).getD 1 0 % 256) +
          2 ^ 16 * ((cmac key m).getD 2 0 % 256) + 2 ^ 24 * ((cmac key m).getD 3 0 % 256)) ∧
    generateMIC cmac (some m) 0 key = 0 ∧
    generateMIC cmac none m.length key = 0 := by
  refine ⟨?_, ?_, rfl⟩
  · intro h
    rw [generateMIC_bytes cmac m m.length key h, List.take_length]
    omega
  · unfold generateMIC
    simp

/-- C24 (amended, instance). The MIC of the three bytes 1, 2, 3 under `sampleNwkKey` with the
stand-in CMAC, whose first four bytes are 7, 9, 11, 13. -/
theorem generateMIC_value_witness :
    generateMIC sampleCMAC (some [1, 2, 3]) 3 sampleNwkKey =
      7 + 2 ^ 8 * 9 + 2 ^ 16 * 11 + 2 ^ 24 * 13 :=
  (generateMIC_value sampleCMAC [1, 2, 3] sampleNwkKey).1 (by decide)

/-- The initial encryption block of `processAES`, byte by byte. -/
theorem encBlock0_eq (devAddr fcnt dir ctrId : Nat) :
    encBlock0 devAddr fcnt dir ctrId =
      [0x01, 0, 0, 0, ctrId % 256, dir % 256] ++ hton 4 devAddr 0 ++ hton 4 fcnt 0 ++ [0, 0] := by
  unfold encBlock0
  have ha := length_hton 4 devAddr
  have hc := length_hton 4 fcnt
  generalize hton 4 devAddr 0 = a at ha ⊢
  generalize hton 4 fcnt 0 = c at hc ⊢
  rcases a with _ | ⟨a0, _ | ⟨a1, _ | ⟨a2, _ | ⟨a3, _ | ⟨a4, t⟩⟩⟩⟩⟩ <;>
    simp only [List.length_cons, List.length_nil] at ha <;> try omega
  rcases c with _ | ⟨c0, _ | ⟨c1, _ | ⟨c2, _ | ⟨c3, _ | ⟨c4, t⟩⟩⟩⟩⟩ <;>
    simp only [List.length_cons, List.length_nil] at hc <;> try omega
  rfl

/-- The encryption block of `processAES` for block `m`, byte by byte. -/
theorem ctrBlock_eq (counter : Bool) (devAddr fcnt dir ctrId m : Nat) :
    ctrBlock counter (encBlock0 devAddr fcnt dir ctrId) m =
      [0x01, 0, 0, 0, ctrId % 256, dir % 256] ++ hton 4 devAddr 0 ++ hton 4 fcnt 0 ++
        [0, if counter then (m + 1) % 256 else 0] := by
  rw [encBlock0_eq]
  unfold ctrBlock
  have ha := length_hton 4 devAddr
  have hc := length_hton 4 fcnt
  generalize hton 4 devAddr 0 = a at ha ⊢
  generalize hton 4 fcnt 0 = c at hc ⊢
  rcases a with _ | ⟨a0, _ | ⟨a1, _ | ⟨a2, _ | ⟨a3, _ | ⟨a4, t⟩⟩⟩⟩⟩ <;>
    simp only [List.length_cons, List.length_nil] at ha <;> try omega
  rcases c with _ | ⟨c0, _ | ⟨c1, _ | ⟨c2, _ | ⟨c3, _ | ⟨c4, t⟩⟩⟩⟩⟩ <;>
    simp only [List.length_cons, List.length_nil] at hc <;> try omega
  cases counter <;> rfl

/-- C25. For every input, every length `n` up to 4080, counter id 0 and every key, device
address, frame counter and direction byte, `processAES` writes exactly `n` bytes, and byte
`j` is the input byte `j` combined by exclusive or with byte `j mod 16` of the encryption
under the key of the block `A_i`, `i = j / 16`, which is `0x01`, four zero bytes, the
direction, the device address and the frame counter (4 bytes each, least significant
first), a zero byte and the counter byte: `i + 1` when the counter flag is set, 0 when it
is not. (The stored byte is the low 8 bits of the exclusive or, which is the exclusive or
itself for bytes.) -/
theorem processAES_keystream (aes : List Nat → List Nat → List Nat) (devAddr : Nat)
    (inp : List Nat) (n : Nat) (key : List Nat) (fcnt dir : Nat) (counter : Bool)
    (hn : n ≤ 4080) (hdir : dir < 256) :
    (processAES aes devAddr inp n key fcnt dir 0 counter).length = n ∧
    ∀ j, j < n →
      (processAES aes devAddr inp n key fcnt dir 0 counter).getD j 0 =
        (inp.getD j 0 ^^^
          (aes key ([0x01, 0, 0, 0, 0, dir] ++ hton 4 devAddr 0 ++ hton 4 fcnt 0 ++
            [0x00, if counter then j / 16 + 1 else 0])).getD (j % 16) 0) % 256 := by
  refine ⟨processAES_length _ _ _ _ _ _ _ _ _, ?_⟩
  intro j hj
  have h1 : (j / 16 + 1) % 256 = j / 16 + 1 := Nat.mod_eq_of_lt (by omega)
  rw [processAES_eq, List.getD_eq_getElem?_getD, List.getElem?_map, List.getElem?_range hj]
  simp only [Option.map_some', Option.getD_some]
  rw [ctrBlock_eq, h1, Nat.zero_mod, Nat.mod_eq_of_lt hdir]

/-- C25 (instance). The two bytes `BE EF` under `sampleAppSKey` with the stand-in cipher. -/
theorem processAES_keystream_witness :
    (processAES sampleECB 0x26011BDA [0xBE, 0xEF] 2 sampleAppSKey 1 1 0 true).length = 2 ∧
    (processAES sampleECB 0x26011BDA [0xBE, 0xEF] 2 sampleAppSKey 1 1 0 true).getD 1 0 =
      (0xEF ^^^ (sampleECB sampleAppSKey
        ([0x01, 0, 0, 0, 0, 1] ++ hton 4 0x26011BDA 0 ++ hton 4 1 0 ++ [0x00, 1])).getD 1 0)
        % 256 :=
  ⟨(processAES_keystream sampleECB 0x26011BDA [0xBE, 0xEF] 2 sampleAppSKey 1 1 true
      (by decide) (by decide)).1,
    (processAES_keystream sampleECB 0x26011BDA [0xBE, 0xEF] 2 sampleAppSKey 1 1 true
      (by decide) (by decide)).2 1 (by decide)⟩

/-! ## Activation by personalisation -/

theorem findDataRate_rev (node : LoRaWANNode) (dr : Nat) (span : LoRaWANChannelSpan_t) :
    (findDataRate node dr span).2.rev = node.rev := by
  unfold findDataRate
  simp only []
  split <;> rfl

theorem configureChannel_rev (env : Env) (d : Dev) (chan dr : Nat) :
    (configureChannel env d chan dr).2.node.rev = d.node.rev := by
  unfold configureChannel
  simp only [Dev.radio, Phy.call]
  split_ifs
  · rfl
  · rfl
  · exact findDataRate_rev _ _ _

/-- The physical layer configuration leaves the revision of the node as it is. -/
theorem setPhyProperties_rev (env : Env) (d : Dev) :
    (setPhyProperties env d).2.node.rev = d.node.rev := by
  have hc := configureChannel_rev env d 0
    (d.node.band.defaultChannels.getD 0 default).joinRequestDataRate
  unfold setPhyProperties
  by_cases hF : d.node.FSK = true
  · simp only [hF, if_true, Dev.radio, Phy.call]
    split_ifs <;> rfl
  · simp only [hF, Bool.false_eq_true, if_false]
    generalize configureChannel env d 0
      (d.node.band.defaultChannels.getD 0 default).joinRequestDataRate = r at hc ⊢
    obtain ⟨s, d1⟩ := r
    rw [← hc]
    simp only [Dev.radio, Phy.call]
    split_ifs <;> rfl

theorem setPhyProperties_sNwkSIntKey (env : Env) (d : Dev) :
    (setPhyProperties env d).2.node.sNwkSIntKey = d.node.sNwkSIntKey :=
  congrArg (fun s => s.2.2.2.2.1) (setPhyProperties_session env d)

/-- What `beginAPB` leaves in the node when the optional keys are not given: the revision
and `sNwkSIntKey` are the ones before the call. -/
theorem beginAPB_none (env : Env) (d : Dev) (addr : Nat) (nwkSKey appSKey : List Nat) :
    (beginAPB env d addr nwkSKey appSKey none none).2.node.rev = d.node.rev ∧
    (beginAPB env d addr nwkSKey appSKey none none).2.node.sNwkSIntKey = d.node.sNwkSIntKey := by
  unfold beginAPB
  refine ⟨by rw [setPhyProperties_rev], ?_⟩
  rw [setPhyProperties_sNwkSIntKey]

/-- What `beginAPB` leaves in the node when only `fNwkSIntKey` is given: revision 1. -/
theorem beginAPB_fNwkSIntKey_only (env : Env) (d : Dev) (addr : Nat)
    (nwkSKey appSKey key : List Nat) :
    (beginAPB env d addr nwkSKey appSKey (some key) none).2.node.rev = 1 := by
  unfold beginAPB
  rw [setPhyProperties_rev]

/-- C23 (code at the failing inputs). On a node that has not joined (all keys zero,
revision 0), `beginAPB` without the two optional keys succeeds and stores the given
`nwkSKey` in `fNwkSIntKey` and `nwkSEncKey`, but `sNwkSIntKey` is still the zero key. On a
node of revision 1 the same call leaves the revision at 1. With `fNwkSIntKey` alone given
(no `sNwkSIntKey`) the revision is set to 1 and `sNwkSIntKey` is still the zero key. -/
theorem beginAPB_keys_not_mirrored :
    (beginAPB (sampleEnv RADIOLIB_ERR_NONE []) sampleDev 0x26011BDA sampleNwkKey sampleAppSKey
      none none).1 = RADIOLIB_ERR_NONE ∧
    (beginAPB (sampleEnv RADIOLIB_ERR_NONE []) sampleDev 0x26011BDA sampleNwkKey sampleAppSKey
      none none).2.node.session =
      (0x26011BDA, (1000, 2000), sampleAppSKey, sampleNwkKey, List.replicate 16 0,
        sampleNwkKey) ∧
    sampleDevRev11.node.rev = 1 ∧
    (beginAPB (sampleEnv RADIOLIB_ERR_NONE []) sampleDevRev11 0x26011BDA sampleNwkKey
      sampleAppSKey none none).2.node.rev = 1 ∧
    (beginAPB (sampleEnv RADIOLIB_ERR_NONE []) sampleDev 0x26011BDA sampleNwkKey sampleAppSKey
      (some sampleAppKey) none).2.node.rev = 1 ∧
    (beginAPB (sampleEnv RADIOLIB_ERR_NONE []) sampleDev 0x26011BDA sampleNwkKey sampleAppSKey
      (some sampleAppKey) none).2.node.sNwkSIntKey = List.replicate 16 0 := by
  decide!

/-! ## Channel selection -/

/-- C26 (code at the failing inputs). On a band with two spans, of 3 and of 5 channels (8 in
all), with the second span starting at 867100 in steps of 200: for channel 3, the first
channel of the second span, `configureChannel` requests the frequency 867700 (local index
3) and not 867100 (local index 0); for channel 5, the third channel of the second span, it
returns `RADIOLIB_ERR_INVALID_CHANNEL` with no radio call made. Channel 2, in the first
span, gets the frequency of its local index 2. -/
theorem configureChannel_second_span :
    totalChannels sampleBandTwoSpans = 8 ∧
    (configureChannel (sampleEnv RADIOLIB_ERR_NONE []) sampleDevTwoSpans 3 0).1 =
      RADIOLIB_ERR_NONE ∧
    (configureChannel (sampleEnv RADIOLIB_ERR_NONE []) sampleDevTwoSpans 3 0).2.phy.calls =
      [.setFrequency 867700, .setDataRate (.lora 125 12)] ∧
    (configureChannel (sampleEnv RADIOLIB_ERR_NONE []) sampleDevTwoSpans 5 0) =
      (RADIOLIB_ERR_INVALID_CHANNEL, sampleDevTwoSpans) ∧
    (configureChannel (sampleEnv RADIOLIB_ERR_NONE []) sampleDevTwoSpans 2 0).2.phy.calls =
      [.setFrequency 868500, .setDataRate (.lora 125 12)] := by
  decide!

/-- The channel loop of one span keeps the channel counter at or below the channel index in
the span, and when it finds the channel, the channel number is at most the counter and the
index is inside the span. -/
theorem configureChannelInner_found (chan numChannels : Nat) :
    ∀ (n spanChannelId chanCtr : Nat), chanCtr ≤ spanChannelId →
      (configureChannelInner chan numChannels n spanChannelId chanCtr).2.2 ≤
        (configureChannelInner chan numChannels n spanChannelId chanCtr).2.1 ∧
      ((configureChannelInner chan numChannels n spanChannelId chanCtr).1 = true →
        chan < numChannels) := by
  intro n
  induction n with
  | zero =>
    intro s c h
    exact ⟨h, fun hf => by simp [configureChannelInner] at hf⟩
  | succ n ih =>
    intro s c h
    unfold configureChannelInner
    split_ifs with h1 h2
    · exact ⟨h, fun _ => by omega⟩
    · exact ih (s + 1) (c + 1) (by omega)
    · exact ⟨h, fun hf => by simp at hf⟩

/-- When the span loop finds the channel, some span of the band has more channels than the
channel number. -/
theorem configureChannelOuter_found (band : LoRaWANBand_t) (chan : Nat) :
    ∀ (n span spanChannelId chanCtr : Nat), chanCtr ≤ spanChannelId →
      (configureChannelOuter band chan n span spanChannelId chanCtr).1 = true →
      ∃ s, s < band.numChannelSpans ∧ chan < (band.defaultChannels.getD s default).numChannels := by
  intro n
  induction n with
  | zero =>
    intro sp s c _ hf
    simp [configureChannelOuter] at hf
  | succ n ih =>
    intro sp s c h hf
    unfold configureChannelOuter at hf
    have hin := configureChannelInner_found chan
      (band.defaultChannels.getD sp default).numChannels
      (band.defaultChannels.getD sp default).numChannels s c h
    by_cases h1 : sp < band.numChannelSpans
    · rw [if_pos h1] at hf
      dsimp only at hf
      by_cases h2 : (configureChannelInner chan (band.defaultChannels.getD sp default).numChannels
          (band.defaultChannels.getD sp default).numChannels s c).1 = true
      · exact ⟨sp, h1, hin.2 h2⟩
      · rw [if_neg h2] at hf
        exact ih _ _ _ hin.1 hf
    · rw [if_neg h1] at hf
      simp at hf

/-- The number of channels of a span of the band is at most the total. -/
theorem numChannels_le_total (band : LoRaWANBand_t) (s : Nat) (hs : s < band.numChannelSpans) :
    (band.defaultChannels.getD s default).numChannels ≤ totalChannels band := by
  unfold totalChannels
  apply List.single_le_sum (fun _ _ => Nat.zero_le _)
  exact List.mem_map.mpr ⟨s, List.mem_range.mpr hs, rfl⟩

/-- C27. For every band and every channel number that is at least the total number of
channels of the band (so every channel number, when the band has no channels),
`configureChannel` returns `RADIOLIB_ERR_INVALID_CHANNEL` and leaves the node and the radio
as they were: no radio call is made, and `chIndex` and `dataRate` keep their values. -/
theorem configureChannel_invalid (env : Env) (d : Dev) (chan dr : Nat)
    (h : totalChannels d.node.band ≤ chan) :
    configureChannel env d chan dr = (RADIOLIB_ERR_INVALID_CHANNEL, d) ∧
    (configureChannel env d chan dr).2.phy.calls = d.phy.calls ∧
    (configureChannel env d chan dr).2.node.chIndex = d.node.chIndex ∧
    (configureChannel env d chan dr).2.node.dataRate = d.node.dataRate := by
  have hf : (configureChannelOuter d.node.band chan d.node.band.numChannelSpans 0 0 0).1 =
      false := by
    by_contra hc
    obtain ⟨s, hs, hlt⟩ := configureChannelOuter_found d.node.band chan _ 0 0 0 (le_refl 0)
      (by simpa using hc)
    have := numChannels_le_total d.node.band s hs
    omega
  have he : configureChannel env d chan dr = (RADIOLIB_ERR_INVALID_CHANNEL, d) := by
    unfold configureChannel
    simp only [hf, Bool.not_false, if_true]
  rw [he]
  exact ⟨rfl, rfl, rfl, rfl⟩

/-- C27 (instance). On the band with two spans of 3 and 5 channels, channel 8 is rejected;
on the sample band with its 3 channels, channel 3 is rejected. -/
theorem configureChannel_invalid_witness :
    totalChannels sampleBandTwoSpans = 8 ∧
    configureChannel (sampleEnv RADIOLIB_ERR_NONE []) sampleDevTwoSpans 8 0 =
      (RADIOLIB_ERR_INVALID_CHANNEL, sampleDevTwoSpans) ∧
    configureChannel (sampleEnv RADIOLIB_ERR_NONE []) sampleDev 3 0 =
      (RADIOLIB_ERR_INVALID_CHANNEL, sampleDev) :=
  ⟨by decide,
    (configureChannel_invalid (sampleEnv RADIOLIB_ERR_NONE []) sampleDevTwoSpans 8 0
      (by decide)).1,
    (configureChannel_invalid (sampleEnv RADIOLIB_ERR_NONE []) sampleDev 3 0 (by decide)).1⟩

/-! ## Downlink frames and exits -/

/-- C21 (code at the failing input). The frame `sampleDownlinkFCnt1` of 15 bytes carries the
frame counter 1, and its last four bytes are the little-endian MIC under the `sNwkSIntKey`
of the node over the prefix block `49 00 00 00 00 01 DA 1B 01 26 01 00 00 00 00 0B` (with
the frame counter 1) followed by the frame without its MIC. Received by the node of
`sampleSessionDev`, `downlink` returns `RADIOLIB_ERR_CRC_MISMATCH`: the block it checks the
MIC over has zero bytes in the place of the frame counter. The frame `sampleDownlink`, which
differs only in the frame counter 0 and its MIC, is accepted. -/
theorem downlink_mic_ignores_fcnt :
    sampleDownlinkFCnt1.length = 15 ∧
    ntoh 2 (sampleDownlinkFCnt1.drop 6) 0 = 1 ∧
    micBlock0 RADIOLIB_LORAWAN_CHANNEL_DIR_DOWNLINK 0x26011BDA 1 11 =
      [0x49, 0, 0, 0, 0, 0x01, 0xDA, 0x1B, 0x01, 0x26, 1, 0, 0, 0, 0x00, 11] ∧
    sampleSessionDev.node.sNwkSIntKey = sampleNwkKey ∧
    sampleDownlinkFCnt1.drop 11 =
      hton 4 (generateMIC sampleCMAC
        (some (micBlock0 RADIOLIB_LORAWAN_CHANNEL_DIR_DOWNLINK 0x26011BDA 1 11 ++
          sampleDownlinkFCnt1.take 11)) 27 sampleNwkKey) 0 ∧
    (downlink (sampleEnvAt 11 RADIOLIB_PREAMBLE_DETECTED 15 sampleDownlinkFCnt1) 10
      sampleSessionDev [] 0).map (fun r => (r.1, r.2.1, r.2.2.1)) =
      some (RADIOLIB_ERR_CRC_MISMATCH, [], 0) ∧
    (downlink (sampleEnvAt 11 RADIOLIB_PREAMBLE_DETECTED 15 sampleDownlink) 10
      sampleSessionDev [] 0).map (fun r => r.1) = some RADIOLIB_ERR_NONE := by
  decide!

/-- C22 (code at the failing inputs). On the LoRa node of `sampleSessionDev`, inside the Rx
windows: when `startChannelScan` fails, `downlink` returns the status of that call and the
last IQ call made is `invertIQ(true)`; when nothing is detected in the first window and a
frame is received in the second, `downlink` returns `RADIOLIB_ERR_NONE` and the last
frequency requested from the radio is the one of the backup channel, 869525, not the one of
the uplink channel, 868100. -/
theorem downlink_exit_not_restored :
    sampleSessionDev.node.FSK = false ∧
    (downlink (sampleEnvAt 8 RADIOLIB_ERR_UNKNOWN 15 sampleDownlink) 10 sampleSessionDev
      [] 0).map (fun r => (r.1, r.2.2.2.phy.calls)) =
      some (RADIOLIB_ERR_UNKNOWN,
        [.invertIQ true, .getTimeOnAir 0, .setChannelScanAction, .startChannelScan]) ∧
    (downlink (sampleEnvAt 22 RADIOLIB_PREAMBLE_DETECTED 15 sampleDownlink) 10 sampleSessionDev
      [] 0).map (fun r => (r.1, r.2.2.2.phy.calls)) =
      some (RADIOLIB_ERR_NONE,
        [.invertIQ true, .getTimeOnAir 0, .setChannelScanAction, .startChannelScan,
          .getChannelScanResult, .setFrequency 869525, .setDataRate (.lora 125 12),
          .startChannelScan, .getChannelScanResult, .clearChannelScanAction,
          .setPacketReceivedAction, .startReceive, .standby, .clearPacketReceivedAction,
          .invertIQ false, .getPacketLength true, .readData 15]) ∧
    (setPhyProperties (sampleEnv RADIOLIB_ERR_NONE []) sampleSessionDev).2.phy.calls.take 2 =
      [.setFrequency 868100, .setDataRate (.lora 125 12)] := by
  decide!

/-- C29 (code at the failing input). On the band `sampleBandDr3` the uplink channel is
configured at data rate 3 (spreading factor 9), and the node of `sampleDevDr3` holds
`dataRate = 3`. A `downlink` that finds no preamble in either window returns
`RADIOLIB_ERR_RX_TIMEOUT` with `dataRate = 0`, the index found for the backup channel, and
the data rate it sets on the uplink channel at the end is the one of index 0 (spreading
factor 12). -/
theorem downlink_timeout_dataRate_changed :
    (setPhyProperties (sampleEnv RADIOLIB_ERR_NONE []) sampleDevDr3).2.node.dataRate = 3 ∧
    (setPhyProperties (sampleEnv RADIOLIB_ERR_NONE []) sampleDevDr3).2.phy.calls.take 2 =
      [.setFrequency 868100, .setDataRate (.lora 125 9)] ∧
    sampleDevDr3.node.dataRate = 3 ∧
    (downlink (sampleEnv RADIOLIB_ERR_NONE []) 10 sampleDevDr3 [] 0).map
        (fun r => (r.1, r.2.2.2.node.dataRate, r.2.2.2.phy.calls)) =
      some (RADIOLIB_ERR_RX_TIMEOUT, 0,
        [.invertIQ true, .getTimeOnAir 0, .setChannelScanAction, .startChannelScan,
          .getChannelScanResult, .setFrequency 869525, .setDataRate (.lora 125 12),
          .startChannelScan, .getChannelScanResult, .standby, .invertIQ false,
          .setFrequency 868100, .setDataRate (.lora 125 12)]) := by
  decide!

/-! ## Rx window delays -/

theorem radio_delays (env : Env) (d : Dev) (c : RadioCall) :
    (d.radio env c).2.phy.delays = d.phy.delays := rfl

theorem millis_delays (env : Env) (d : Dev) : (d.millis env).2.phy.delays = d.phy.delays := rfl

theorem waitScanFlag_delays (env : Env) (cadStart : Nat) :
    ∀ (n : Nat) (d d' : Dev), waitScanFlag env cadStart n d = some d' →
      d'.phy.delays = d.phy.delays := by
  intro n
  induction n with
  | zero => intro d d' h; simp [waitScanFlag] at h
  | succ n ih =>
    intro d d' h
    unfold waitScanFlag at h
    simp only [Dev.millis, Phy.step] at h
    split_ifs at h with h1 h2
    · cases h; rfl
    · cases h; rfl
    · have := ih _ _ h
      exact this

/-- The channel scan of a window requests no delay from the host. -/
theorem scanLoop_delays (env : Env) (scanStart scanTimeout scanGuard : Nat) :
    ∀ (n : Nat) (d : Dev) (o : ScanOutcome),
      scanLoop env scanStart scanTimeout scanGuard n d = some o →
        o.dev.phy.delays = d.phy.delays := by
  intro n
  induction n with
  | zero => intro d o h; simp [scanLoop] at h
  | succ n ih =>
    intro d o h
    unfold scanLoop at h
    repeat' first | (fail_if_no_progress simp only at h) | split at h
    all_goals first
      | (cases h; done)
      | (cases h; rfl)
      | (rename_i hw _
         cases h
         simp only [ScanOutcome.dev, radio_delays, millis_delays,
           waitScanFlag_delays _ _ _ _ _ hw])
      | (rename_i hw _
         rw [ih _ _ h]
         simp only [radio_delays, millis_delays, waitScanFlag_delays _ _ _ _ _ hw])

theorem delays_of_cases (k : Nat) (a b : List Nat) (w : Nat)
    (h : (k = 0 → b = a) ∧ (k ≠ 0 → ∃ rest : List Nat, b = a ++ w :: rest)) :
    ∃ ws : List Nat, b = a ++ ws := by
  by_cases hk : k = 0
  · exact ⟨[], by rw [h.1 hk, List.append_nil]⟩
  · obtain ⟨rest, hr⟩ := h.2 hk
    exact ⟨w :: rest, hr⟩

/-- At the start of an Rx window `downlink` requests the delay `windowWait` from the host,
and the delays requested later in the loop follow it. -/
theorem rxWindows_delays (env : Env) (scanTimeout scanGuard fuel : Nat) :
    ∀ (k i : Nat) (d : Dev) (o : ScanOutcome),
      rxWindows env scanTimeout scanGuard fuel k i d = some o →
        (k = 0 → o.dev.phy.delays = d.phy.delays) ∧
        (k ≠ 0 → ∃ rest : List Nat, o.dev.phy.delays = d.phy.delays ++
          windowWait d.node i (env.millis d.phy.tick % 2 ^ 32) scanGuard :: rest) := by
  intro k
  induction k with
  | zero =>
    intro i d o h
    simp only [rxWindows, Option.some.injEq] at h
    subst h
    exact ⟨fun _ => rfl, fun h => absurd rfl h⟩
  | succ k ih =>
    intro i d o h
    refine ⟨fun h0 => absurd h0 (Nat.succ_ne_zero k), fun _ => ?_⟩
    unfold rxWindows at h
    repeat' first | (fail_if_no_progress simp only at h) | split at h
    all_goals first
      | (cases h; done)
      | (have hS := scanLoop_delays _ _ _ _ _ _ _ (by assumption)
         simp only [ScanOutcome.dev, millis_delays, Phy.delay] at hS
         first
           | (cases h
              exact ⟨[], by simp only [ScanOutcome.dev, radio_delays, hS]; rfl⟩)
           | (obtain ⟨ws, hws⟩ := delays_of_cases _ _ _ _ (ih _ _ _ h)
              refine ⟨ws, ?_⟩
              rw [hws]
              simp only [radio_delays, hS, List.append_assoc]
              rfl))

/-- C28 (as stated, refuted). The node of `sampleDevAt 99700` has `rxDelayStart = 99700` and
`rxDelays[0] = 1000`; its `downlink` call enters the first window at clock value 100400,
when 300 ms are left until the window opens. The quantity of the claim,
`(rxDelayStart + rxDelays[0] - 500) - t`, is negative there, so the claim has the delay 0;
the delay requested from the host is 300. -/
theorem downlink_delay_inside_guard :
    (sampleDevAt 99700).node.rxDelayStart = 99700 ∧ (sampleDevAt 99700).node.rxDelay 0 = 1000 ∧
    (sampleEnvAt 11 RADIOLIB_PREAMBLE_DETECTED 15 sampleDownlink).millis 4 = 100400 ∧
    max (((99700 : Int) + 1000 - 500) - 100400) 0 = 0 ∧
    (downlink (sampleEnvAt 11 RADIOLIB_PREAMBLE_DETECTED 15 sampleDownlink) 10
      (sampleDevAt 99700) [] 0).map (fun r => r.2.2.2.phy.delays) = some [300] := by
  decide!

/-- The delay requested when the window has already opened: with `rxDelayStart = 99000` the
first window is entered 1400 ms after `rxDelayStart`, 400 ms after it opened, and the
unsigned difference `rxDelays[0] - 1400` wraps around. -/
theorem downlink_delay_wraps :
    (downlink (sampleEnvAt 11 RADIOLIB_PREAMBLE_DETECTED 15 sampleDownlink) 10
      (sampleDevAt 99000) [] 0).map (fun r => r.2.2.2.phy.delays) = some [4294966396] := by
  decide!

/-- C28 (amended). When Rx window `i` is entered at a clock value at which `e` milliseconds
have passed since `rxDelayStart` (on the 32-bit clock) and the window has not opened yet
(`e ≤ rxDelays[i]`), so that `r = rxDelays[i] - e` milliseconds are left until it opens:
the waiting time computed is `r - 500` when `r` exceeds 500 and `r` itself otherwise; the
wait ends no later than the opening of the window (`e + wait ≤ rxDelays[i]`); and this
waiting time is the delay that the window loop requests from the host first. -/
theorem rxWindow_delay (env : Env) (d : Dev) (i : Nat)
    (hd : d.node.rxDelay i < 2 ^ 32)
    (he : sub32 (env.millis d.phy.tick % 2 ^ 32) d.node.rxDelayStart ≤ d.node.rxDelay i) :
    let e := sub32 (env.millis d.phy.tick % 2 ^ 32) d.node.rxDelayStart
    let r := d.node.rxDelay i - e
    let w := if r > 500 then r - 500 else r
    windowWait d.node i (env.millis d.phy.tick % 2 ^ 32) 500 = w ∧
    e + w ≤ d.node.rxDelay i ∧
    ∀ (scanTimeout fuel k : Nat) (o : ScanOutcome),
      rxWindows env scanTimeout 500 fuel (k + 1) i d = some o →
        ∃ rest : List Nat, o.dev.phy.delays = d.phy.delays ++ w :: rest := by
  intro e r w
  have hlt : e < 2 ^ 32 := Nat.mod_lt _ (by norm_num)
  have hw : windowWait d.node i (env.millis d.phy.tick % 2 ^ 32) 500 = w := by
    have hs : sub32 (d.node.rxDelay i) e = r := by
      show (d.node.rxDelay i % 2 ^ 32 + 2 ^ 32 - e % 2 ^ 32) % 2 ^ 32 = d.node.rxDelay i - e
      rw [Nat.mod_eq_of_lt hd, Nat.mod_eq_of_lt hlt]
      have h1 : d.node.rxDelay i + 2 ^ 32 - e = (d.node.rxDelay i - e) + 2 ^ 32 := by omega
      rw [h1, Nat.add_mod_right]
      exact Nat.mod_eq_of_lt (by omega)
    show (if sub32 (d.node.rxDelay i) e > 500 then sub32 (d.node.rxDelay i) e - 500
      else sub32 (d.node.rxDelay i) e) = w
    rw [hs]
  refine ⟨hw, ?_, ?_⟩
  · show e + (if r > 500 then r - 500 else r) ≤ d.node.rxDelay i
    split_ifs <;> omega
  · intro scanTimeout fuel k o h
    rw [← hw]
    exact (rxWindows_delays env scanTimeout 500 fuel (k + 1) i d o h).2 (Nat.succ_ne_zero k)

/-- C28 (amended, instance). On the node of `sampleSessionDev`, whose first window opens 1000
ms after `rxDelayStart = 100000`: entered at clock value 100000, the waiting time is 500 and
it is the first delay requested; the loop over the two windows returns. -/
theorem rxWindow_delay_witness :
    windowWait sampleSessionDev.node 0 100000 500 = 500 ∧
    ∃ o : ScanOutcome,
      rxWindows (sampleEnv RADIOLIB_ERR_NONE []) 0 500 10 2 0 sampleSessionDev = some o ∧
      ∃ rest : List Nat, o.dev.phy.delays = 500 :: rest := by
  have hs : (rxWindows (sampleEnv RADIOLIB_ERR_NONE []) 0 500 10 2 0 sampleSessionDev).map
      (fun o => o.dev.phy.tick) = some 20 := by
    decide!
  obtain ⟨o, ho, _⟩ := Option.map_eq_some'.mp hs
  have h := rxWindow_delay (sampleEnv RADIOLIB_ERR_NONE []) sampleSessionDev 0 (by decide)
    (by decide)
  exact ⟨h.1, o, ho, h.2.2 0 10 1 o ho⟩

end LoRaWAN
